import Mathlib

/-!
Discord ticket bot: sessions, purchases and the security gate

A shallow embedding of `src/database/DatabaseManager.js`, `src/managers/TicketManager.js`,
`src/managers/ProductManager.js` and `src/security/SecurityManager.js`, with the callers
that decide which instance of a manager runs: `createTicket` of `src/commands/user.js`,
`execute` and the handlers of `src/commands/admin.js`, the `InteractionCreate` handler and
`handleButtonInteraction` of `src/index.js`, and the check of `ADMIN_USER_IDS` in
`validate-env.js`.

Conventions of the embedding.

* The SQLite tables are lists of rows, in insertion order.  `INTEGER` columns are `Int`,
  `TEXT` columns are `String`, nullable columns are `Option`.  The `REAL` price and amount
  columns are only copied and compared by the code modelled here; they are carried as `Nat`
  (hundredths).  Every `Date.now()` of one handler run reads the same clock value `now`.
* An `async` method becomes a function from the world before the call to an `Outcome`: the
  world after the call, the interaction object after the call (discord.js records on it
  whether it was already answered) and either the returned value or the thrown error.
* discord.js is not part of the repository.  Its calls are taken to resolve, with two
  exceptions.  `guild.channels.create` resolves or rejects as the environment says.  The
  interaction response methods follow the discord.js rule the source itself relies on
  (`if (interaction.deferred || interaction.replied)` in `ProductManager.js` and `index.js`):
  `reply`, `deferReply`, `deferUpdate` and `update` reject with `InteractionAlreadyReplied`
  once the interaction is deferred or replied, and `editReply` rejects with
  `InteractionNotReplied` before that.
* rate-limiter-flexible is not part of the repository either.  `RateLimiterMemory` follows
  the library: a key may consume `points` points per window, a window starts with the first
  point and lasts `duration` seconds, and a rejected `consume` still counts its point.
* Log-file output of `Logger` and the rendering of embeds are not represented.
-/

namespace TicketBot

/-! ## Rows of the tables created by `DatabaseManager.createTables` -/

/-- A row of table `users`. -/
structure UserRow where
  id : String
  username : String
  discriminator : String
  avatar : Option String
  created_at : Nat
  updated_at : Nat
  is_blacklisted : Int
  total_tickets : Int
  total_purchases : Int
deriving DecidableEq, Repr

/-- A row of table `tickets`. -/
structure TicketRow where
  id : Int
  channel_id : String
  user_id : String
  product_id : Option Int
  status : String
  created_at : Nat
  closed_at : Option Nat
  closed_by : Option String
  close_reason : Option String
deriving DecidableEq, Repr

/-- A row of table `products`. -/
structure ProductRow where
  id : Int
  name : String
  description : Option String
  price : Nat
  image_url : Option String
  digital_content : Option String
  is_active : Int
  stock_quantity : Int
  created_at : Nat
  updated_at : Nat
  sales_count : Int
deriving DecidableEq, Repr

/-- A row of table `sales`. -/
structure SaleRow where
  id : Int
  user_id : String
  product_id : Int
  ticket_id : Option Int
  amount : Nat
  status : String
  payment_method : Option String
  transaction_id : Option String
  created_at : Nat
  completed_at : Option Nat
deriving DecidableEq, Repr

/-- A row of table `security_logs`; `data` holds the fields of the logged object, which
the code stores as one JSON text. -/
structure LogRow where
  id : Int
  event_type : String
  user_id : Option String
  data : List (String × String)
  created_at : Nat
deriving DecidableEq, Repr

/-- The database file: the five tables the managers use and the `sqlite_sequence`
counters of the `AUTOINCREMENT` keys. -/
structure Database where
  users : List UserRow
  tickets : List TicketRow
  products : List ProductRow
  sales : List SaleRow
  security_logs : List LogRow
  seqTickets : Int
  seqProducts : Int
  seqSales : Int
  seqLogs : Int
deriving DecidableEq, Repr

/-- The database right after `createTables` on a new file, without the sample rows. -/
def Database.empty : Database :=
  { users := [], tickets := [], products := [], sales := [], security_logs := [],
    seqTickets := 0, seqProducts := 0, seqSales := 0, seqLogs := 0 }

/-! ## `DatabaseManager` -/

namespace DatabaseManager

/-- `createUser`: `INSERT OR REPLACE INTO users (id, username, discriminator, avatar,
created_at, updated_at)`; a row with the same primary key is deleted first and the
columns not listed take their defaults. -/
def createUser (db : Database) (id username discriminator : String) (avatar : Option String)
    (now : Nat) : Database :=
  { db with
    users := db.users.filter (fun u => !(u.id == id)) ++
      [{ id := id, username := username,
         discriminator := if discriminator == "" then "0000" else discriminator,
         avatar := avatar, created_at := now, updated_at := now,
         is_blacklisted := 0, total_tickets := 0, total_purchases := 0 }] }

/-- `getUser`: `SELECT * FROM users WHERE id = ?`. -/
def getUser (db : Database) (userId : String) : Option UserRow :=
  db.users.find? (fun u => u.id == userId)

/-- `createTicket`: `INSERT INTO tickets (channel_id, user_id, product_id, status,
created_at)` with status `'open'`; `channel_id` is `UNIQUE`, so the insert is rejected
(`none`) when a row already has that channel.  `ticketData.productId || null` turns
a product id of 0 into `NULL`. -/
def createTicket (db : Database) (channelId userId : String) (productId : Option Int)
    (now : Nat) : Option Database :=
  if db.tickets.any (fun t => t.channel_id == channelId) then none
  else some { db with
    tickets := db.tickets ++
      [{ id := db.seqTickets + 1, channel_id := channelId, user_id := userId,
         product_id := if productId = some 0 then none else productId,
         status := "open", created_at := now,
         closed_at := none, closed_by := none, close_reason := none }],
    seqTickets := db.seqTickets + 1 }

/-- `getTicket`: `SELECT * FROM tickets WHERE channel_id = ?`. -/
def getTicket (db : Database) (channelId : String) : Option TicketRow :=
  db.tickets.find? (fun t => t.channel_id == channelId)

/-- `getUserActiveTickets`: `SELECT * FROM tickets WHERE user_id = ? AND status = "open"`. -/
def getUserActiveTickets (db : Database) (userId : String) : List TicketRow :=
  db.tickets.filter (fun t => t.user_id == userId && t.status == "open")

/-- `closeTicket`: `UPDATE tickets SET status = 'closed', closed_at = ?, closed_by = ?,
close_reason = ? WHERE channel_id = ?`. -/
def closeTicket (db : Database) (channelId closedBy : String) (reason : Option String)
    (now : Nat) : Database :=
  { db with
    tickets := db.tickets.map (fun t =>
      if t.channel_id == channelId then
        { t with status := "closed", closed_at := some now, closed_by := some closedBy,
                 close_reason := reason }
      else t) }

/-- `getProducts`: `SELECT * FROM products [WHERE is_active = 1] ORDER BY id`.  Rows are
kept in insertion order, which is the order of the `AUTOINCREMENT` key. -/
def getProducts (db : Database) (activeOnly : Bool) : List ProductRow :=
  if activeOnly then db.products.filter (fun p => p.is_active == 1) else db.products

/-- `getProduct`: `SELECT * FROM products WHERE id = ?`. -/
def getProduct (db : Database) (productId : Int) : Option ProductRow :=
  db.products.find? (fun p => p.id == productId)

/-- `updateProduct(productId, { stock_quantity })`: `UPDATE products SET stock_quantity = ?,
updated_at = ? WHERE id = ?`. -/
def updateProductStock (db : Database) (productId : Int) (stock : Int) (now : Nat) : Database :=
  { db with
    products := db.products.map (fun p =>
      if p.id == productId then { p with stock_quantity := stock, updated_at := now } else p) }

/-- `incrementProductSales`: `UPDATE products SET sales_count = sales_count + 1 WHERE id = ?`. -/
def incrementProductSales (db : Database) (productId : Int) : Database :=
  { db with
    products := db.products.map (fun p =>
      if p.id == productId then { p with sales_count := p.sales_count + 1 } else p) }

/-- `createSale`: `INSERT INTO sales (user_id, product_id, ticket_id, amount, status,
payment_method, created_at)`, with `saleData.status || 'pending'`. -/
def createSale (db : Database) (userId : String) (productId : Int) (ticketId : Option Int)
    (amount : Nat) (status : String) (paymentMethod : Option String) (now : Nat) : Database :=
  { db with
    sales := db.sales ++
      [{ id := db.seqSales + 1, user_id := userId, product_id := productId,
         ticket_id := ticketId, amount := amount,
         status := if status == "" then "pending" else status,
         payment_method := paymentMethod, transaction_id := none,
         created_at := now, completed_at := none }],
    seqSales := db.seqSales + 1 }

/-- `updateSale(saleId, { status, payment_method, transaction_id, completed_at })`, the one
shape `completeSale` uses: `UPDATE sales SET status = ?, payment_method = ?,
transaction_id = ?, completed_at = ? WHERE id = ?`. -/
def updateSale (db : Database) (saleId : Int) (status : String) (paymentMethod : Option String)
    (transactionId : Option String) (completedAt : Nat) : Database :=
  { db with
    sales := db.sales.map (fun s =>
      if s.id == saleId then
        { s with status := status, payment_method := paymentMethod,
                 transaction_id := transactionId, completed_at := some completedAt }
      else s) }

/-- The query `get('SELECT * FROM sales WHERE id = ?', [saleId])` of `completeSale`. -/
def getSale (db : Database) (saleId : Int) : Option SaleRow :=
  db.sales.find? (fun s => s.id == saleId)

/-- The query of `getDigitalContent`: `SELECT * FROM sales WHERE user_id = ? AND
product_id = ? AND status = "completed"`, first row. -/
def getCompletedSale (db : Database) (userId : String) (productId : Int) : Option SaleRow :=
  db.sales.find? (fun s => s.user_id == userId && s.product_id == productId &&
    s.status == "completed")

/-- `logSecurityEvent`: `INSERT INTO security_logs (event_type, user_id, data, ...)`. -/
def logSecurityEvent (db : Database) (eventType : String) (userId : Option String)
    (data : List (String × String)) (now : Nat) : Database :=
  { db with
    security_logs := db.security_logs ++
      [{ id := db.seqLogs + 1, event_type := eventType, user_id := userId, data := data,
         created_at := now }],
    seqLogs := db.seqLogs + 1 }

end DatabaseManager

/-! ## The process around the database -/

/-- An entry of the client's channel cache (`guild.channels.cache`, `client.channels.cache`). -/
structure Channel where
  id : String
  isCategory : Bool
deriving DecidableEq, Repr

/-- An armed idle timer: a pending `setTimeout` callback of `setTicketTimeout`, with the
`TicketManager` instance that armed it and the channel it is for. -/
structure IdleTimer where
  handle : Nat
  manager : Nat
  channelId : String
deriving DecidableEq, Repr

/-- An entry of the `ticketTimeouts` map of one `TicketManager` instance: the timer handle
stored under the channel id. -/
structure TimeoutEntry where
  manager : Nat
  channelId : String
  handle : Nat
deriving DecidableEq, Repr

/-- An entry of the `activeTickets` map of one `TicketManager` instance. -/
structure ActiveTicket where
  manager : Nat
  channelId : String
  userId : String
  productId : Option Int
  createdAt : Nat
deriving DecidableEq, Repr

/-- What a handler makes visible on Discord. -/
inductive Effect where
  | reply (userId : String) (content : String)
  | editReply (userId : String) (content : String)
  | update (userId : String) (content : String)
  | confirmPrompt (userId : String) (productId : String) (product : ProductRow)
  | closeNotice (userId : String)
  | channelCreated (channelId : String)
  | welcome (channelId : String) (userId : String)
  | inactivityNotice (channelId : String)
  | claimNotice (userId : String)
deriving DecidableEq, Repr

/-- The state one handler run starts from and ends in. -/
structure World where
  db : Database
  /-- The channel cache of the client. -/
  channels : List Channel
  /-- The value of `process.env.TICKET_CATEGORY_ID`. -/
  ticketCategoryId : Option String
  /-- The value of `client.user.id`. -/
  botId : String
  /-- The idle timers that are armed. -/
  timers : List IdleTimer
  /-- The entries of the `ticketTimeouts` maps. -/
  ticketTimeouts : List TimeoutEntry
  /-- The handle the next `setTimeout` returns. -/
  nextHandle : Nat
  /-- The number the next `new TicketManager(...)` gets; the instance of `index.js` is 0. -/
  nextManager : Nat
  /-- The entries of the `activeTickets` maps. -/
  activeTickets : List ActiveTicket
  /-- The channels with a pending delayed `channel.delete`. -/
  scheduledDeletes : List String
  /-- The `productsCache` of the `ProductManager`. -/
  productsCache : List ProductRow
  /-- Everything shown on Discord so far, oldest first. -/
  effects : List Effect
deriving DecidableEq, Repr

/-- A process that has just started on a new database file. -/
def World.initial (channels : List Channel) (ticketCategoryId : Option String)
    (botId : String) : World :=
  { db := Database.empty, channels := channels, ticketCategoryId := ticketCategoryId,
    botId := botId, timers := [], ticketTimeouts := [], nextHandle := 0, nextManager := 1,
    activeTickets := [], scheduledDeletes := [],
    productsCache := [], effects := [] }

/-- `channels.cache.get(id)` finds a channel. -/
def World.hasChannel (w : World) (id : String) : Bool :=
  w.channels.any (fun c => c.id == id)

/-- `guild.channels.cache.get(process.env.TICKET_CATEGORY_ID)`, kept only when its type is
`ChannelType.GuildCategory`. -/
def World.category (w : World) : Option Channel :=
  match w.ticketCategoryId with
  | none => none
  | some id => (w.channels.find? (fun c => c.id == id)).filter (fun c => c.isCategory)

/-- `interaction.user`. -/
structure DiscordUser where
  id : String
  username : String
  discriminator : String
  avatar : Option String
  /-- The flag `user.bot`: the account is an automated one. -/
  bot : Bool
  /-- The time the account was created, `user.createdTimestamp`. -/
  createdTimestamp : Nat
deriving DecidableEq, Repr

/-- The interaction a handler receives. -/
structure Interaction where
  user : DiscordUser
  /-- The value of `interaction.channel.id`. -/
  channelId : String
  /-- The value of `interaction.member.permissions.has(ManageChannels)`. -/
  staff : Bool
  deferred : Bool
  replied : Bool
deriving DecidableEq, Repr

/-- The result of an `async` method. -/
structure Outcome (α : Type) where
  world : World
  interaction : Interaction
  result : Except String α

/-- Shows `e` on Discord. -/
def World.emit (w : World) (e : Effect) : World :=
  { w with effects := w.effects ++ [e] }

/-- `interaction.reply(...)`.  discord.js starts the method with
`if (this.deferred || this.replied) throw new DiscordjsError(InteractionAlreadyReplied)`;
otherwise the response is sent and `replied` is set.  `none` stands for the rejection. -/
def Interaction.reply (i : Interaction) (w : World) (e : Effect) :
    Option (World × Interaction) :=
  if i.deferred || i.replied then none
  else some (w.emit e, { i with replied := true })

/-- `interaction.deferReply()` and `interaction.deferUpdate()`: rejected like `reply` on
an interaction that is deferred or replied; otherwise `deferred` is set. -/
def Interaction.defer (i : Interaction) : Option Interaction :=
  if i.deferred || i.replied then none else some { i with deferred := true }

/-- `interaction.editReply(...)`: needs an interaction that is deferred or replied. -/
def Interaction.editReply (i : Interaction) (w : World) (e : Effect) :
    Option (World × Interaction) :=
  if i.deferred || i.replied then some (w.emit e, { i with replied := true })
  else none

/-! ## `TicketManager` -/

namespace TicketManager

/-- What `createTicket` resolves to: the response of the early reply, `null`, or the new
channel. -/
inductive CreateResult where
  | response
  | null
  | channel (id : String)
deriving DecidableEq, Repr

/-- What the environment decides during one `createTicket`: the clock, and the id of the
channel `guild.channels.create` resolves to (`none` when it rejects). -/
structure CreateEnv where
  now : Nat
  created : Option String
deriving DecidableEq, Repr

/-- The `catch` block of `createTicket`: reply with the internal-error text, then rethrow.
When that reply is itself rejected, its error is the one that leaves the method. -/
def createTicketCatch {α : Type} (w : World) (i : Interaction) (error : String) : Outcome α :=
  match i.reply w (.reply i.user.id "❌ Erro interno ao criar ticket. Nossa equipe foi notificada.") with
  | some (w1, i1) => ⟨w1, i1, .error error⟩
  | none => ⟨w, i, .error "InteractionAlreadyReplied"⟩

/-- `setTicketTimeout`: arm a timer and store its handle under the channel id. -/
def setTicketTimeout (mgr : Nat) (w : World) (channelId : String) : World :=
  { w with
    timers := w.timers ++ [{ handle := w.nextHandle, manager := mgr, channelId := channelId }],
    ticketTimeouts :=
      w.ticketTimeouts.filter (fun e => !(e.manager == mgr && e.channelId == channelId)) ++
        [{ manager := mgr, channelId := channelId, handle := w.nextHandle }],
    nextHandle := w.nextHandle + 1 }

/-- A reply inside the `try` of `createTicket` that ends the method with `value`; a
rejected reply lands in the `catch` block. -/
def replyInTry {α : Type} (w : World) (i : Interaction) (content : String) (value : α) :
    Outcome α :=
  match i.reply w (.reply i.user.id content) with
  | some (w1, i1) => ⟨w1, i1, .ok value⟩
  | none => createTicketCatch w i "InteractionAlreadyReplied"

/-- `channels.cache.set`: the channel `guild.channels.create` resolved to enters the cache. -/
def cacheChannel (w : World) (channelId : String) : World :=
  World.emit
    { w with
      channels :=
        if w.hasChannel channelId then w.channels
        else w.channels ++ [{ id := channelId, isCategory := false }] }
    (.channelCreated channelId)

/-- The part of `createTicket` between the insert into `tickets` (which left the database
as `db3`) and the final reply: cache entry, welcome message, idle timer, security log. -/
def afterInsert (mgr : Nat) (w : World) (i : Interaction) (productId : Option Int)
    (now : Nat) (channelId : String) (db3 : Database) : World :=
  let w3 : World := { w with
    db := db3,
    activeTickets :=
      w.activeTickets.filter (fun a => !(a.manager == mgr && a.channelId == channelId)) ++
        [{ manager := mgr, channelId := channelId, userId := i.user.id,
           productId := productId, createdAt := now }] }
  let w4 := w3.emit (.welcome channelId i.user.id)
  let w5 := setTicketTimeout mgr w4 channelId
  { w5 with
    db := DatabaseManager.logSecurityEvent w5.db "TICKET_CREATED" (some i.user.id)
            [("channelId", channelId),
             ("productId", (productId.map (fun n => toString n)).getD "null"),
             ("timestamp", toString now)] now }

/-- `createTicket(interaction, productId)` of the `TicketManager` instance `mgr`. -/
def createTicket (mgr : Nat) (w : World) (i : Interaction) (productId : Option Int)
    (env : CreateEnv) : Outcome CreateResult :=
  let userId := i.user.id
  match DatabaseManager.getUserActiveTickets w.db userId with
  | t :: _ =>
    let channelMention :=
      if w.hasChannel t.channel_id then "<#" ++ t.channel_id ++ ">" else "canal não encontrado"
    replyInTry w i ("❌ Você já possui um ticket ativo: " ++ channelMention) .response
  | [] =>
    let w1 := { w with
      db := DatabaseManager.createUser w.db userId i.user.username i.user.discriminator
              i.user.avatar env.now }
    match w1.category with
    | none =>
      replyInTry w1 i "❌ Categoria de tickets não configurada. Use `/setup channels` primeiro."
        .null
    | some _ =>
      match env.created with
      | none => createTicketCatch w1 i "guild.channels.create rejected"
      | some channelId =>
        let w2 := cacheChannel w1 channelId
        match DatabaseManager.createTicket w2.db channelId userId productId env.now with
        | none =>
          createTicketCatch w2 i "SQLITE_CONSTRAINT: UNIQUE constraint failed: tickets.channel_id"
        | some db3 =>
          replyInTry (afterInsert mgr w2 i productId env.now channelId db3) i
            ("✅ Ticket criado com sucesso! <#" ++ channelId ++ ">") (.channel channelId)

/-- What the environment decides during one `closeTicket`: the clock, and whether
`channel.messages.fetch` of `generateTicketTranscript` resolves. -/
structure CloseEnv where
  now : Nat
  transcriptOk : Bool
deriving DecidableEq, Repr

/-- The reply of the two early exits of `closeTicket`, which stand outside its `try`. -/
def replyOrThrow (w : World) (i : Interaction) (content : String) : Outcome Unit :=
  match i.reply w (.reply i.user.id content) with
  | some (w1, i1) => ⟨w1, i1, .ok ()⟩
  | none => ⟨w, i, .error "InteractionAlreadyReplied"⟩

/-- `closeTicket(interaction)` of the `TicketManager` instance `mgr`. -/
def closeTicket (mgr : Nat) (w : World) (i : Interaction) (env : CloseEnv) : Outcome Unit :=
  let channelId := i.channelId
  let userId := i.user.id
  match DatabaseManager.getTicket w.db channelId with
  | none => replyOrThrow w i "❌ Este não é um canal de ticket válido."
  | some ticket =>
    let isOwner := ticket.user_id == userId
    let isStaff := i.staff
    if !isOwner && !isStaff then
      replyOrThrow w i "❌ Você não tem permissão para fechar este ticket."
    else
      match i.defer with
      | none => ⟨w, i, .error "InteractionAlreadyReplied"⟩
      | some i1 =>
        if !env.transcriptOk then
          match i1.editReply w (.editReply userId "❌ Erro ao fechar ticket. Tente novamente.") with
          | some (w1, i2) => ⟨w1, i2, .ok ()⟩
          | none => ⟨w, i1, .error "InteractionNotReplied"⟩
        else
          match i1.editReply w (.closeNotice userId) with
          | none => ⟨w, i1, .error "InteractionNotReplied"⟩
          | some (w1, i2) =>
            let w2 := { w1 with
              db := DatabaseManager.closeTicket w1.db channelId userId
                      (some "Fechado pelo usuário") env.now,
              activeTickets :=
                w1.activeTickets.filter (fun a => !(a.manager == mgr && a.channelId == channelId)) }
            let w3 :=
              match w2.ticketTimeouts.find? (fun e => e.manager == mgr && e.channelId == channelId) with
              | some e =>
                { w2 with
                  timers := w2.timers.filter (fun t => !(t.handle == e.handle)),
                  ticketTimeouts := w2.ticketTimeouts.filter
                    (fun e => !(e.manager == mgr && e.channelId == channelId)) }
              | none => w2
            let w4 := { w3 with
              db := DatabaseManager.logSecurityEvent w3.db "TICKET_CLOSED" (some userId)
                      [("channelId", channelId), ("closedBy", userId),
                       ("timestamp", toString env.now)] env.now,
              scheduledDeletes := w3.scheduledDeletes ++ [channelId] }
            ⟨w4, i2, .ok ()⟩

/-- The callback `setTicketTimeout` arms, run when timer `t` fires.  `dbOpen` tells
whether the database handle of the instance is still open; `/user ticket` closes its
handle right after `createTicket` returned, and then the `UPDATE` is rejected and the
callback ends in its `catch`. -/
def idleTimeoutFire (w : World) (t : IdleTimer) (now : Nat) (dbOpen : Bool) : World :=
  let w0 := { w with timers := w.timers.filter (fun x => !(x.handle == t.handle)) }
  if !w0.hasChannel t.channelId then w0
  else
    let w1 := w0.emit (.inactivityNotice t.channelId)
    if !dbOpen then w1
    else
      { w1 with
        db := DatabaseManager.closeTicket w1.db t.channelId w1.botId
                (some "Fechado por inatividade") now,
        activeTickets :=
          w1.activeTickets.filter (fun a => !(a.manager == t.manager && a.channelId == t.channelId)),
        ticketTimeouts :=
          w1.ticketTimeouts.filter (fun e => !(e.manager == t.manager && e.channelId == t.channelId)),
        scheduledDeletes := w1.scheduledDeletes ++ [t.channelId] }

/-- The loop body of `cleanupOrphanedTickets` for one row of the query result. -/
def cleanupOne (now : Nat) (w : World) (ticket : TicketRow) : World :=
  if !w.hasChannel ticket.channel_id then
    { w with
      db := DatabaseManager.closeTicket w.db ticket.channel_id w.botId
              (some "Canal deletado manualmente") now }
  else w

/-- `cleanupOrphanedTickets`: every row of `SELECT * FROM tickets WHERE status = "open"`
whose channel is not in the cache is closed. -/
def cleanupOrphanedTickets (w : World) (now : Nat) : World :=
  (w.db.tickets.filter (fun t => t.status == "open")).foldl (cleanupOne now) w

/-- A delayed `channel.delete(...)` runs: the channel leaves Discord and the cache. -/
def deleteFire (w : World) (channelId : String) : World :=
  { w with
    channels := w.channels.filter (fun c => !(c.id == channelId)),
    scheduledDeletes := w.scheduledDeletes.erase channelId }

end TicketManager

/-! ## Bytes and the text encodings of `Buffer` -/

/-- An octet. -/
abbrev Byte := Fin 256

/-- The octet `n mod 256`. -/
def byte (n : Nat) : Byte := ⟨n % 256, Nat.mod_lt n (by decide)⟩

/-- The lower-case hexadecimal digit of a value below 16. -/
def hexDigit (n : Nat) : Char :=
  if n < 10 then Char.ofNat (48 + n) else Char.ofNat (87 + n)

/-- The encoding `'hex'` of a buffer: two digits for each octet. -/
def hexEncode : List Byte → List Char
  | [] => []
  | b :: bs => hexDigit (b.val / 16) :: hexDigit (b.val % 16) :: hexEncode bs

/-- The value of a hexadecimal digit, in either case. -/
def hexValue (c : Char) : Option Nat :=
  let n := c.toNat
  if 48 ≤ n ∧ n ≤ 57 then some (n - 48)
  else if 97 ≤ n ∧ n ≤ 102 then some (n - 87)
  else if 65 ≤ n ∧ n ≤ 70 then some (n - 55)
  else none

/-- Reading a string as `'hex'`: node decodes pairs of digits and stops at the first pair
that is not hexadecimal; a last single digit is dropped. -/
def hexDecode : List Char → List Byte
  | c1 :: c2 :: cs =>
    match hexValue c1, hexValue c2 with
    | some h, some l => byte (h * 16 + l) :: hexDecode cs
    | _, _ => []
  | _ => []

/-- The UTF-8 octets of one code point. -/
def utf8EncodeChar (c : Char) : List Byte :=
  let n := c.toNat
  if n < 128 then [byte n]
  else if n < 2048 then [byte (192 + n / 64), byte (128 + n % 64)]
  else if n < 65536 then [byte (224 + n / 4096), byte (128 + n / 64 % 64), byte (128 + n % 64)]
  else [byte (240 + n / 262144), byte (128 + n / 4096 % 64), byte (128 + n / 64 % 64),
        byte (128 + n % 64)]

/-- The encoding `'utf8'` of a string. -/
def utf8Encode (s : String) : List Byte :=
  s.toList.flatMap utf8EncodeChar

/-- A continuation octet `10xxxxxx`. -/
def isContinuation (b : Byte) : Bool := 128 ≤ b.val && b.val < 192

/-- The replacement character U+FFFD that decoding puts for malformed input. -/
def replacementChar : Char := Char.ofNat 65533

/-- The first code point of a UTF-8 text that starts with octet `b0`, and the octets left
after it.  A well-formed sequence gives its code point.  An octet that does not start one
gives U+FFFD and is the only octet taken (node may merge some neighbouring replacement
characters into one). -/
def utf8DecodeOne (b0 : Byte) (rest : List Byte) : Char × List Byte :=
  if b0.val < 128 then (Char.ofNat b0.val, rest)
  else if b0.val < 192 then (replacementChar, rest)
  else if b0.val < 224 then
    match rest with
    | b1 :: r1 =>
      let n := (b0.val - 192) * 64 + (b1.val - 128)
      if isContinuation b1 ∧ 128 ≤ n then (Char.ofNat n, r1) else (replacementChar, rest)
    | [] => (replacementChar, rest)
  else if b0.val < 240 then
    match rest with
    | b1 :: b2 :: r2 =>
      let n := (b0.val - 224) * 4096 + (b1.val - 128) * 64 + (b2.val - 128)
      if isContinuation b1 ∧ isContinuation b2 ∧ 2048 ≤ n ∧ ¬ (55296 ≤ n ∧ n < 57344) then
        (Char.ofNat n, r2)
      else (replacementChar, rest)
    | _ => (replacementChar, rest)
  else
    match rest with
    | b1 :: b2 :: b3 :: r3 =>
      let n := (b0.val - 240) * 262144 + (b1.val - 128) * 4096 + (b2.val - 128) * 64 +
        (b3.val - 128)
      if isContinuation b1 ∧ isContinuation b2 ∧ isContinuation b3 ∧ 65536 ≤ n ∧
          n < 1114112 then
        (Char.ofNat n, r3)
      else (replacementChar, rest)
    | _ => (replacementChar, rest)

/-- Decoding UTF-8, at most `fuel` code points. -/
def utf8DecodeAux : Nat → List Byte → List Char
  | 0, _ => []
  | _ + 1, [] => []
  | fuel + 1, b0 :: rest =>
    (utf8DecodeOne b0 rest).1 :: utf8DecodeAux fuel (utf8DecodeOne b0 rest).2

/-- Reading a buffer as `'utf8'`. -/
def utf8Decode (bs : List Byte) : String :=
  String.mk (utf8DecodeAux bs.length bs)

/-- The 64 digits of base64. -/
def base64Alphabet : List Char :=
  "ABCDEFGHIJKLMNOPQRSTUVWXYZabcdefghijklmnopqrstuvwxyz0123456789+/".toList

/-- The base64 digit of a value below 64. -/
def base64Char (n : Nat) : Char := base64Alphabet.getD n 'A'

/-- The encoding `'base64'` of a buffer. -/
def base64Encode : List Byte → List Char
  | a :: b :: c :: rest =>
    base64Char (a.val / 4) :: base64Char (a.val % 4 * 16 + b.val / 16) ::
      base64Char (b.val % 16 * 4 + c.val / 64) :: base64Char (c.val % 64) :: base64Encode rest
  | [a, b] =>
    [base64Char (a.val / 4), base64Char (a.val % 4 * 16 + b.val / 16),
     base64Char (b.val % 16 * 4), '=']
  | [a] => [base64Char (a.val / 4), base64Char (a.val % 4 * 16), '=', '=']
  | [] => []

/-- The value of a base64 digit; node also takes the URL-safe digits `-` and `_`. -/
def base64Value (c : Char) : Option Nat :=
  let n := c.toNat
  if 65 ≤ n ∧ n ≤ 90 then some (n - 65)
  else if 97 ≤ n ∧ n ≤ 122 then some (n - 71)
  else if 48 ≤ n ∧ n ≤ 57 then some (n + 4)
  else if n = 43 ∨ n = 45 then some 62
  else if n = 47 ∨ n = 95 then some 63
  else none

/-- Packing 6-bit values into octets; an incomplete last group gives the octets it has. -/
def base64Pack : List Nat → List Byte
  | s1 :: s2 :: s3 :: s4 :: rest =>
    byte (s1 * 4 + s2 / 16) :: byte (s2 % 16 * 16 + s3 / 4) :: byte (s3 % 4 * 64 + s4) ::
      base64Pack rest
  | [s1, s2, s3] => [byte (s1 * 4 + s2 / 16), byte (s2 % 16 * 16 + s3 / 4)]
  | [s1, s2] => [byte (s1 * 4 + s2 / 16)]
  | _ => []

/-- Reading a string as `'base64'`: node stops at the first `=` and skips what is not a
digit. -/
def base64Decode (cs : List Char) : List Byte :=
  base64Pack ((cs.takeWhile (fun c => !(c == '='))).filterMap base64Value)

/-- `String.prototype.split` with a one-character separator. -/
def jsSplit (sep : Char) : List Char → List (List Char)
  | [] => [[]]
  | c :: cs =>
    if c = sep then [] :: jsSplit sep cs
    else
      match jsSplit sep cs with
      | [] => [[c]]
      | p :: ps => (c :: p) :: ps

/-! ## JSON values -/

/-- A JSON value; numbers are the integers. -/
inductive Json where
  | null
  | bool (b : Bool)
  | num (n : Int)
  | str (s : String)
  | arr (items : List Json)
  | obj (fields : List (String × Json))

/-- The character `"`. -/
def quoteChar : Char := Char.ofNat 34

/-- The character that starts an escape in a JSON string. -/
def escapeChar : Char := Char.ofNat 92

/-- How `JSON.stringify` writes one character of a string. -/
def jsonEscapeChar (c : Char) : List Char :=
  if c = quoteChar then [escapeChar, quoteChar]
  else if c = escapeChar then [escapeChar, escapeChar]
  else if c.toNat = 8 then [escapeChar, 'b']
  else if c.toNat = 9 then [escapeChar, 't']
  else if c.toNat = 10 then [escapeChar, 'n']
  else if c.toNat = 12 then [escapeChar, 'f']
  else if c.toNat = 13 then [escapeChar, 'r']
  else if c.toNat < 32 then
    [escapeChar, 'u', '0', '0', hexDigit (c.toNat / 16), hexDigit (c.toNat % 16)]
  else [c]

/-- How `JSON.stringify` writes a string. -/
def jsonQuote (s : String) : List Char :=
  quoteChar :: s.toList.flatMap jsonEscapeChar ++ [quoteChar]

/-- The decimal digits of an integer. -/
def intDigits (n : Int) : List Char :=
  match n with
  | Int.ofNat m => (Nat.toDigits 10 m)
  | Int.negSucc m => '-' :: Nat.toDigits 10 (m + 1)

mutual
/-- `JSON.stringify` of a value. -/
def jsonStringify : Json → List Char
  | .null => "null".toList
  | .bool true => "true".toList
  | .bool false => "false".toList
  | .num n => intDigits n
  | .str s => jsonQuote s
  | .arr items => '[' :: jsonStringifyItems items ++ [']']
  | .obj fields => Char.ofNat 123 :: jsonStringifyFields fields ++ [Char.ofNat 125]
/-- The elements of an array, separated by commas. -/
def jsonStringifyItems : List Json → List Char
  | [] => []
  | [x] => jsonStringify x
  | x :: y :: rest => jsonStringify x ++ ',' :: jsonStringifyItems (y :: rest)
/-- The members of an object, separated by commas. -/
def jsonStringifyFields : List (String × Json) → List Char
  | [] => []
  | [(k, v)] => jsonQuote k ++ ':' :: jsonStringify v
  | (k, v) :: f :: rest => jsonQuote k ++ ':' :: jsonStringify v ++ ',' :: jsonStringifyFields (f :: rest)
end

/-! ## What node supplies to `SecurityManager` -/

/-- The primitives of node's `crypto` module and `JSON.parse`, which are not part of the
repository.  `cipher password` is `crypto.createCipher('aes-256-cbc', password)` run over
the whole input (`update` then `final`), `decipher password` is `createDecipher` likewise
and fails on input that is not a padded ciphertext, `hmacSha256 key` is
`createHmac('sha256', key)` run over the input. -/
structure NodeRuntime where
  cipher : String → List Byte → List Byte
  decipher : String → List Byte → Except String (List Byte)
  hmacSha256 : String → List Byte → List Byte
  jsonParse : String → Except String Json

/-- Deciphering what was enciphered under the same password gives the input back. -/
def NodeRuntime.CipherInverts (node : NodeRuntime) : Prop :=
  ∀ (password : String) (input : List Byte),
    node.decipher password (node.cipher password input) = .ok input

/-! ## `RateLimiterMemory` of rate-limiter-flexible -/

/-- A record of the limiter's memory storage: the points consumed in the current window,
the time the window ends (`none`: never) and the time the timer armed with the record
deletes it.  Times are clock values in milliseconds. -/
structure LimiterRecord where
  value : Nat
  expiresAt : Option Int
  deletedAt : Option Int
deriving DecidableEq, Repr

/-- A `RateLimiterMemory`.  rate-limiter-flexible is not part of the repository; the
model follows the library: `points` may be consumed per window, and the option `duration`
is the length of the window as a number of seconds.  The option `keyGenerator` the source
passes is not an option of the library and is never called; every limiter has a storage of
its own, keyed by the string given to `consume`. -/
structure RateLimiterMemory where
  points : Int
  duration : Int
  storage : List (String × LimiterRecord)
deriving DecidableEq, Repr

/-- A `RateLimiterRes`, what `consume` resolves to or rejects with. -/
structure RateLimiterRes where
  remainingPoints : Int
  msBeforeNext : Int
  consumedPoints : Nat
  isFirstInDuration : Bool
deriving DecidableEq, Repr

namespace RateLimiterMemory

/-- The delay node gives a timer: a delay outside 1 .. 2^31 - 1 is replaced by 1. -/
def timerDelay (ms : Int) : Int :=
  if 1 ≤ ms ∧ ms ≤ 2147483647 then ms else 1

/-- The record stored under `key` that its timer has not deleted yet. -/
def record (storage : List (String × LimiterRecord)) (key : String) (now : Nat) :
    Option LimiterRecord :=
  ((storage.find? (fun e => e.1 == key)).map (fun e => e.2)).filter
    (fun r => match r.deletedAt with
      | some d => decide ((now : Int) < d)
      | none => true)

/-- Stores `r` under `key`. -/
def store (storage : List (String × LimiterRecord)) (key : String) (r : LimiterRecord) :
    List (String × LimiterRecord) :=
  (key, r) :: storage.filter (fun e => !(e.1 == key))

/-- `MemoryStorage.set(key, value, durationSec)`: a new window starts. -/
def set (storage : List (String × LimiterRecord)) (key : String) (value : Nat)
    (durationSec : Int) (now : Nat) : List (String × LimiterRecord) × RateLimiterRes :=
  let durationMs := durationSec * 1000
  let r : LimiterRecord :=
    { value := value,
      expiresAt := if durationMs > 0 then some (now + durationMs) else none,
      deletedAt := if durationMs > 0 then some (now + timerDelay durationMs) else none }
  (store storage key r,
   { remainingPoints := 0, msBeforeNext := if durationMs = 0 then -1 else durationMs,
     consumedPoints := value, isFirstInDuration := true })

/-- `MemoryStorage.incrby(key, value, durationSec)`: the points are added to the record of
the running window; without such a record a new window starts. -/
def incrby (storage : List (String × LimiterRecord)) (key : String) (value : Nat)
    (durationSec : Int) (now : Nat) : List (String × LimiterRecord) × RateLimiterRes :=
  match record storage key now with
  | none => set storage key value durationSec now
  | some r =>
    let msBeforeExpires : Int :=
      match r.expiresAt with
      | some e => e - now
      | none => -1
    if r.expiresAt = none ∨ msBeforeExpires > 0 then
      (store storage key { r with value := r.value + value },
       { remainingPoints := 0, msBeforeNext := msBeforeExpires,
         consumedPoints := r.value + value, isFirstInDuration := false })
    else set storage key value durationSec now

/-- `consume(key)` at clock value `now`, with the library's defaults (one point, no block
duration, no even spreading): `.ok` when the promise resolves, `.error` when it rejects.
The point is counted in both cases. -/
def consume (l : RateLimiterMemory) (key : String) (now : Nat) :
    RateLimiterMemory × Except RateLimiterRes RateLimiterRes :=
  let stored := incrby l.storage key 1 l.duration now
  let res := { stored.2 with remainingPoints := max (l.points - stored.2.consumedPoints) 0 }
  ({ l with storage := stored.1 },
   if (res.consumedPoints : Int) > l.points then .error res else .ok res)

end RateLimiterMemory

/-! ## `SecurityManager` -/

/-- The object `rateLimiters` the constructor of `SecurityManager` builds when
`RATE_LIMIT_REQUESTS` and `RATE_LIMIT_WINDOW_MS` are not set. -/
structure RateLimiters where
  commands : RateLimiterMemory := { points := 5, duration := 60000, storage := [] }
  tickets : RateLimiterMemory := { points := 1, duration := 300000, storage := [] }
  interactions : RateLimiterMemory := { points := 10, duration := 60000, storage := [] }
deriving DecidableEq, Repr

/-- A security event handed to `logSecurityEvent`: its type and the `userId` of its data. -/
structure SecurityEvent where
  type : String
  userId : String
deriving DecidableEq, Repr

/-- The fields of a `SecurityManager`: the keys that `encrypt`, `decrypt` and the token
methods read, the rate limiters, the blacklist and the security events logged so far.  The
defaults are what the constructor sets. -/
structure SecurityManager where
  encryptionKey : String
  botSecretKey : String
  rateLimiters : RateLimiters := {}
  blacklistedUsers : List String := []
  securityEvents : List SecurityEvent := []
  /-- The list `adminUserIds`. -/
  adminUserIds : List String := []
deriving DecidableEq, Repr

namespace SecurityManager

/-- `encrypt(text)`; `iv` is what `crypto.randomBytes(16)` returned.  The cipher object is
made by `createCipher` from the key alone. -/
def encrypt (node : NodeRuntime) (sm : SecurityManager) (iv : List Byte) (text : String) :
    String :=
  let encrypted := hexEncode (node.cipher sm.encryptionKey (utf8Encode text))
  String.mk (hexEncode iv ++ ':' :: encrypted)

/-- `decrypt(encryptedText)`.  `parts[0]` is only turned into a buffer, which never throws;
with no `:` in the text `parts[1]` is `undefined` and `decipher.update` throws. -/
def decrypt (node : NodeRuntime) (sm : SecurityManager) (encryptedText : String) :
    Except String String :=
  let parts := jsSplit ':' encryptedText.toList
  match parts.get? 1 with
  | none => .error "ERR_INVALID_ARG_TYPE"
  | some encrypted =>
    match node.decipher sm.encryptionKey (hexDecode encrypted) with
    | .error e => .error e
    | .ok decrypted => .ok (utf8Decode decrypted)

/-- `generateSecureToken(data)` at clock value `now`. -/
def generateSecureToken (node : NodeRuntime) (sm : SecurityManager) (data : Json) (now : Nat) :
    String :=
  let payload := jsonStringify (.obj [("data", data), ("timestamp", .num now)])
  let signature := hexEncode (node.hmacSha256 sm.botSecretKey (utf8Encode (String.mk payload)))
  String.mk (base64Encode (utf8Encode (String.mk (payload ++ '.' :: signature))))

/-- The result object of `verifySecureToken`; `data` is `none` for `undefined`. -/
inductive TokenCheck where
  | valid (data : Option Json)
  | invalid (error : String)

/-- The member `key` of a parsed value, `none` for `undefined`. -/
def member (key : String) : Json → Option Json
  | .obj fields => (fields.find? (fun f => f.1 == key)).map (fun f => f.2)
  | _ => none

/-- The number `data.timestamp` turns into inside `Date.now() - data.timestamp`, `none`
for `NaN`.  The `Number(...)` reading of a string or an array is not modelled: they count
as `NaN`. -/
def timestampNumber : Option Json → Option Int
  | some (.num n) => some n
  | some (.bool true) => some 1
  | some (.bool false) => some 0
  | some .null => some 0
  | _ => none

/-- `verifySecureToken(token, maxAge)` at clock value `now`. -/
def verifySecureToken (node : NodeRuntime) (sm : SecurityManager) (token : String)
    (maxAge : Nat) (now : Nat) : TokenCheck :=
  let decoded := (utf8Decode (base64Decode token.toList)).toList
  let parts := jsSplit '.' decoded
  let payload := parts.headD []
  let signature := parts.get? 1
  let expectedSignature :=
    hexEncode (node.hmacSha256 sm.botSecretKey (utf8Encode (String.mk payload)))
  if signature ≠ some expectedSignature then .invalid "Assinatura inválida"
  else
    match node.jsonParse (String.mk payload) with
    | .error e => .invalid e
    | .ok .null => .invalid "Cannot read properties of null (reading 'timestamp')"
    | .ok data =>
      match timestampNumber (member "timestamp" data) with
      | some timestamp =>
        if (now : Int) - timestamp > (maxAge : Int) then .invalid "Token expirado"
        else .valid (member "data" data)
      | none => .valid (member "data" data)

end SecurityManager

/-! ## `ProductManager` -/

/-- The result of an `async` method that takes no interaction. -/
structure Run (α : Type) where
  world : World
  result : Except String α

/-- A button press: the interaction and the custom id of the button. -/
structure ButtonInteraction where
  interaction : Interaction
  customId : String
deriving DecidableEq, Repr

namespace ProductManager

/-- White space that `parseInt` skips at the start of its input. -/
def isJsWhitespace (c : Char) : Bool :=
  let n := c.toNat
  n = 9 || n = 10 || n = 11 || n = 12 || n = 13 || n = 32 || n = 160 || n = 5760 ||
    (8192 ≤ n && n ≤ 8202) || n = 8232 || n = 8233 || n = 8239 || n = 8287 || n = 12288 ||
    n = 65279

/-- The value of a digit or letter as a digit of some radix. -/
def digitValue (c : Char) : Option Nat :=
  let n := c.toNat
  if 48 ≤ n ∧ n ≤ 57 then some (n - 48)
  else if 97 ≤ n ∧ n ≤ 122 then some (n - 87)
  else if 65 ≤ n ∧ n ≤ 90 then some (n - 55)
  else none

/-- The values of the longest run of digits of the radix at the start of the input. -/
def takeDigits (radix : Nat) : List Char → List Nat
  | [] => []
  | c :: cs =>
    match digitValue c with
    | some d => if d < radix then d :: takeDigits radix cs else []
    | none => []

/-- `parseInt(string)` with no radix argument, `none` for `NaN`.  The result is the exact
integer; JavaScript rounds it to a double above 2^53. -/
def parseInt (s : String) : Option Int :=
  let s1 := s.toList.dropWhile isJsWhitespace
  let negative := s1.head? == some '-'
  let s2 := if s1.head? == some '-' || s1.head? == some '+' then s1.tail else s1
  let hex := s2.take 2 == ['0', 'x'] || s2.take 2 == ['0', 'X']
  let radix := if hex then 16 else 10
  let s3 := if hex then s2.drop 2 else s2
  match takeDigits radix s3 with
  | [] => none
  | ds =>
    let magnitude : Int := (ds.foldl (fun acc d => acc * radix + d) 0 : Nat)
    some (if negative then -magnitude else magnitude)

/-- `loadProductsFromDatabase`: the cache is cleared and filled with the active rows. -/
def loadProductsFromDatabase (w : World) : World :=
  { w with productsCache := DatabaseManager.getProducts w.db true }

/-- `productsCache.get(id)`: the value last stored under the key. -/
def cacheGet (cache : List ProductRow) (id : Int) : Option ProductRow :=
  (cache.filter (fun p => p.id == id)).getLast?

/-- What `handleProductPurchase` keeps in its local variables while it waits for the
confirmation: `userId`, `productId`, `productIdNum` and `product`. -/
structure Pending where
  userId : String
  productId : String
  productIdNum : Int
  product : ProductRow
deriving DecidableEq, Repr

/-- The outer `catch` of `handleProductPurchase`: the error text goes out by `editReply`
when the interaction is already deferred or replied and by `reply` otherwise. -/
def outerCatch {α : Type} (w : World) (i : Interaction) (value : α) : Outcome α :=
  let errorMessage := "❌ Erro interno ao processar compra. Nossa equipe foi notificada."
  if i.deferred || i.replied then
    ⟨w.emit (.editReply i.user.id errorMessage), { i with replied := true }, .ok value⟩
  else
    ⟨w.emit (.reply i.user.id errorMessage), { i with replied := true }, .ok value⟩

/-- A reply inside the outer `try` of `handleProductPurchase` that ends the method. -/
def replyAndStop (w : World) (i : Interaction) (content : String) : Outcome (Option Pending) :=
  match i.reply w (.reply i.user.id content) with
  | some (w1, i1) => ⟨w1, i1, .ok none⟩
  | none => outerCatch w i none

/-- `handleProductPurchase(interaction, productId)` up to the point where it waits for the
confirmation (lines 305 to 369): the checks and the prompt.  The result is `none` when the
method has ended. -/
def handleProductPurchase_select (w : World) (i : Interaction) (productId : String) :
    Outcome (Option Pending) :=
  let userId := i.user.id
  match parseInt productId with
  | none => replyAndStop w i "❌ Produto não encontrado ou não disponível."
  | some productIdNum =>
    match cacheGet w.productsCache productIdNum with
    | none => replyAndStop w i "❌ Produto não encontrado ou não disponível."
    | some product =>
      if product.stock_quantity == 0 then
        replyAndStop w i "❌ Este produto está fora de estoque."
      else
        match DatabaseManager.getUserActiveTickets w.db userId with
        | t :: _ =>
          let channelMention :=
            if w.hasChannel t.channel_id then "<#" ++ t.channel_id ++ ">"
            else "canal não encontrado"
          replyAndStop w i ("❌ Você já possui um ticket ativo: " ++ channelMention ++
            "\nFeche o ticket atual antes de abrir outro.")
        | [] =>
          match i.reply w (.confirmPrompt userId productId product) with
          | some (w1, i1) =>
            ⟨w1, i1, .ok (some { userId := userId, productId := productId,
                                  productIdNum := productIdNum, product := product })⟩
          | none => outerCatch w i none

/-- The `filter` of the confirmation wait. -/
def confirmationFilter (userId productId : String) (b : ButtonInteraction) : Bool :=
  b.interaction.user.id == userId &&
    (b.customId == "confirm_purchase_" ++ productId || b.customId == "cancel_purchase")

/-- `response.awaitMessageComponent`: the first button press on the prompt within the 60
seconds that passes the filter; `none` when the wait is rejected with
`InteractionCollectorError`. -/
def awaitMessageComponent (filter : ButtonInteraction → Bool)
    (arrivals : List ButtonInteraction) : Option ButtonInteraction :=
  arrivals.find? filter

/-- `confirmation.update(...)`. -/
def update (c : Interaction) (w : World) (content : String) : Option World :=
  if c.deferred || c.replied then none else some (w.emit (.update c.user.id content))

/-- `handleProductPurchase` from the confirmation wait on (lines 377 to 446), resumed in
world `w` with the original interaction `i`.  `arrivals` are the button presses on the
prompt during the wait.  An error inside the inner `try` other than the collector's is
rethrown and lands in the outer `catch`.  The confirm branch calls
`confirmation.deferUpdate()` first and hands the deferred confirmation to `createTicket`;
what `createTicket` returns is not looked at, only whether it throws. -/
def handleProductPurchase_resume (w : World) (i : Interaction) (p : Pending)
    (arrivals : List ButtonInteraction) (env : TicketManager.CreateEnv) : Outcome Unit :=
  match awaitMessageComponent (confirmationFilter p.userId p.productId) arrivals with
  | none =>
    match i.editReply w (.editReply i.user.id "⏰ Tempo esgotado. Tente novamente.") with
    | some (w1, i1) => ⟨w1, i1, .ok ()⟩
    | none => outerCatch w i ()
  | some confirmation =>
    if confirmation.customId == "cancel_purchase" then
      match update confirmation.interaction w "❌ Compra cancelada." with
      | some w1 => ⟨w1, i, .ok ()⟩
      | none => outerCatch w i ()
    else
      match confirmation.interaction.defer with
      | none => outerCatch w i ()
      | some c1 =>
        let ticketManager := w.nextManager
        let w0 := { w with nextManager := w.nextManager + 1 }
        let created := TicketManager.createTicket ticketManager w0 c1 (some p.productIdNum) env
        match created.result with
        | .error _ => outerCatch created.world i ()
        | .ok _ =>
          let w1 := created.world
          let w2 := { w1 with
            db := DatabaseManager.createSale w1.db p.userId p.productIdNum none p.product.price
                    "pending" none env.now }
          let w3 := { w2 with
            db := DatabaseManager.logSecurityEvent w2.db "PURCHASE_INITIATED" (some p.userId)
                    [("productId", toString p.productIdNum), ("productName", p.product.name),
                     ("amount", toString p.product.price), ("timestamp", toString env.now)]
                    env.now }
          match created.interaction.editReply w3 (.editReply p.userId
              "✅ Ticket de compra criado com sucesso! Verifique o canal criado.") with
          | some (w4, _) => ⟨w4, i, .ok ()⟩
          | none => outerCatch w3 i ()

/-- `handleProductPurchase(interaction, productId)`.  While the method waits for the
confirmation other handlers run; `during` is what they do to the world. -/
def handleProductPurchase (w : World) (i : Interaction) (productId : String)
    (during : World → World) (arrivals : List ButtonInteraction)
    (env : TicketManager.CreateEnv) : Outcome Unit :=
  let selected := handleProductPurchase_select w i productId
  match selected.result with
  | .ok (some pending) =>
    handleProductPurchase_resume (during selected.world) selected.interaction pending arrivals env
  | .ok none => ⟨selected.world, selected.interaction, .ok ()⟩
  | .error e => ⟨selected.world, selected.interaction, .error e⟩

/-- `completeSale(saleId, paymentMethod, transactionId)`.  `updateProductsDisplay` only
redraws the shop message and catches its own errors; it is left out. -/
def completeSale (w : World) (saleId : Int) (paymentMethod transactionId : Option String)
    (now : Nat) : Run Bool :=
  let db1 := DatabaseManager.updateSale w.db saleId "completed" paymentMethod transactionId now
  match DatabaseManager.getSale db1 saleId with
  | none => ⟨{ w with db := db1 }, .error "Venda não encontrada"⟩
  | some sale =>
    let db2 := DatabaseManager.incrementProductSales db1 sale.product_id
    let db3 :=
      match DatabaseManager.getProduct db2 sale.product_id with
      | some product =>
        if product.stock_quantity > 0 then
          DatabaseManager.updateProductStock db2 sale.product_id (product.stock_quantity - 1) now
        else db2
      | none => db2
    let w1 := loadProductsFromDatabase { w with db := db3 }
    let w2 := { w1 with
      db := DatabaseManager.logSecurityEvent w1.db "SALE_COMPLETED" (some sale.user_id)
              [("saleId", toString saleId), ("productId", toString sale.product_id),
               ("amount", toString sale.amount),
               ("paymentMethod", paymentMethod.getD "null"), ("timestamp", toString now)] now }
    ⟨w2, .ok true⟩

/-- What `getDigitalContent` resolves to. -/
structure DigitalContent where
  productName : String
  content : String
deriving DecidableEq, Repr

/-- `getDigitalContent(productId, userId)`; `sm` is the `SecurityManager` the method
constructs. -/
def getDigitalContent (node : NodeRuntime) (sm : SecurityManager) (w : World) (productId : Int)
    (userId : String) (now : Nat) : Run DigitalContent :=
  match DatabaseManager.getCompletedSale w.db userId productId with
  | none => ⟨w, .error "Você não possui este produto ou a compra não foi confirmada."⟩
  | some sale =>
    match (DatabaseManager.getProduct w.db productId).bind (fun p =>
        (p.digital_content.filter (fun c => !(c == ""))).map (fun c => (p, c))) with
    | none => ⟨w, .error "Conteúdo digital não disponível para este produto."⟩
    | some (product, digitalContent) =>
      match SecurityManager.decrypt node sm digitalContent with
      | .error e => ⟨w, .error e⟩
      | .ok decryptedContent =>
        let w1 := { w with
          db := DatabaseManager.logSecurityEvent w.db "DIGITAL_CONTENT_ACCESSED" (some userId)
                  [("productId", toString productId), ("saleId", toString sale.id),
                   ("timestamp", toString now)] now }
        ⟨w1, .ok { productName := product.name, content := decryptedContent }⟩

end ProductManager

/-! ## The admission checks of `SecurityManager` -/

/-- The result object of `validateInteraction` and `checkSuspiciousActivity`; `reason` is
`none` when the member is absent. -/
structure Validation where
  valid : Bool
  reason : Option String
deriving DecidableEq, Repr

/-- The result object of `checkRateLimit`.  `resetTime` and `remainingPoints` are `none`
when the member is absent or is not a number. -/
structure RateLimitCheck where
  allowed : Bool
  resetTime : Option Int
  remainingPoints : Option Int
deriving DecidableEq, Repr

/-- The expression `Math.ceil(ms / 1000)` on an integer number of milliseconds. -/
def ceilSeconds (ms : Int) : Int := -((-ms) / 1000)

/-- The property names every object inherits from `Object.prototype`. -/
def objectPrototypeKeys : List String :=
  ["constructor", "__defineGetter__", "__defineSetter__", "hasOwnProperty",
   "__lookupGetter__", "__lookupSetter__", "isPrototypeOf", "propertyIsEnumerable",
   "toString", "valueOf", "__proto__", "toLocaleString"]

/-- The limiter `rateLimiters[limiterType]`, for the three own properties of the object. -/
def RateLimiters.get? (r : RateLimiters) (limiterType : String) : Option RateLimiterMemory :=
  if limiterType = "commands" then some r.commands
  else if limiterType = "tickets" then some r.tickets
  else if limiterType = "interactions" then some r.interactions
  else none

/-- The object `rateLimiters` after the limiter `rateLimiters[limiterType]` changed its
storage to that of `l`. -/
def RateLimiters.put (r : RateLimiters) (limiterType : String) (l : RateLimiterMemory) :
    RateLimiters :=
  if limiterType = "commands" then { r with commands := l }
  else if limiterType = "tickets" then { r with tickets := l }
  else if limiterType = "interactions" then { r with interactions := l }
  else r

namespace SecurityManager

/-- `logSecurityEvent(eventType, data)`: the event goes to the security log and, when a
webhook is configured, to the webhook. -/
def logSecurityEvent (sm : SecurityManager) (eventType userId : String) : SecurityManager :=
  { sm with securityEvents := sm.securityEvents ++ [{ type := eventType, userId := userId }] }

/-- `blacklistUser(userId, reason)`. -/
def blacklistUser (sm : SecurityManager) (userId : String) : SecurityManager :=
  logSecurityEvent
    { sm with
      blacklistedUsers :=
        if userId ∈ sm.blacklistedUsers then sm.blacklistedUsers
        else sm.blacklistedUsers ++ [userId] }
    "USER_BLACKLISTED" userId

/-- `removeFromBlacklist(userId)`. -/
def removeFromBlacklist (sm : SecurityManager) (userId : String) : SecurityManager :=
  logSecurityEvent
    { sm with blacklistedUsers := sm.blacklistedUsers.filter (fun u => !(u == userId)) }
    "USER_REMOVED_FROM_BLACKLIST" userId

/-- `checkSuspiciousActivity(interaction)` at clock value `now`: young accounts and
accounts without an avatar are logged, and the interaction is let through. -/
def checkSuspiciousActivity (sm : SecurityManager) (i : Interaction) (now : Nat) :
    SecurityManager × Validation :=
  let userId := i.user.id
  let accountAge : Int := (now : Int) - (i.user.createdTimestamp : Int)
  let sevenDays : Int := 7 * 24 * 60 * 60 * 1000
  let sm1 := if accountAge < sevenDays then logSecurityEvent sm "NEW_ACCOUNT_INTERACTION" userId
    else sm
  let sm2 := if i.user.avatar.getD "" == "" then logSecurityEvent sm1 "DEFAULT_AVATAR_USER" userId
    else sm1
  (sm2, { valid := true, reason := none })

/-- `validateInteraction(interaction)` at clock value `now`. -/
def validateInteraction (sm : SecurityManager) (i : Interaction) (now : Nat) :
    SecurityManager × Validation :=
  let userId := i.user.id
  if userId ∈ sm.blacklistedUsers then
    (logSecurityEvent sm "BLACKLISTED_USER_ATTEMPT" userId,
     { valid := false, reason := some "BLACKLISTED" })
  else if i.user.bot then
    (logSecurityEvent sm "BOT_INTERACTION_ATTEMPT" userId,
     { valid := false, reason := some "BOT_USER" })
  else
    let consumed := sm.rateLimiters.interactions.consume userId now
    let sm1 := { sm with rateLimiters := { sm.rateLimiters with interactions := consumed.1 } }
    match consumed.2 with
    | .error _ =>
      (logSecurityEvent sm1 "RATE_LIMIT_EXCEEDED" userId,
       { valid := false, reason := some "RATE_LIMITED" })
    | .ok _ =>
      let suspiciousCheck := checkSuspiciousActivity sm1 i now
      if !suspiciousCheck.2.valid then suspiciousCheck
      else (suspiciousCheck.1, { valid := true, reason := none })

/-- `checkRateLimit(userId, limiterType)` at clock value `now`.  For a `limiterType` that
names an inherited property the value read is not a limiter, the call of `consume` throws
inside the `try`, and the `catch` block answers with a reset time that is not a number. -/
def checkRateLimit (sm : SecurityManager) (userId limiterType : String) (now : Nat) :
    SecurityManager × RateLimitCheck :=
  match sm.rateLimiters.get? limiterType with
  | some rateLimiter =>
    let consumed := rateLimiter.consume userId now
    let sm1 := { sm with rateLimiters := sm.rateLimiters.put limiterType consumed.1 }
    match consumed.2 with
    | .ok _ => (sm1, { allowed := true, resetTime := none, remainingPoints := none })
    | .error rateLimitError =>
      let resetTime := ceilSeconds rateLimitError.msBeforeNext
      (logSecurityEvent sm1 "RATE_LIMIT_HIT" userId,
       { allowed := false, resetTime := some resetTime,
         remainingPoints := some rateLimitError.remainingPoints })
  | none =>
    if limiterType ∈ objectPrototypeKeys then
      (logSecurityEvent sm "RATE_LIMIT_HIT" userId,
       { allowed := false, resetTime := none, remainingPoints := none })
    else (sm, { allowed := true, resetTime := none, remainingPoints := none })

/-- Successive calls `checkRateLimit(userId, limiterType)` at the clock values `times`,
each on the manager the call before left: the results, in order. -/
def checkRateLimits (sm : SecurityManager) (userId limiterType : String) :
    List Nat → List RateLimitCheck
  | [] => []
  | now :: times =>
    (checkRateLimit sm userId limiterType now).2 ::
      checkRateLimits (checkRateLimit sm userId limiterType now).1 userId limiterType times

end SecurityManager

/-! ## More of `DatabaseManager` -/

namespace DatabaseManager

/-- `updateUser(userId, updates)`: `UPDATE users SET <columns of updates>, updated_at = ?
WHERE id = ?`; `set` is what the assignments of `updates` do to a row. -/
def updateUser (db : Database) (userId : String) (set : UserRow → UserRow) (now : Nat) :
    Database :=
  { db with
    users := db.users.map (fun u =>
      if u.id == userId then { set u with updated_at := now } else u) }

/-- `createProduct(productData)`: `INSERT INTO products (name, description, price, image_url,
digital_content, stock_quantity, created_at, updated_at)` with
`productData.stockQuantity || -1`. -/
def createProduct (db : Database) (name : String) (description : Option String) (price : Nat)
    (imageUrl digitalContent : Option String) (stockQuantity : Option Int) (now : Nat) :
    Database :=
  { db with
    products := db.products ++
      [{ id := db.seqProducts + 1, name := name, description := description, price := price,
         image_url := imageUrl, digital_content := digitalContent, is_active := 1,
         stock_quantity := if stockQuantity.getD 0 = 0 then -1 else stockQuantity.getD 0,
         created_at := now, updated_at := now, sales_count := 0 }],
    seqProducts := db.seqProducts + 1 }

/-- `updateProduct(productId, updates)`: `UPDATE products SET <columns of updates>,
updated_at = ? WHERE id = ?`; `set` is what the assignments of `updates` do to a row. -/
def updateProduct (db : Database) (productId : Int) (set : ProductRow → ProductRow)
    (now : Nat) : Database :=
  { db with
    products := db.products.map (fun p =>
      if p.id == productId then { set p with updated_at := now } else p) }

/-- `updateSale(saleId, updates)` for any `updates`: `UPDATE sales SET <columns of updates>
WHERE id = ?`. -/
def updateSaleColumns (db : Database) (saleId : Int) (set : SaleRow → SaleRow) : Database :=
  { db with sales := db.sales.map (fun s => if s.id == saleId then set s else s) }

/-- `cleanupOldData`: `DELETE FROM security_logs WHERE created_at < ?` with the clock value
of thirty days ago. -/
def cleanupOldData (db : Database) (now : Nat) : Database :=
  { db with
    security_logs := db.security_logs.filter (fun l =>
      !decide ((l.created_at : Int) < (now : Int) - 30 * 24 * 60 * 60 * 1000)) }

/-- `insertDefaultData`, run by every `initialize()`: the two sample products are inserted
(`INSERT OR IGNORE` finds no constraint to violate, the key being `AUTOINCREMENT`), with
the column defaults for stock and activity.  The `settings` table is not represented. -/
def insertDefaultData (db : Database) (now : Nat) : Database :=
  createProduct
    (createProduct db "Produto Digital 1" (some "Descrição do produto digital 1") 2999
      (some "https://via.placeholder.com/300x200?text=Produto+1")
      (some "Conteúdo digital criptografado aqui...") none now)
    "Produto Digital 2" (some "Descrição do produto digital 2") 4999
    (some "https://via.placeholder.com/300x200?text=Produto+2")
    (some "Conteúdo digital criptografado aqui...") none now

end DatabaseManager

/-! ## More of `TicketManager`, and the callers in `user.js` and `index.js` -/

namespace TicketManager

/-- `claimTicket(interaction)` at clock value `now`. -/
def claimTicket (w : World) (i : Interaction) (now : Nat) : Outcome Unit :=
  let channelId := i.channelId
  let userId := i.user.id
  if !i.staff then
    replyOrThrow w i "❌ Apenas membros da equipe podem assumir tickets."
  else
    match DatabaseManager.getTicket w.db channelId with
    | none => replyOrThrow w i "❌ Este não é um canal de ticket válido."
    | some _ =>
      match i.reply w (.claimNotice userId) with
      | none => ⟨w, i, .error "InteractionAlreadyReplied"⟩
      | some (w1, i1) =>
        ⟨{ w1 with
           db := DatabaseManager.logSecurityEvent w1.db "TICKET_CLAIMED" (some userId)
                   [("channelId", channelId), ("staffId", userId),
                    ("timestamp", toString now)] now },
         i1, .ok ()⟩

/-- `generateTranscript(interaction)`.  Writing the transcript file is taken to succeed;
the file and its name are not represented. -/
def generateTranscript (w : World) (i : Interaction) (env : CloseEnv) : Outcome Unit :=
  let userId := i.user.id
  match i.defer with
  | none => ⟨w, i, .error "InteractionAlreadyReplied"⟩
  | some i1 =>
    if !env.transcriptOk then
      match i1.editReply w (.editReply userId "❌ Erro ao gerar transcrição.") with
      | some (w1, i2) => ⟨w1, i2, .ok ()⟩
      | none => ⟨w, i1, .error "InteractionNotReplied"⟩
    else
      match i1.editReply w (.editReply userId "✅ Transcrição gerada com sucesso!") with
      | none => ⟨w, i1, .error "InteractionNotReplied"⟩
      | some (w1, i2) =>
        ⟨{ w1 with
           db := DatabaseManager.logSecurityEvent w1.db "TRANSCRIPT_GENERATED" (some userId)
                   [("channelId", i.channelId), ("timestamp", toString env.now)] env.now },
         i2, .ok ()⟩

/-- `handleTicketAction(interaction, params)` of the `TicketManager` instance `mgr`: the
action named by `params[0]` runs, and an error it throws is answered by a reply, which is
outside the `try` and may itself be rejected. -/
def handleTicketAction (mgr : Nat) (w : World) (i : Interaction) (params : List String)
    (env : CloseEnv) : Outcome Unit :=
  let action := params.head?
  let run : Outcome Unit :=
    if action = some "close" then closeTicket mgr w i env
    else if action = some "claim" then claimTicket w i env.now
    else if action = some "transcript" then generateTranscript w i env
    else replyOrThrow w i "❌ Ação não reconhecida."
  match run.result with
  | .ok _ => run
  | .error _ =>
    replyOrThrow run.world run.interaction "❌ Erro ao processar ação. Tente novamente."

end TicketManager

namespace UserCommand

/-- The function `createTicket(interaction)` of `commands/user.js`, which `/user ticket`
runs: a new `DatabaseManager` is initialized on the database file, a new `TicketManager`
creates the ticket, and the database handle is closed. -/
def createTicket (w : World) (i : Interaction) (env : TicketManager.CreateEnv) : Outcome Unit :=
  let w0 := { w with db := DatabaseManager.insertDefaultData w.db env.now }
  let ticketManager := w0.nextManager
  let w1 := { w0 with nextManager := w0.nextManager + 1 }
  let created := TicketManager.createTicket ticketManager w1 i none env
  match created.result with
  | .ok _ => ⟨created.world, created.interaction, .ok ()⟩
  | .error e => ⟨created.world, created.interaction, .error e⟩

end UserCommand

namespace SecureTicketBot

/-- What the environment decides while one button press is handled. -/
structure ButtonEnv where
  create : TicketManager.CreateEnv
  close : TicketManager.CloseEnv
  during : World → World
  arrivals : List ButtonInteraction

/-- `handleButtonInteraction(interaction)` of `index.js`: the custom id is split at `_`,
the first piece selects the handler, and the handlers are those of the bot's own
`ticketManager` (instance 0) and `productManager`.  A missing `params[0]` reaches
`handleProductPurchase` as `undefined`, which `parseInt` and the template literal read as
the text `undefined`. -/
def handleButtonInteraction (w : World) (b : ButtonInteraction) (env : ButtonEnv) :
    Outcome Unit :=
  let pieces := (jsSplit '_' b.customId.toList).map String.mk
  let action := pieces.headD ""
  let params := pieces.tail
  if action = "product" then
    ProductManager.handleProductPurchase w b.interaction (params.headD "undefined") env.during
      env.arrivals env.create
  else if action = "ticket" then
    TicketManager.handleTicketAction 0 w b.interaction params env.close
  else if action = "close" then
    TicketManager.closeTicket 0 w b.interaction env.close
  else
    match b.interaction.reply w (.reply b.interaction.user.id "❌ Ação não reconhecida.") with
    | some (w1, i1) => ⟨w1, i1, .ok ()⟩
    | none => ⟨w, b.interaction, .error "InteractionAlreadyReplied"⟩

end SecureTicketBot

/-! ## Strings as JavaScript sees them -/

/-- The property `length` of a string: the number of UTF-16 code units. -/
def jsLength (s : String) : Nat :=
  (s.toList.map (fun c => if c.toNat < 65536 then 1 else 2)).sum

/-- `String.prototype.trim`: white space and line terminators are removed at both ends. -/
def jsTrim (s : String) : String :=
  String.mk
    (((s.toList.dropWhile ProductManager.isJsWhitespace).reverse.dropWhile
      ProductManager.isJsWhitespace).reverse)

/-! ## The environment, `validate-env.js` and the constructor of `SecurityManager` -/

/-- The variables of `process.env` that the constructor of `SecurityManager` reads; `none`
for a variable that is not set. -/
structure ProcessEnv where
  ENCRYPTION_KEY : Option String
  BOT_SECRET_KEY : Option String
  ADMIN_USER_IDS : Option String
  RATE_LIMIT_REQUESTS : Option String
  RATE_LIMIT_WINDOW_MS : Option String
deriving DecidableEq, Repr

namespace EnvironmentValidator

/-- `validateSnowflake(id)`: the test of `/^\d{17,19}$/`. -/
def validateSnowflake (id : String) : Bool :=
  id.toList.all (fun c => decide (48 ≤ c.toNat ∧ c.toNat ≤ 57)) &&
    decide (17 ≤ id.toList.length) && decide (id.toList.length ≤ 19)

/-- `validateAdminIds(ids)`: the value is split at `,`, every piece is trimmed, and every
trimmed piece has to be a snowflake. -/
def validateAdminIds (ids : String) : Bool :=
  ((jsSplit ',' ids.toList).map (fun piece => jsTrim (String.mk piece))).all validateSnowflake

end EnvironmentValidator

namespace SecurityManager

/-- The value of `parseInt(process.env[name]) || fallback`. -/
def envInt (value : Option String) (fallback : Int) : Int :=
  match value.bind ProductManager.parseInt with
  | none => fallback
  | some n => if n = 0 then fallback else n

/-- The constructor, `new SecurityManager()`, in a process with environment `env`;
`generated` are the two keys `generateSecureKey()` would return.  The admin list is the
value of `ADMIN_USER_IDS` split at `,`, the pieces as they are. -/
def new (env : ProcessEnv) (generated : String × String) : SecurityManager :=
  { encryptionKey :=
      if env.ENCRYPTION_KEY.getD "" = "" then generated.1 else env.ENCRYPTION_KEY.getD "",
    botSecretKey :=
      if env.BOT_SECRET_KEY.getD "" = "" then generated.2 else env.BOT_SECRET_KEY.getD "",
    adminUserIds :=
      if env.ADMIN_USER_IDS.getD "" = "" then []
      else (jsSplit ',' (env.ADMIN_USER_IDS.getD "").toList).map String.mk,
    rateLimiters :=
      { commands :=
          { points := envInt env.RATE_LIMIT_REQUESTS 5,
            duration := envInt env.RATE_LIMIT_WINDOW_MS 60000, storage := [] } } }

/-- `isAdmin(userId)`: `adminUserIds.includes(userId)`. -/
def isAdmin (sm : SecurityManager) (userId : String) : Bool :=
  sm.adminUserIds.contains userId

end SecurityManager

/-! ## Creating products -/

namespace ProductManager

/-- The object handed to `createProduct`.  `name` is `none` for `null`; `price` is the
number `parseFloat` reads from the price, in hundredths, and `none` when that is `NaN`. -/
structure ProductData where
  name : Option String
  description : Option String
  price : Option Int
  imageUrl : Option String
  digitalContent : Option String
  stockQuantity : Option Int
deriving DecidableEq, Repr

/-- What `createProduct` resolves to: the id of the new row, or the failure object
`{ success: false, error }`. -/
inductive CreateProductResult where
  | id (n : Int)
  | failure (error : String)
deriving DecidableEq, Repr

/-- `validateProductData(productData)`: `.error` with the message of the error thrown. -/
def validateProductData (d : ProductData) : Except String Unit :=
  if d.name.getD "" = "" ∨ jsLength (jsTrim (d.name.getD "")) = 0 then
    .error "Nome do produto é obrigatório."
  else if d.price = none ∨ d.price.getD 0 ≤ 0 then
    .error "Preço deve ser um número válido maior que zero."
  else if jsLength (d.name.getD "") > 100 then
    .error "Nome do produto deve ter no máximo 100 caracteres."
  else if d.description.getD "" ≠ "" ∧ jsLength (d.description.getD "") > 500 then
    .error "Descrição deve ter no máximo 500 caracteres."
  else .ok ()

/-- The field `maxProducts`. -/
def maxProducts : Nat := 30

/-- `productsCache.size`: the number of keys of the map. -/
def cacheSize (cache : List ProductRow) : Nat :=
  (cache.map (fun p => p.id)).dedup.length

/-- A `ProductManager` after a call of `createProduct`: the database, the cache of the
instance and what the call resolved to. -/
structure CreateProductRun where
  db : Database
  cache : List ProductRow
  result : CreateProductResult
deriving DecidableEq, Repr

/-- `createProduct(productData)` of a `ProductManager` whose cache is `cache`; `sm` is the
`SecurityManager` the method constructs and `iv` what `randomBytes` returns to it.  The
redrawing of the shop message is left out. -/
def createProduct (node : NodeRuntime) (sm : SecurityManager) (iv : List Byte)
    (cache : List ProductRow) (db : Database) (d : ProductData) (now : Nat) :
    CreateProductRun :=
  if cacheSize cache ≥ maxProducts then
    ⟨db, cache, .failure "Limite máximo de 30 produtos atingido."⟩
  else
    match validateProductData d with
    | .error message => ⟨db, cache, .failure message⟩
    | .ok _ =>
      let digitalContent :=
        if d.digitalContent.getD "" = "" then d.digitalContent
        else some (SecurityManager.encrypt node sm iv (d.digitalContent.getD ""))
      let stockQuantity : Int := if d.stockQuantity.getD 0 = 0 then -1 else d.stockQuantity.getD 0
      let db1 := DatabaseManager.createProduct db (d.name.getD "") d.description
        (d.price.getD 0).toNat d.imageUrl digitalContent (some stockQuantity) now
      ⟨db1, DatabaseManager.getProducts db1 true, .id (db.seqProducts + 1)⟩

end ProductManager

/-! ## The bot and the `/admin` command -/

/-- The bot of `index.js`: the world and the `SecurityManager` it keeps in `this.security`,
the one its `InteractionCreate` handler asks. -/
structure Bot where
  world : World
  security : SecurityManager
deriving DecidableEq, Repr

namespace SecureTicketBot

/-- The security check at the start of the `InteractionCreate` handler:
`this.security.validateInteraction(interaction)`. -/
def securityCheck (bot : Bot) (i : Interaction) (now : Nat) : Bot × Validation :=
  ({ bot with security := (SecurityManager.validateInteraction bot.security i now).1 },
   (SecurityManager.validateInteraction bot.security i now).2)

/-- The cases of the `switch` of `handleButtonInteraction`. -/
inductive ButtonCase where
  | product
  | ticket
  | close
  | default
deriving DecidableEq, Repr

/-- The case the `switch` of `handleButtonInteraction` takes for a custom id. -/
def buttonCase (customId : String) : ButtonCase :=
  let action := ((jsSplit '_' customId.toList).map String.mk).headD ""
  if action = "product" then .product
  else if action = "ticket" then .ticket
  else if action = "close" then .close
  else .default

end SecureTicketBot

namespace AdminCommand

/-- The message of the `ReferenceError` that the evaluation of an identifier which is not
in scope throws. -/
def notDefined (identifier : String) : String :=
  identifier ++ " is not defined"

/-- `handleStats(interaction)` of `commands/admin.js` (lines 132 to 180).  The reply is
deferred and the next statement is `new DatabaseManager()`.  The module requires only
`discord.js` at its top; `SecurityManager`, `DatabaseManager`, `ProductManager` and
`TicketManager` are required into constants of the body of `execute` (lines 88 to 91), so
in the other methods of the command object the four names are not in scope and the
evaluation of one of them throws a `ReferenceError`.  Here the statement stands outside
any `try`, and the method ends with that error. -/
def handleStats (w : World) (i : Interaction) : Outcome Unit :=
  match i.defer with
  | none => ⟨w, i, .error "InteractionAlreadyReplied"⟩
  | some i1 => ⟨w, i1, .error (notDefined "DatabaseManager")⟩

/-- `handleProduct(interaction)` of `commands/admin.js` (lines 182 to 205), for every
`action`: the option is read, the reply is deferred, and `new DatabaseManager()` throws
the `ReferenceError` described at `handleStats`, outside any `try`.  The `switch` with the
calls of `createProduct`, `listProducts`, `editProduct` and `deleteProduct` is not
reached. -/
def handleProduct (w : World) (i : Interaction) : Outcome Unit :=
  match i.defer with
  | none => ⟨w, i, .error "InteractionAlreadyReplied"⟩
  | some i1 => ⟨w, i1, .error (notDefined "DatabaseManager")⟩

/-- `handleBlacklist(interaction)` of `commands/admin.js` (lines 333 to 359), for every
`action`, `user` and `reason`: the options are read, the reply is deferred, and
`new SecurityManager()` (line 340, before the `try` of the method) throws the
`ReferenceError` described at `handleStats`.  Neither `blacklistUser` nor
`removeFromBlacklist` is reached. -/
def handleBlacklist (w : World) (i : Interaction) : Outcome Unit :=
  match i.defer with
  | none => ⟨w, i, .error "InteractionAlreadyReplied"⟩
  | some i1 => ⟨w, i1, .error (notDefined "SecurityManager")⟩

/-- `handleCleanup(interaction)` of `commands/admin.js` (lines 361 to 383): the reply is
deferred; `new DatabaseManager()` throws inside the `try`, and the `catch` block edits the
reply to show the message of the error. -/
def handleCleanup (w : World) (i : Interaction) : Outcome Unit :=
  match i.defer with
  | none => ⟨w, i, .error "InteractionAlreadyReplied"⟩
  | some i1 =>
    match i1.editReply w
        (.editReply i.user.id ("❌ Erro na limpeza: " ++ notDefined "DatabaseManager")) with
    | some (w1, i2) => ⟨w1, i2, .ok ()⟩
    | none => ⟨w, i1, .error "InteractionNotReplied"⟩

/-- `handleSecurity(interaction)` of `commands/admin.js` (lines 385 to 424): like
`handleCleanup`, with the text of its own `catch` block. -/
def handleSecurity (w : World) (i : Interaction) : Outcome Unit :=
  match i.defer with
  | none => ⟨w, i, .error "InteractionAlreadyReplied"⟩
  | some i1 =>
    match i1.editReply w
        (.editReply i.user.id ("❌ Erro ao buscar logs: " ++ notDefined "DatabaseManager")) with
    | some (w1, i2) => ⟨w1, i2, .ok ()⟩
    | none => ⟨w, i1, .error "InteractionNotReplied"⟩

/-- `execute(interaction)` of `commands/admin.js` (lines 87 to 129) for the subcommand
`subcommand`, in a process with environment `env`.  Inside `execute` the four classes are
in scope: `new SecurityManager()` succeeds and `isAdmin` is asked.  An error thrown by a
handler is caught, and the `catch` block answers with `interaction.reply`; when that call
rejects, the rejection leaves `execute`. -/
def execute (env : ProcessEnv) (generated : String × String) (w : World) (i : Interaction)
    (subcommand : String) : Outcome Unit :=
  let security := SecurityManager.new env generated
  if !security.isAdmin i.user.id then
    match i.reply w (.reply i.user.id "❌ Você não tem permissão para usar este comando.") with
    | some (w1, i1) => ⟨w1, i1, .ok ()⟩
    | none => ⟨w, i, .error "InteractionAlreadyReplied"⟩
  else
    let run : Outcome Unit :=
      if subcommand = "stats" then handleStats w i
      else if subcommand = "product" then handleProduct w i
      else if subcommand = "blacklist" then handleBlacklist w i
      else if subcommand = "cleanup" then handleCleanup w i
      else if subcommand = "security" then handleSecurity w i
      else ⟨w, i, .ok ()⟩
    match run.result with
    | .ok _ => run
    | .error _ =>
      match run.interaction.reply run.world
          (.reply i.user.id "❌ Erro interno. Verifique os logs.") with
      | some (w1, i1) => ⟨w1, i1, .ok ()⟩
      | none => ⟨run.world, run.interaction, .error "InteractionAlreadyReplied"⟩

end AdminCommand

namespace SecureTicketBot

/-- The bot and the interaction after a method of the bot, with the value or the error the
method ended with. -/
structure BotRun where
  bot : Bot
  interaction : Interaction
  result : Except String Unit

/-- `handleInteractionError(interaction, error)` of `index.js`: the error text goes out by
`editReply` when the interaction is deferred or replied and by `reply` otherwise, and the
event `INTERACTION_ERROR` is logged. -/
def handleInteractionError (bot : Bot) (i : Interaction) : Bot × Interaction :=
  let content := "❌ Ocorreu um erro interno. Nossa equipe foi notificada."
  let sent :=
    if i.deferred || i.replied then i.editReply bot.world (.editReply i.user.id content)
    else i.reply bot.world (.reply i.user.id content)
  let security := SecurityManager.logSecurityEvent bot.security "INTERACTION_ERROR" i.user.id
  match sent with
  | some (w1, i1) => ({ world := w1, security := security }, i1)
  | none => ({ world := bot.world, security := security }, i)

/-- `handleSlashCommand(interaction)` of `index.js` for the command `/admin` with subcommand
`subcommand`, at clock value `now`: the rate limit of the user is checked on the bot's own
`SecurityManager`, then `execute` of `commands/admin.js` runs. -/
def handleSlashCommand (env : ProcessEnv) (generated : String × String) (bot : Bot)
    (i : Interaction) (subcommand : String) (now : Nat) : BotRun :=
  let rateLimitCheck := SecurityManager.checkRateLimit bot.security i.user.id "commands" now
  let bot1 : Bot := { bot with security := rateLimitCheck.1 }
  if !rateLimitCheck.2.allowed then
    let resetTime :=
      match rateLimitCheck.2.resetTime with
      | some seconds => toString seconds
      | none => "NaN"
    match i.reply bot1.world
        (.reply i.user.id ("❌ Muitas tentativas. Tente novamente em " ++ resetTime ++ "s.")) with
    | some (w1, i1) => ⟨{ bot1 with world := w1 }, i1, .ok ()⟩
    | none => ⟨bot1, i, .error "InteractionAlreadyReplied"⟩
  else
    let run := AdminCommand.execute env generated bot1.world i subcommand
    ⟨{ bot1 with world := run.world }, run.interaction, run.result⟩

/-- The `InteractionCreate` handler of `index.js` (lines 67 to 91) for the slash command
`/admin` with subcommand `subcommand`: the security check, then `handleSlashCommand`; an
error thrown on the way goes to `handleInteractionError`. -/
def interactionCreate (env : ProcessEnv) (generated : String × String) (bot : Bot)
    (i : Interaction) (subcommand : String) (now : Nat) : Bot × Interaction :=
  let checked := securityCheck bot i now
  if !checked.2.valid then
    match i.reply checked.1.world
        (.reply i.user.id "❌ Acesso negado por motivos de segurança.") with
    | some (w1, i1) => ({ checked.1 with world := w1 }, i1)
    | none => handleInteractionError checked.1 i
  else
    let run := handleSlashCommand env generated checked.1 i subcommand now
    match run.result with
    | .ok _ => (run.bot, run.interaction)
    | .error _ => handleInteractionError run.bot run.interaction

end SecureTicketBot

/-! ## Two `createTicket` calls that overlap -/

namespace TicketManager

/-- The body of `createTicket` from the point where the query for the user's open tickets
has been answered with `existingTickets`. -/
def createTicketFrom (mgr : Nat) (w : World) (i : Interaction) (productId : Option Int)
    (env : CreateEnv) (existingTickets : List TicketRow) : Outcome CreateResult :=
  let userId := i.user.id
  match existingTickets with
  | t :: _ =>
    let channelMention :=
      if w.hasChannel t.channel_id then "<#" ++ t.channel_id ++ ">" else "canal não encontrado"
    replyInTry w i ("❌ Você já possui um ticket ativo: " ++ channelMention) .response
  | [] =>
    let w1 := { w with
      db := DatabaseManager.createUser w.db userId i.user.username i.user.discriminator
              i.user.avatar env.now }
    match w1.category with
    | none =>
      replyInTry w1 i "❌ Categoria de tickets não configurada. Use `/setup channels` primeiro."
        .null
    | some _ =>
      match env.created with
      | none => createTicketCatch w1 i "guild.channels.create rejected"
      | some channelId =>
        let w2 := cacheChannel w1 channelId
        match DatabaseManager.createTicket w2.db channelId userId productId env.now with
        | none =>
          createTicketCatch w2 i "SQLITE_CONSTRAINT: UNIQUE constraint failed: tickets.channel_id"
        | some db3 =>
          replyInTry (afterInsert mgr w2 i productId env.now channelId db3) i
            ("✅ Ticket criado com sucesso! <#" ++ channelId ++ ">") (.channel channelId)

/-- Two `createTicket` calls whose runs overlap.  `createTicket` gives up control at every
`await`, the first of which is the query for the user's open tickets, and nothing holds a
second call back meanwhile.  Here both queries are answered in world `w`, before either
call has written anything; then the first call runs on to its end, and then the second. -/
def createTicketOverlapped (mgrA mgrB : Nat) (w : World) (iA iB : Interaction)
    (productIdA productIdB : Option Int) (envA envB : CreateEnv) :
    Outcome CreateResult × Outcome CreateResult :=
  let existingA := DatabaseManager.getUserActiveTickets w.db iA.user.id
  let existingB := DatabaseManager.getUserActiveTickets w.db iB.user.id
  let a := createTicketFrom mgrA w iA productIdA envA existingA
  (a, createTicketFrom mgrB a.world iB productIdB envB existingB)

end TicketManager

/-! ## The session life cycle as a transition system -/

/-- One handler run of the session life cycle, started in `w` and run to its end before
the next one starts; the channel cache may also change under the bot between two runs. -/
inductive Step : World → World → Prop where
  | createTicket (mgr : Nat) (w : World) (i : Interaction) (productId : Option Int)
      (env : TicketManager.CreateEnv) :
      Step w (TicketManager.createTicket mgr w i productId env).world
  | closeTicket (mgr : Nat) (w : World) (i : Interaction) (env : TicketManager.CloseEnv) :
      Step w (TicketManager.closeTicket mgr w i env).world
  | idleTimeout (w : World) (t : IdleTimer) (now : Nat) (dbOpen : Bool) :
      t ∈ w.timers → Step w (TicketManager.idleTimeoutFire w t now dbOpen)
  | cleanup (w : World) (now : Nat) : Step w (TicketManager.cleanupOrphanedTickets w now)
  | channels (w : World) (cs : List Channel) : Step w { w with channels := cs }

/-- The worlds the bot can be in after starting on a new database file. -/
inductive Reachable : World → Prop where
  | initial (channels : List Channel) (ticketCategoryId : Option String) (botId : String) :
      Reachable (World.initial channels ticketCategoryId botId)
  | step {w w1 : World} : Reachable w → Step w w1 → Reachable w1

/-! ## Every operation of `TicketManager` and `DatabaseManager` -/

/-- One writing method of `DatabaseManager`, run on database `db`. -/
inductive DbOp : Database → Database → Prop where
  | createUser (db : Database) (id username discriminator : String) (avatar : Option String)
      (now : Nat) : DbOp db (DatabaseManager.createUser db id username discriminator avatar now)
  | updateUser (db : Database) (userId : String) (set : UserRow → UserRow) (now : Nat) :
      DbOp db (DatabaseManager.updateUser db userId set now)
  | createTicket (db : Database) (channelId userId : String) (productId : Option Int)
      (now : Nat) (db1 : Database) :
      DatabaseManager.createTicket db channelId userId productId now = some db1 → DbOp db db1
  | closeTicket (db : Database) (channelId closedBy : String) (reason : Option String)
      (now : Nat) : DbOp db (DatabaseManager.closeTicket db channelId closedBy reason now)
  | createProduct (db : Database) (name : String) (description : Option String) (price : Nat)
      (imageUrl digitalContent : Option String) (stockQuantity : Option Int) (now : Nat) :
      DbOp db (DatabaseManager.createProduct db name description price imageUrl digitalContent
        stockQuantity now)
  | updateProduct (db : Database) (productId : Int) (set : ProductRow → ProductRow)
      (now : Nat) : DbOp db (DatabaseManager.updateProduct db productId set now)
  | incrementProductSales (db : Database) (productId : Int) :
      DbOp db (DatabaseManager.incrementProductSales db productId)
  | createSale (db : Database) (userId : String) (productId : Int) (ticketId : Option Int)
      (amount : Nat) (status : String) (paymentMethod : Option String) (now : Nat) :
      DbOp db (DatabaseManager.createSale db userId productId ticketId amount status
        paymentMethod now)
  | updateSale (db : Database) (saleId : Int) (set : SaleRow → SaleRow) :
      DbOp db (DatabaseManager.updateSaleColumns db saleId set)
  | logSecurityEvent (db : Database) (eventType : String) (userId : Option String)
      (data : List (String × String)) (now : Nat) :
      DbOp db (DatabaseManager.logSecurityEvent db eventType userId data now)
  | cleanupOldData (db : Database) (now : Nat) : DbOp db (DatabaseManager.cleanupOldData db now)
  | insertDefaultData (db : Database) (now : Nat) :
      DbOp db (DatabaseManager.insertDefaultData db now)

/-- One operation of the `TicketManager` or the `DatabaseManager`, started in `w` and run
to its end: a step of the session life cycle, one of the other methods of `TicketManager`,
or a writing method of `DatabaseManager` called by any other part of the bot. -/
inductive Operation : World → World → Prop where
  | step {w w1 : World} : Step w w1 → Operation w w1
  | claimTicket (w : World) (i : Interaction) (now : Nat) :
      Operation w (TicketManager.claimTicket w i now).world
  | generateTranscript (w : World) (i : Interaction) (env : TicketManager.CloseEnv) :
      Operation w (TicketManager.generateTranscript w i env).world
  | handleTicketAction (mgr : Nat) (w : World) (i : Interaction) (params : List String)
      (env : TicketManager.CloseEnv) :
      Operation w (TicketManager.handleTicketAction mgr w i params env).world
  | database (w : World) (db1 : Database) : DbOp w.db db1 → Operation w { w with db := db1 }

/-- Any number of operations, one after the other. -/
inductive Operations : World → World → Prop where
  | refl (w : World) : Operations w w
  | next {w w1 w2 : World} : Operations w w1 → Operation w1 w2 → Operations w w2

/-- Every row of `before` is still at its place in `after`, with its key, channel and
owner, and a row that was closed is closed there. -/
def staysClosed : List TicketRow → List TicketRow → Bool
  | [], _ => true
  | _ :: _, [] => false
  | t :: ts, t1 :: ts1 =>
    (t1.id == t.id && t1.channel_id == t.channel_id && t1.user_id == t.user_id &&
      (!(t.status == "closed") || t1.status == "closed")) && staysClosed ts ts1

/-! ## Sample worlds -/

/-- A user of the guild. -/
def sampleUser : DiscordUser :=
  { id := "u1", username := "ana", discriminator := "0001", avatar := none, bot := false,
    createdTimestamp := 0 }

/-- An interaction of `sampleUser` that has not been answered yet. -/
def sampleInteraction : Interaction :=
  { user := sampleUser, channelId := "lobby", staff := false, deferred := false,
    replied := false }

/-- A fresh process whose ticket category `cat` exists. -/
def sampleStart : World :=
  World.initial [{ id := "cat", isCategory := true }] (some "cat") "bot"

/-- The world after `sampleUser` opened a ticket, for which Discord created channel `c1`. -/
def sampleOpened : World :=
  (TicketManager.createTicket 1 sampleStart sampleInteraction none
    { now := 1000, created := some "c1" }).world

/-- The ticket row of `sampleOpened`. -/
def sampleTicket : TicketRow :=
  { id := 1, channel_id := "c1", user_id := "u1", product_id := none, status := "open",
    created_at := 1000, closed_at := none, closed_by := none, close_reason := none }

/-- The world `sampleOpened` after channel `c1` was removed on Discord by hand. -/
def sampleOrphaned : World :=
  { sampleOpened with channels := [{ id := "cat", isCategory := true }] }

/-- A product with five pieces in stock. -/
def sampleProduct : ProductRow :=
  { id := 1, name := "Produto Digital 1", description := none, price := 2999,
    image_url := none, digital_content := some "00:6f6c61", is_active := 1,
    stock_quantity := 5, created_at := 10, updated_at := 10, sales_count := 0 }

/-- A pending sale of `sampleProduct` to `sampleUser`. -/
def sampleSale : SaleRow :=
  { id := 1, user_id := "u1", product_id := 1, ticket_id := none, amount := 2999,
    status := "pending", payment_method := none, transaction_id := none, created_at := 20,
    completed_at := none }

/-- A shop with `sampleProduct` and the pending `sampleSale`. -/
def sampleShop : World :=
  ProductManager.loadProductsFromDatabase
    { sampleStart with
      db := { Database.empty with
        products := [sampleProduct], sales := [sampleSale], seqProducts := 1, seqSales := 1 } }

/-- Stand-ins for node's primitives, for running the model: the cipher shifts every octet
by the length of the password, the HMAC is the first octets of key and input, and
`JSON.parse` only knows the text `null`. -/
def sampleNode : NodeRuntime :=
  { cipher := fun password input => input.map (fun b => b + byte password.length),
    decipher := fun password input => .ok (input.map (fun b => b - byte password.length)),
    hmacSha256 := fun key input => (utf8Encode key ++ input).take 32,
    jsonParse := fun text => if text = "null" then .ok .null else .error "Unexpected token" }

/-- A `SecurityManager` with fixed keys. -/
def sampleSecurity : SecurityManager :=
  { encryptionKey := "0123456789abcdef", botSecretKey := "fedcba9876543210" }

/-- The interaction of `sampleUser` once the confirmation prompt was sent as its reply. -/
def samplePrompted : Interaction :=
  { sampleInteraction with replied := true }

/-- The purchase of `sampleProduct` that `sampleUser` is asked to confirm. -/
def samplePending : ProductManager.Pending :=
  { userId := "u1", productId := "1", productIdNum := 1, product := sampleProduct }

/-- The user presses the confirm button of the prompt. -/
def sampleConfirm : ButtonInteraction :=
  { interaction := sampleInteraction, customId := "confirm_purchase_1" }

/-- The user presses the cancel button of the prompt. -/
def sampleCancel : ButtonInteraction :=
  { interaction := sampleInteraction, customId := "cancel_purchase" }

/-- The shop after `sampleUser` opened a ticket with `/user ticket` while the prompt was
waiting. -/
def sampleRace : World :=
  (TicketManager.createTicket 1 sampleShop sampleInteraction none
    { now := 30, created := some "c1" }).world

/-- The world `sampleOpened` after the owner closed the ticket of channel `c1`. -/
def sampleClosed : World :=
  (TicketManager.closeTicket 1 sampleOpened { sampleInteraction with channelId := "c1" }
    { now := 2000, transcriptOk := true }).world

/-- The ticket row of `sampleClosed`. -/
def sampleClosedTicket : TicketRow :=
  { sampleTicket with status := "closed", closed_at := some 2000, closed_by := some "u1",
                      close_reason := some "Fechado pelo usuário" }

/-- The owner presses the `ticket_close` button in channel `c1`. -/
def sampleCloseButton : ButtonInteraction :=
  { interaction := { sampleInteraction with channelId := "c1" }, customId := "ticket_close" }

/-- An environment in which the transcript can be fetched and no other button is pressed. -/
def sampleButtonEnv : SecureTicketBot.ButtonEnv :=
  { create := { now := 2000, created := none }, close := { now := 2000, transcriptOk := true },
    during := fun w => w, arrivals := [] }

/-- The shop after the last piece of `sampleProduct` was sold. -/
def sampleSoldOut : World :=
  ProductManager.loadProductsFromDatabase
    { sampleStart with
      db := { Database.empty with
        products := [{ sampleProduct with stock_quantity := 0 }], seqProducts := 1 } }

/-- The shop of `sampleShop` in a guild where no ticket category is configured. -/
def sampleNoCategory : World :=
  { sampleShop with ticketCategoryId := none }

/-- A shop whose products table holds thirty active products. -/
def sampleFullShop : World :=
  { sampleStart with
    db := { Database.empty with
      products := (List.range 30).map (fun n => { sampleProduct with id := (n : Int) + 1 }),
      seqProducts := 30 } }

/-- Product data for a product named `Extra` at 10.00 with a stock quantity of 0. -/
def sampleProductData : ProductManager.ProductData :=
  { name := some "Extra", description := none, price := some 1000, imageUrl := none,
    digitalContent := none, stockQuantity := some 0 }

/-- The environment of the bot: keys and one administrator, no other variable set. -/
def sampleEnv : ProcessEnv :=
  { ENCRYPTION_KEY := some "0123456789abcdef", BOT_SECRET_KEY := some "fedcba9876543210",
    ADMIN_USER_IDS := some "123456789012345678", RATE_LIMIT_REQUESTS := none,
    RATE_LIMIT_WINDOW_MS := none }

/-- The bot right after its start in `sampleEnv`. -/
def sampleBot : Bot :=
  { world := sampleStart, security := SecurityManager.new sampleEnv ("", "") }

/-- The bot on `sampleFullShop`, in the environment `sampleEnv`. -/
def sampleFullBot : Bot :=
  { world := sampleFullShop, security := SecurityManager.new sampleEnv ("", "") }

/-- An administrator's interaction. -/
def sampleAdminInteraction : Interaction :=
  { sampleInteraction with
    user := { sampleUser with id := "123456789012345678", username := "root" } }

/-- An environment whose `ADMIN_USER_IDS` lists two ids with a blank after the comma. -/
def sampleSpacedEnv : ProcessEnv :=
  { sampleEnv with ADMIN_USER_IDS := some "123456789012345678, 223456789012345678" }

/-- The text `content` contains the mention of channel `channelId`. -/
def MentionsChannel (content channelId : String) : Prop :=
  ("<#" ++ channelId ++ ">").toList <:+: content.toList

instance (content channelId : String) : Decidable (MentionsChannel content channelId) := by
  unfold MentionsChannel
  infer_instance

/-! ## Theorems -/

section Frames

@[simp] theorem emit_db (w : World) (e : Effect) : (w.emit e).db = w.db := rfl
@[simp] theorem emit_channels (w : World) (e : Effect) : (w.emit e).channels = w.channels := rfl
@[simp] theorem emit_timers (w : World) (e : Effect) : (w.emit e).timers = w.timers := rfl
@[simp] theorem emit_ticketTimeouts (w : World) (e : Effect) :
    (w.emit e).ticketTimeouts = w.ticketTimeouts := rfl
@[simp] theorem emit_activeTickets (w : World) (e : Effect) :
    (w.emit e).activeTickets = w.activeTickets := rfl
@[simp] theorem emit_effects (w : World) (e : Effect) : (w.emit e).effects = w.effects ++ [e] := rfl

theorem reply_eq_some {i : Interaction} {w : World} {e : Effect} {w1 : World} {i1 : Interaction}
    (h : i.reply w e = some (w1, i1)) :
    w1 = w.emit e ∧ i1 = { i with replied := true } ∧ i.deferred = false ∧ i.replied = false := by
  unfold Interaction.reply at h
  split at h
  · simp at h
  · simp only [Option.some.injEq, Prod.mk.injEq] at h
    simp_all

theorem reply_eq_none {i : Interaction} {w : World} {e : Effect}
    (h : i.reply w e = none) : i.deferred = true ∨ i.replied = true := by
  unfold Interaction.reply at h
  split at h
  · simp_all
  · simp at h

end Frames

/-! ### Session exclusivity -/

/-- Rewriting rows cannot raise the number of rows that pass a test the rewriting never
turns on. -/
theorem filter_map_length_le {α : Type} (p : α → Bool) (f : α → α)
    (hf : ∀ a, p (f a) = true → p a = true) (l : List α) :
    ((l.map f).filter p).length ≤ (l.filter p).length := by
  induction l with
  | nil => simp
  | cons a l ih =>
    simp only [List.map_cons, List.filter_cons]
    by_cases h1 : p (f a) = true
    · have h2 := hf a h1
      simp only [h1, h2, if_true, List.length_cons]
      omega
    · by_cases h2 : p a = true
      · simp only [h1, h2, if_true, List.length_cons]
        simp only [Bool.false_eq_true, if_false]
        omega
      · simp only [h1, h2]
        simpa using ih

/-- The number of open tickets of a user does not grow when a channel's ticket is closed. -/
theorem closeTicket_active_le (db : Database) (channelId closedBy : String)
    (reason : Option String) (now : Nat) (u : String) :
    (DatabaseManager.getUserActiveTickets
        (DatabaseManager.closeTicket db channelId closedBy reason now) u).length ≤
      (DatabaseManager.getUserActiveTickets db u).length := by
  unfold DatabaseManager.getUserActiveTickets DatabaseManager.closeTicket
  apply filter_map_length_le
  intro t ht
  split at ht
  · simp at ht
  · exact ht

theorem createTicketCatch_db {α : Type} (w : World) (i : Interaction) (error : String) :
    (TicketManager.createTicketCatch w i error : Outcome α).world.db = w.db := by
  unfold TicketManager.createTicketCatch
  split
  · rename_i h
    rw [(reply_eq_some h).1]
    rfl
  · rfl

theorem replyInTry_db {α : Type} (w : World) (i : Interaction) (content : String) (value : α) :
    (TicketManager.replyInTry w i content value).world.db = w.db := by
  unfold TicketManager.replyInTry
  split
  · rename_i h
    rw [(reply_eq_some h).1]
    rfl
  · exact createTicketCatch_db w i _

/-- The tickets table after `createTicket`: untouched, or extended by one open row of the
caller, and the latter only when the caller had no open ticket. -/
theorem createTicket_tickets (mgr : Nat) (w : World) (i : Interaction) (productId : Option Int)
    (env : TicketManager.CreateEnv) :
    (TicketManager.createTicket mgr w i productId env).world.db.tickets = w.db.tickets ∨
      (DatabaseManager.getUserActiveTickets w.db i.user.id = [] ∧
        ∃ row : TicketRow, row.user_id = i.user.id ∧ row.status = "open" ∧
          (TicketManager.createTicket mgr w i productId env).world.db.tickets =
            w.db.tickets ++ [row]) := by
  unfold TicketManager.createTicket
  simp only
  cases h1 : DatabaseManager.getUserActiveTickets w.db i.user.id with
  | cons t ts =>
    left
    simp only
    rw [replyInTry_db]
  | nil =>
    simp only
    split
    · left
      rw [replyInTry_db]
      rfl
    · cases h3 : env.created with
      | none =>
        left
        simp only
        rw [createTicketCatch_db]
        rfl
      | some channelId =>
        simp only
        split
        · left
          rw [createTicketCatch_db]
          rfl
        · rename_i db3 hdb
          right
          refine ⟨trivial, ?_⟩
          rw [replyInTry_db]
          unfold DatabaseManager.createTicket at hdb
          split at hdb
          · simp at hdb
          · simp only [Option.some.injEq] at hdb
            subst hdb
            exact ⟨_, rfl, rfl, rfl⟩

/-- The active tickets of a user are read off the tickets table alone. -/
theorem active_congr {db1 db2 : Database} (h : db1.tickets = db2.tickets) (u : String) :
    DatabaseManager.getUserActiveTickets db1 u = DatabaseManager.getUserActiveTickets db2 u := by
  unfold DatabaseManager.getUserActiveTickets
  rw [h]

theorem replyOrThrow_db (w : World) (i : Interaction) (content : String) :
    (TicketManager.replyOrThrow w i content).world.db = w.db := by
  unfold TicketManager.replyOrThrow
  split
  · rename_i h
    rw [(reply_eq_some h).1]
    rfl
  · rfl

/-- The tickets table after `closeTicket` of the manager: untouched, or the `UPDATE` of
`DatabaseManager.closeTicket` for the interaction's channel. -/
theorem closeTicket_tickets (mgr : Nat) (w : World) (i : Interaction)
    (env : TicketManager.CloseEnv) :
    (TicketManager.closeTicket mgr w i env).world.db.tickets = w.db.tickets ∨
      (TicketManager.closeTicket mgr w i env).world.db.tickets =
        (DatabaseManager.closeTicket w.db i.channelId i.user.id
          (some "Fechado pelo usuário") env.now).tickets := by
  unfold TicketManager.closeTicket
  simp only
  split
  · left
    rw [replyOrThrow_db]
  · split
    · left
      rw [replyOrThrow_db]
    · split
      · left
        rfl
      · split
        · left
          split
          · rename_i h
            unfold Interaction.editReply at h
            split at h
            · simp only [Option.some.injEq, Prod.mk.injEq] at h
              rw [← h.1]
              rfl
            · simp at h
          · rfl
        · split
          · left
            rfl
          · rename_i w1 i2 h
            right
            unfold Interaction.editReply at h
            split at h
            · simp only [Option.some.injEq, Prod.mk.injEq] at h
              rw [← h.1]
              simp only [emit_db]
              split <;> rfl
            · simp at h

/-- Closing cannot raise a user's number of open tickets: the idle-timeout callback. -/
theorem idleTimeoutFire_active_le (w : World) (t : IdleTimer) (now : Nat) (dbOpen : Bool)
    (u : String) :
    (DatabaseManager.getUserActiveTickets (TicketManager.idleTimeoutFire w t now dbOpen).db
        u).length ≤ (DatabaseManager.getUserActiveTickets w.db u).length := by
  unfold TicketManager.idleTimeoutFire
  simp only
  split
  · exact le_refl _
  · split
    · exact le_refl _
    · exact closeTicket_active_le w.db t.channelId w.botId _ now u

theorem cleanupOne_active_le (now : Nat) (w : World) (ticket : TicketRow) (u : String) :
    (DatabaseManager.getUserActiveTickets (TicketManager.cleanupOne now w ticket).db u).length ≤
      (DatabaseManager.getUserActiveTickets w.db u).length := by
  unfold TicketManager.cleanupOne
  split
  · exact closeTicket_active_le w.db ticket.channel_id w.botId _ now u
  · exact le_refl _

theorem cleanupFold_active_le (now : Nat) (rows : List TicketRow) (w : World) (u : String) :
    (DatabaseManager.getUserActiveTickets (rows.foldl (TicketManager.cleanupOne now) w).db
        u).length ≤ (DatabaseManager.getUserActiveTickets w.db u).length := by
  induction rows generalizing w with
  | nil => exact le_refl _
  | cons r rs ih =>
    simp only [List.foldl_cons]
    exact le_trans (ih _) (cleanupOne_active_le now w r u)

/-- The exclusivity invariant is kept by every step of the life cycle. -/
theorem step_keeps_exclusive {w w1 : World} (hs : Step w w1)
    (hw : ∀ u, (DatabaseManager.getUserActiveTickets w.db u).length ≤ 1) (u : String) :
    (DatabaseManager.getUserActiveTickets w1.db u).length ≤ 1 := by
  cases hs with
  | createTicket mgr _ i productId env =>
    rcases createTicket_tickets mgr w i productId env with h | ⟨hnone, row, hu, _, h⟩
    · rw [active_congr h]
      exact hw u
    · unfold DatabaseManager.getUserActiveTickets
      rw [h, List.filter_append, List.length_append]
      by_cases hcase : u = i.user.id
      · subst hcase
        unfold DatabaseManager.getUserActiveTickets at hnone
        rw [hnone]
        simp only [List.length_nil, zero_add]
        exact le_trans (List.length_filter_le _ _) (by simp)
      · have hrow : (row.user_id == u && row.status == "open") = false := by
          rw [hu]
          have : (i.user.id == u) = false := by
            simpa using fun h => hcase h.symm
          simp [this]
        rw [List.filter_cons_of_neg (by simp [hrow])]
        simpa using hw u
  | closeTicket mgr _ i env =>
    rcases closeTicket_tickets mgr w i env with h | h
    · rw [active_congr h]
      exact hw u
    · rw [active_congr h]
      exact le_trans (closeTicket_active_le w.db _ _ _ _ u) (hw u)
  | idleTimeout _ t now dbOpen _ =>
    exact le_trans (idleTimeoutFire_active_le w t now dbOpen u) (hw u)
  | cleanup _ now =>
    exact le_trans (cleanupFold_active_le now _ w u) (hw u)
  | channels _ cs => exact hw u

/-- C1: in every world reachable from a new database by createTicket, closeTicket,
idle-timeout and cleanupOrphanedTickets runs, each run to its end before the next starts,
every user owns at most one ticket row with status 'open'. -/
theorem at_most_one_open_ticket (w : World) (h : Reachable w) (u : String) :
    (DatabaseManager.getUserActiveTickets w.db u).length ≤ 1 := by
  induction h generalizing u with
  | initial channels ticketCategoryId botId => simp [World.initial, Database.empty,
      DatabaseManager.getUserActiveTickets]
  | step _ hs ih => exact step_keeps_exclusive hs ih u

/-- Witness for C1: the world after one ticket was opened is reachable, and the user has
exactly that one open ticket. -/
theorem at_most_one_open_ticket_witness :
    Reachable sampleOpened ∧
      (DatabaseManager.getUserActiveTickets sampleOpened.db "u1").length ≤ 1 :=
  ⟨Reachable.step (Reachable.initial _ _ _) (Step.createTicket _ _ _ _ _),
   at_most_one_open_ticket sampleOpened
     (Reachable.step (Reachable.initial _ _ _) (Step.createTicket _ _ _ _ _)) "u1"⟩

/-! ### `createTicket` for a user who has an open ticket -/

theorem reply_of_acked {i : Interaction} (h : (i.deferred || i.replied) = true) (w : World)
    (e : Effect) : i.reply w e = none := by
  unfold Interaction.reply
  rw [if_pos h]

theorem reply_of_fresh {i : Interaction} (h : ¬ (i.deferred || i.replied) = true) (w : World)
    (e : Effect) : i.reply w e = some (w.emit e, { i with replied := true }) := by
  unfold Interaction.reply
  rw [if_neg h]

theorem createTicketCatch_world {α : Type} (w : World) (i : Interaction) (error : String) :
    (TicketManager.createTicketCatch w i error : Outcome α).world =
      if i.deferred || i.replied then w
      else w.emit (.reply i.user.id "❌ Erro interno ao criar ticket. Nossa equipe foi notificada.") := by
  unfold TicketManager.createTicketCatch
  by_cases h : (i.deferred || i.replied) = true
  · rw [reply_of_acked h, if_pos h]
  · rw [reply_of_fresh h, if_neg h]

theorem replyInTry_world {α : Type} (w : World) (i : Interaction) (content : String)
    (value : α) :
    (TicketManager.replyInTry w i content value).world =
      if i.deferred || i.replied then w else w.emit (.reply i.user.id content) := by
  unfold TicketManager.replyInTry
  by_cases h : (i.deferred || i.replied) = true
  · rw [reply_of_acked h, if_pos h]
    simp only
    rw [createTicketCatch_world, if_pos h]
  · rw [reply_of_fresh h, if_neg h]

theorem replyInTry_result {α : Type} (w : World) (i : Interaction) (content : String)
    (value : α) (hd : i.deferred = false) (hr : i.replied = false) :
    (TicketManager.replyInTry w i content value).result = .ok value := by
  unfold TicketManager.replyInTry Interaction.reply
  simp [hd, hr]

theorem mentions_of_suffix (pre channelId : String) :
    MentionsChannel (pre ++ ("<#" ++ channelId ++ ">")) channelId := by
  unfold MentionsChannel
  rw [String.toList, String.toList, String.data_append]
  exact (List.suffix_append _ _).isInfix

/-- C2, amended: for a user who already owns an open ticket, createTicket leaves the
database (users, tickets, sales and the other tables), the channel cache, the armed timers,
the timer map and the active-ticket cache as they were.  On an interaction that was not
answered before, its one effect is a reply and it returns that reply's response: the reply
mentions the channel of the user's first open ticket when the channel is in the cache, and
reads 'canal não encontrado' when it is not. -/
theorem createTicket_when_ticket_open (mgr : Nat) (w : World) (i : Interaction)
    (productId : Option Int) (env : TicketManager.CreateEnv) (t : TicketRow)
    (ts : List TicketRow) (h : DatabaseManager.getUserActiveTickets w.db i.user.id = t :: ts) :
    ((TicketManager.createTicket mgr w i productId env).world.db = w.db ∧
      (TicketManager.createTicket mgr w i productId env).world.channels = w.channels ∧
      (TicketManager.createTicket mgr w i productId env).world.timers = w.timers ∧
      (TicketManager.createTicket mgr w i productId env).world.ticketTimeouts = w.ticketTimeouts ∧
      (TicketManager.createTicket mgr w i productId env).world.activeTickets = w.activeTickets) ∧
    (i.deferred = false → i.replied = false →
      (TicketManager.createTicket mgr w i productId env).result = .ok .response ∧
      (w.hasChannel t.channel_id = true →
        (TicketManager.createTicket mgr w i productId env).world =
            w.emit (.reply i.user.id
              ("❌ Você já possui um ticket ativo: " ++ ("<#" ++ t.channel_id ++ ">"))) ∧
          MentionsChannel ("❌ Você já possui um ticket ativo: " ++ ("<#" ++ t.channel_id ++ ">"))
            t.channel_id) ∧
      (w.hasChannel t.channel_id = false →
        (TicketManager.createTicket mgr w i productId env).world =
          w.emit (.reply i.user.id "❌ Você já possui um ticket ativo: canal não encontrado"))) := by
  unfold TicketManager.createTicket
  simp only [h]
  constructor
  · rw [replyInTry_world]
    split <;> simp
  · intro hd hr
    refine ⟨replyInTry_result _ _ _ _ hd hr, ?_, ?_⟩
    · intro hc
      refine ⟨?_, mentions_of_suffix _ _⟩
      rw [replyInTry_world]
      simp [hd, hr, hc]
    · intro hc
      rw [replyInTry_world]
      simp [hd, hr, hc]

/-- Witness for C2: the user of `sampleOpened` owns an open ticket, and a second
createTicket leaves the database as it was. -/
theorem createTicket_when_ticket_open_witness :
    DatabaseManager.getUserActiveTickets sampleOpened.db sampleInteraction.user.id =
        [sampleTicket] ∧
      (TicketManager.createTicket 2 sampleOpened sampleInteraction none
          { now := 2000, created := some "c2" }).world.db = sampleOpened.db :=
  ⟨by decide,
   (createTicket_when_ticket_open 2 sampleOpened sampleInteraction none
      { now := 2000, created := some "c2" } sampleTicket [] (by decide)).1.1⟩

/-- C2, counterexample: the user owns an open ticket whose channel `c1` is gone from the
cache; the reply of createTicket does not mention that channel. -/
theorem createTicket_reply_without_channel :
    DatabaseManager.getUserActiveTickets sampleOrphaned.db "u1" ≠ [] ∧
      ¬ ∃ content : String,
          (TicketManager.createTicket 2 sampleOrphaned sampleInteraction none
              { now := 2000, created := some "c2" }).world.effects =
            sampleOrphaned.effects ++ [Effect.reply "u1" content] ∧
          MentionsChannel content "c1" := by
  refine ⟨by decide, ?_⟩
  rintro ⟨content, h1, h2⟩
  have h3 : (TicketManager.createTicket 2 sampleOrphaned sampleInteraction none
      { now := 2000, created := some "c2" }).world.effects =
      sampleOrphaned.effects ++
        [Effect.reply "u1" "❌ Você já possui um ticket ativo: canal não encontrado"] := by
    decide
  rw [h3] at h1
  have h4 := List.append_cancel_left h1
  simp only [List.cons.injEq, Effect.reply.injEq, true_and, and_true] at h4
  subst h4
  revert h2
  decide

/-! ### `completeSale` -/

/-- Looking a key up after a rewriting of the rows that keeps every key. -/
theorem find?_map_same_key {α : Type} (key : α → Int) (f : α → α)
    (hf : ∀ a, key (f a) = key a) (k : Int) (l : List α) :
    (l.map f).find? (fun a => key a == k) = (l.find? (fun a => key a == k)).map f := by
  induction l with
  | nil => rfl
  | cons a l ih =>
    simp only [List.map_cons, List.find?_cons, hf]
    split
    · rfl
    · exact ih

theorem find?_key_eq {α : Type} (key : α → Int) (k : Int) (l : List α) (a : α)
    (h : l.find? (fun a => key a == k) = some a) : key a = k := by
  have := List.find?_some h
  simpa using this

theorem getSale_updateSale (db : Database) (saleId : Int) (status : String)
    (paymentMethod transactionId : Option String) (now : Nat) (sale : SaleRow)
    (h : DatabaseManager.getSale db saleId = some sale) :
    DatabaseManager.getSale
        (DatabaseManager.updateSale db saleId status paymentMethod transactionId now) saleId =
      some { sale with status := status, payment_method := paymentMethod,
                       transaction_id := transactionId, completed_at := some now } := by
  unfold DatabaseManager.getSale DatabaseManager.updateSale at *
  simp only
  rw [find?_map_same_key (fun s : SaleRow => s.id) _ (by intro a; split <;> rfl), h]
  have hid := find?_key_eq (fun s : SaleRow => s.id) saleId _ _ h
  simp only at hid
  simp [hid]

theorem getProduct_incrementProductSales (db : Database) (productId : Int) (p : ProductRow)
    (h : DatabaseManager.getProduct db productId = some p) :
    DatabaseManager.getProduct (DatabaseManager.incrementProductSales db productId) productId =
      some { p with sales_count := p.sales_count + 1 } := by
  unfold DatabaseManager.getProduct DatabaseManager.incrementProductSales at *
  simp only
  rw [find?_map_same_key (fun p : ProductRow => p.id) _ (by intro a; split <;> rfl), h]
  have hid := find?_key_eq (fun p : ProductRow => p.id) productId _ _ h
  simp only at hid
  simp [hid]

theorem getProduct_updateProductStock (db : Database) (productId : Int) (stock : Int)
    (now : Nat) (p : ProductRow) (h : DatabaseManager.getProduct db productId = some p) :
    DatabaseManager.getProduct (DatabaseManager.updateProductStock db productId stock now)
        productId = some { p with stock_quantity := stock, updated_at := now } := by
  unfold DatabaseManager.getProduct DatabaseManager.updateProductStock at *
  simp only
  rw [find?_map_same_key (fun p : ProductRow => p.id) _ (by intro a; split <;> rfl), h]
  have hid := find?_key_eq (fun p : ProductRow => p.id) productId _ _ h
  simp only at hid
  simp [hid]

theorem completeSale_run (w : World) (saleId : Int) (paymentMethod transactionId : Option String)
    (now : Nat) (sale : SaleRow) (p : ProductRow)
    (hs : DatabaseManager.getSale w.db saleId = some sale)
    (hp : DatabaseManager.getProduct w.db sale.product_id = some p) :
    (ProductManager.completeSale w saleId paymentMethod transactionId now).result = .ok true ∧
    (ProductManager.completeSale w saleId paymentMethod transactionId now).world.db.sales =
      (DatabaseManager.updateSale w.db saleId "completed" paymentMethod transactionId now).sales ∧
    (ProductManager.completeSale w saleId paymentMethod transactionId now).world.db.products =
      if p.stock_quantity > 0 then
        (DatabaseManager.updateProductStock
          (DatabaseManager.incrementProductSales w.db sale.product_id)
          sale.product_id (p.stock_quantity - 1) now).products
      else (DatabaseManager.incrementProductSales w.db sale.product_id).products := by
  have h1 := getSale_updateSale w.db saleId "completed" paymentMethod transactionId now sale hs
  have hp1 : DatabaseManager.getProduct
      (DatabaseManager.updateSale w.db saleId "completed" paymentMethod transactionId now)
      sale.product_id = some p := hp
  have h2 := getProduct_incrementProductSales _ sale.product_id p hp1
  unfold ProductManager.completeSale
  simp only [h1, h2]
  by_cases hpos : p.stock_quantity > 0
  · simp only [hpos, if_true]
    exact ⟨trivial, rfl, rfl⟩
  · simp only [hpos, if_false]
    exact ⟨trivial, rfl, rfl⟩

/-- The sale row and the product row after `completeSale`, for a sale that exists and whose
product exists. -/
theorem completeSale_rows (w : World) (saleId : Int)
    (paymentMethod transactionId : Option String) (now : Nat) (sale : SaleRow) (p : ProductRow)
    (hs : DatabaseManager.getSale w.db saleId = some sale)
    (hp : DatabaseManager.getProduct w.db sale.product_id = some p) :
    (ProductManager.completeSale w saleId paymentMethod transactionId now).result = .ok true ∧
    DatabaseManager.getSale
        (ProductManager.completeSale w saleId paymentMethod transactionId now).world.db saleId =
      some { sale with status := "completed", payment_method := paymentMethod,
                       transaction_id := transactionId, completed_at := some now } ∧
    DatabaseManager.getProduct
        (ProductManager.completeSale w saleId paymentMethod transactionId now).world.db
        sale.product_id =
      some (if p.stock_quantity > 0 then
              { p with sales_count := p.sales_count + 1,
                       stock_quantity := p.stock_quantity - 1, updated_at := now }
            else { p with sales_count := p.sales_count + 1 }) := by
  obtain ⟨hres, hsales, hproducts⟩ :=
    completeSale_run w saleId paymentMethod transactionId now sale p hs hp
  refine ⟨hres, ?_, ?_⟩
  · have h := getSale_updateSale w.db saleId "completed" paymentMethod transactionId now sale hs
    unfold DatabaseManager.getSale at h ⊢
    rw [hsales]
    exact h
  · have hinc := getProduct_incrementProductSales w.db sale.product_id p hp
    by_cases hpos : p.stock_quantity > 0
    · rw [if_pos hpos] at hproducts ⊢
      have hq := getProduct_updateProductStock _ sale.product_id (p.stock_quantity - 1) now _ hinc
      unfold DatabaseManager.getProduct at hq ⊢
      rw [hproducts]
      exact hq
    · rw [if_neg hpos] at hproducts ⊢
      unfold DatabaseManager.getProduct at hinc ⊢
      rw [hproducts]
      exact hinc
theorem updateSale_other (db : Database) (saleId : Int) (status : String)
    (paymentMethod transactionId : Option String) (now : Nat) (n : Nat) (row : SaleRow)
    (h : db.sales[n]? = some row) (hne : row.id ≠ saleId) :
    (DatabaseManager.updateSale db saleId status paymentMethod transactionId now).sales[n]? =
      some row := by
  unfold DatabaseManager.updateSale
  simp only [List.getElem?_map, h, Option.map_some']
  simp [hne]

theorem incrementProductSales_other (db : Database) (productId : Int) (n : Nat)
    (row : ProductRow) (h : db.products[n]? = some row) (hne : row.id ≠ productId) :
    (DatabaseManager.incrementProductSales db productId).products[n]? = some row := by
  unfold DatabaseManager.incrementProductSales
  simp only [List.getElem?_map, h, Option.map_some']
  simp [hne]

theorem updateProductStock_other (db : Database) (productId : Int) (stock : Int) (now : Nat)
    (n : Nat) (row : ProductRow) (h : db.products[n]? = some row) (hne : row.id ≠ productId) :
    (DatabaseManager.updateProductStock db productId stock now).products[n]? = some row := by
  unfold DatabaseManager.updateProductStock
  simp only [List.getElem?_map, h, Option.map_some']
  simp [hne]

/-- C4: for an existing pending sale whose product row is `p`, completeSale succeeds, sets
the sale to 'completed' with the given payment method and transaction id, raises the
product's sales_count by exactly 1, lowers its stock by 1 when the stock is positive and
leaves the stock as it is when it is -1 (unlimited); the tables keep their length and every
sale or product row with another id stays as it was. -/
theorem completeSale_pending (w : World) (saleId : Int)
    (paymentMethod transactionId : Option String) (now : Nat) (sale : SaleRow) (p : ProductRow)
    (hs : DatabaseManager.getSale w.db saleId = some sale) (_hpending : sale.status = "pending")
    (hp : DatabaseManager.getProduct w.db sale.product_id = some p) :
    (ProductManager.completeSale w saleId paymentMethod transactionId now).result = .ok true ∧
    DatabaseManager.getSale
        (ProductManager.completeSale w saleId paymentMethod transactionId now).world.db saleId =
      some { sale with status := "completed", payment_method := paymentMethod,
                       transaction_id := transactionId, completed_at := some now } ∧
    (∃ q : ProductRow,
      DatabaseManager.getProduct
          (ProductManager.completeSale w saleId paymentMethod transactionId now).world.db
          sale.product_id = some q ∧
        q.sales_count = p.sales_count + 1 ∧
        (p.stock_quantity > 0 → q.stock_quantity = p.stock_quantity - 1) ∧
        (p.stock_quantity = -1 → q.stock_quantity = -1)) ∧
    ((ProductManager.completeSale w saleId paymentMethod transactionId now).world.db.sales.length =
        w.db.sales.length ∧
      ∀ (n : Nat) (row : SaleRow), w.db.sales[n]? = some row → row.id ≠ saleId →
        (ProductManager.completeSale w saleId paymentMethod transactionId now).world.db.sales[n]? =
          some row) ∧
    ((ProductManager.completeSale w saleId paymentMethod transactionId now).world.db.products.length =
        w.db.products.length ∧
      ∀ (n : Nat) (row : ProductRow), w.db.products[n]? = some row →
        row.id ≠ sale.product_id →
        (ProductManager.completeSale w saleId paymentMethod transactionId now).world.db.products[n]? =
          some row) := by
  obtain ⟨hres, hsales, hproducts⟩ :=
    completeSale_run w saleId paymentMethod transactionId now sale p hs hp
  obtain ⟨_, hsale, hprod⟩ :=
    completeSale_rows w saleId paymentMethod transactionId now sale p hs hp
  refine ⟨hres, hsale, ?_, ⟨?_, ?_⟩, ⟨?_, ?_⟩⟩
  · by_cases hpos : p.stock_quantity > 0
    · rw [if_pos hpos] at hprod
      exact ⟨_, hprod, rfl, fun _ => rfl, fun h => by omega⟩
    · rw [if_neg hpos] at hprod
      exact ⟨_, hprod, rfl, fun h => absurd h hpos, fun h => h⟩
  · rw [hsales]
    unfold DatabaseManager.updateSale
    simp
  · intro n row hrow hne
    rw [hsales]
    exact updateSale_other w.db saleId _ _ _ now n row hrow hne
  · rw [hproducts]
    split <;> simp [DatabaseManager.updateProductStock, DatabaseManager.incrementProductSales]
  · intro n row hrow hne
    rw [hproducts]
    split
    · exact updateProductStock_other _ _ _ _ n row
        (incrementProductSales_other w.db _ n row hrow hne) hne
    · exact incrementProductSales_other w.db _ n row hrow hne

/-- Witness for C4: the pending sale of `sampleShop` is completed. -/
theorem completeSale_pending_witness :
    DatabaseManager.getSale sampleShop.db 1 = some sampleSale ∧
    sampleSale.status = "pending" ∧
    DatabaseManager.getProduct sampleShop.db sampleSale.product_id = some sampleProduct ∧
    (ProductManager.completeSale sampleShop 1 (some "pix") (some "tx1") 100).result = .ok true :=
  ⟨by decide, by decide, by decide,
   (completeSale_pending sampleShop 1 (some "pix") (some "tx1") 100 sampleSale sampleProduct
      (by decide) (by decide) (by decide)).1⟩

/-- C3, amended: for a sale whose product has positive stock s, the first completeSale
succeeds and leaves stock s-1 and the sales counter one higher; a second completeSale on
the same sale id succeeds as well, raises the sales counter once more and lowers the stock
once more, to s-2, or leaves it at 0 when s was 1. -/
theorem completeSale_twice (w : World) (saleId : Int)
    (pay1 tx1 pay2 tx2 : Option String) (now1 now2 : Nat) (sale : SaleRow) (p : ProductRow)
    (hs : DatabaseManager.getSale w.db saleId = some sale)
    (hp : DatabaseManager.getProduct w.db sale.product_id = some p)
    (hpos : p.stock_quantity > 0) :
    (ProductManager.completeSale w saleId pay1 tx1 now1).result = .ok true ∧
    (∃ q1 : ProductRow,
      DatabaseManager.getProduct (ProductManager.completeSale w saleId pay1 tx1 now1).world.db
          sale.product_id = some q1 ∧
        q1.stock_quantity = p.stock_quantity - 1 ∧ q1.sales_count = p.sales_count + 1) ∧
    (ProductManager.completeSale (ProductManager.completeSale w saleId pay1 tx1 now1).world
        saleId pay2 tx2 now2).result = .ok true ∧
    (∃ q2 : ProductRow,
      DatabaseManager.getProduct
          (ProductManager.completeSale (ProductManager.completeSale w saleId pay1 tx1 now1).world
            saleId pay2 tx2 now2).world.db sale.product_id = some q2 ∧
        q2.stock_quantity = (if p.stock_quantity = 1 then 0 else p.stock_quantity - 2) ∧
        q2.sales_count = p.sales_count + 2) := by
  obtain ⟨hres1, hsale1, hprod1⟩ := completeSale_rows w saleId pay1 tx1 now1 sale p hs hp
  rw [if_pos hpos] at hprod1
  obtain ⟨hres2, _, hprod2⟩ :=
    completeSale_rows (ProductManager.completeSale w saleId pay1 tx1 now1).world saleId pay2 tx2
      now2 _ _ hsale1 hprod1
  refine ⟨hres1, ⟨_, hprod1, rfl, rfl⟩, hres2, ?_⟩
  by_cases h1 : p.stock_quantity = 1
  · have hnot : ¬ (p.stock_quantity - 1 > 0) := by omega
    simp only [hnot, if_false] at hprod2
    refine ⟨_, hprod2, ?_, ?_⟩
    · simp only [h1, if_true]
      omega
    · show p.sales_count + 1 + 1 = p.sales_count + 2
      omega
  · have hyes : p.stock_quantity - 1 > 0 := by omega
    simp only [hyes, if_true] at hprod2
    refine ⟨_, hprod2, ?_, ?_⟩
    · simp only [h1, if_false]
      show p.stock_quantity - 1 - 1 = p.stock_quantity - 2
      omega
    · show p.sales_count + 1 + 1 = p.sales_count + 2
      omega

/-- Witness for C3: the sale of `sampleShop`, whose product has stock 5, completed twice. -/
theorem completeSale_twice_witness :
    DatabaseManager.getSale sampleShop.db 1 = some sampleSale ∧
    DatabaseManager.getProduct sampleShop.db sampleSale.product_id = some sampleProduct ∧
    sampleProduct.stock_quantity > 0 ∧
    (ProductManager.completeSale
        (ProductManager.completeSale sampleShop 1 (some "pix") (some "tx1") 100).world
        1 (some "pix") (some "tx1") 200).result = .ok true :=
  ⟨by decide, by decide, by decide,
   (completeSale_twice sampleShop 1 (some "pix") (some "tx1") (some "pix") (some "tx1") 100 200
      sampleSale sampleProduct (by decide) (by decide) (by decide)).2.2.1⟩

/-- C3, counterexample: in `sampleShop` (stock 5) the second completeSale on sale 1 is not
rejected with the stock kept at 4 and the counter at 1: it returns true, the stock is 3
and the counter 2. -/
theorem completeSale_twice_not_rejected :
    ¬ ((∃ e : String,
          (ProductManager.completeSale
            (ProductManager.completeSale sampleShop 1 (some "pix") (some "tx1") 100).world
            1 (some "pix") (some "tx1") 200).result = .error e) ∧
        (DatabaseManager.getProduct
          (ProductManager.completeSale
            (ProductManager.completeSale sampleShop 1 (some "pix") (some "tx1") 100).world
            1 (some "pix") (some "tx1") 200).world.db 1).map (fun q => q.stock_quantity) =
          some 4) ∧
      (DatabaseManager.getProduct
          (ProductManager.completeSale
            (ProductManager.completeSale sampleShop 1 (some "pix") (some "tx1") 100).world
            1 (some "pix") (some "tx1") 200).world.db 1).map
        (fun q => (q.stock_quantity, q.sales_count)) = some (3, 2) := by
  constructor
  · rintro ⟨_, h⟩
    revert h
    decide
  · decide

/-! ### `getDigitalContent` -/

/-- C5: getDigitalContent returns content only if the sales table holds a row with the
asking user, the asked product and status 'completed'; when there is no such row (no sale,
a pending or cancelled sale, a completed sale of another user or of another product) it
fails with the not-purchased error and changes nothing. -/
theorem getDigitalContent_needs_completed_sale (node : NodeRuntime) (sm : SecurityManager)
    (w : World) (productId : Int) (userId : String) (now : Nat) :
    ((∃ c : ProductManager.DigitalContent,
        (ProductManager.getDigitalContent node sm w productId userId now).result = .ok c) →
      ∃ s ∈ w.db.sales, s.user_id = userId ∧ s.product_id = productId ∧
        s.status = "completed") ∧
    ((¬ ∃ s ∈ w.db.sales, s.user_id = userId ∧ s.product_id = productId ∧
        s.status = "completed") →
      (ProductManager.getDigitalContent node sm w productId userId now).result =
          .error "Você não possui este produto ou a compra não foi confirmada." ∧
        (ProductManager.getDigitalContent node sm w productId userId now).world = w) := by
  have key : ∀ sale : SaleRow, DatabaseManager.getCompletedSale w.db userId productId = some sale →
      ∃ s ∈ w.db.sales, s.user_id = userId ∧ s.product_id = productId ∧
        s.status = "completed" := by
    intro sale h
    unfold DatabaseManager.getCompletedSale at h
    refine ⟨sale, List.mem_of_find?_eq_some h, ?_⟩
    have := List.find?_some h
    simpa [and_assoc] using this
  constructor
  · rintro ⟨c, hc⟩
    cases hsale : DatabaseManager.getCompletedSale w.db userId productId with
    | none =>
      unfold ProductManager.getDigitalContent at hc
      simp only [hsale] at hc
      cases hc
    | some sale => exact key sale hsale
  · intro hno
    cases hsale : DatabaseManager.getCompletedSale w.db userId productId with
    | none =>
      unfold ProductManager.getDigitalContent
      simp only [hsale]
      exact ⟨trivial, trivial⟩
    | some sale => exact absurd (key sale hsale) hno

/-- Witness for C5: in `sampleShop` the only sale of the user is pending, and asking for
the product's content fails. -/
theorem getDigitalContent_needs_completed_sale_witness :
    (¬ ∃ s ∈ sampleShop.db.sales, s.user_id = "u1" ∧ s.product_id = 1 ∧
        s.status = "completed") ∧
      (ProductManager.getDigitalContent sampleNode sampleSecurity
          sampleShop 1 "u1" 50).result =
        .error "Você não possui este produto ou a compra não foi confirmada." :=
  ⟨by decide,
   ((getDigitalContent_needs_completed_sale sampleNode sampleSecurity sampleShop 1 "u1" 50).2
      (by decide)).1⟩

/-! ### The purchase confirmation -/

theorem emit_frame (w : World) (e : Effect) : { w.emit e with effects := w.effects } = w := rfl

theorem outerCatch_frame {α : Type} (w : World) (i : Interaction) (value : α) :
    { (ProductManager.outerCatch w i value).world with effects := w.effects } = w := by
  unfold ProductManager.outerCatch
  split <;> rfl

theorem outerCatch_db {α : Type} (w : World) (i : Interaction) (value : α) :
    (ProductManager.outerCatch w i value).world.db = w.db := by
  unfold ProductManager.outerCatch
  split <;> rfl

theorem replyAndStop_frame (w : World) (i : Interaction) (content : String) :
    { (ProductManager.replyAndStop w i content).world with effects := w.effects } = w := by
  unfold ProductManager.replyAndStop
  by_cases h : (i.deferred || i.replied) = true
  · rw [reply_of_acked h]
    exact outerCatch_frame w i none
  · rw [reply_of_fresh h]
    rfl

/-- The checks and the prompt of `handleProductPurchase` change nothing but what is shown on
Discord. -/
theorem select_frame (w : World) (i : Interaction) (productId : String) :
    { (ProductManager.handleProductPurchase_select w i productId).world with
        effects := w.effects } = w := by
  unfold ProductManager.handleProductPurchase_select
  simp only
  split
  · exact replyAndStop_frame w i _
  · split
    · exact replyAndStop_frame w i _
    · split
      · exact replyAndStop_frame w i _
      · split
        · exact replyAndStop_frame w i _
        · by_cases h : (i.deferred || i.replied) = true
          · rw [reply_of_acked h]
            exact outerCatch_frame w i none
          · rw [reply_of_fresh h]
            rfl

theorem replyInTry_acked {α : Type} (w : World) (i : Interaction) (content : String)
    (value : α) (h : (i.deferred || i.replied) = true) :
    TicketManager.replyInTry w i content value = ⟨w, i, .error "InteractionAlreadyReplied"⟩ := by
  unfold TicketManager.replyInTry TicketManager.createTicketCatch
  rw [reply_of_acked h, reply_of_acked h]

/-- `createTicket` on an interaction that is already deferred or replied, for a user with an
open ticket: the first reply is rejected, so is the reply of the `catch` block, and the
method throws with the world as it was. -/
theorem createTicket_acked_existing (mgr : Nat) (w : World) (i : Interaction)
    (productId : Option Int) (env : TicketManager.CreateEnv)
    (hopen : DatabaseManager.getUserActiveTickets w.db i.user.id ≠ [])
    (h : (i.deferred || i.replied) = true) :
    TicketManager.createTicket mgr w i productId env =
      ⟨w, i, .error "InteractionAlreadyReplied"⟩ := by
  obtain ⟨t, ts, hx⟩ := List.exists_cons_of_ne_nil hopen
  unfold TicketManager.createTicket
  simp only [hx]
  exact replyInTry_acked w i _ _ h

theorem filter_user {userId productId : String} {arrivals : List ButtonInteraction}
    {c : ButtonInteraction}
    (hc : ProductManager.awaitMessageComponent
      (ProductManager.confirmationFilter userId productId) arrivals = some c) :
    c.interaction.user.id = userId := by
  unfold ProductManager.awaitMessageComponent at hc
  have := List.find?_some hc
  unfold ProductManager.confirmationFilter at this
  simp only [Bool.and_eq_true, beq_iff_eq] at this
  exact this.1

/-- C6: when the actor confirms and already owns an open ticket at that moment, whether it
was opened during the confirmation wait or before, handleProductPurchase inserts no sale
row and logs no PURCHASE_INITIATED event: the whole database stays as it was. -/
theorem confirm_with_open_ticket (w : World) (i : Interaction) (p : ProductManager.Pending)
    (arrivals : List ButtonInteraction) (env : TicketManager.CreateEnv) (c : ButtonInteraction)
    (hc : ProductManager.awaitMessageComponent
      (ProductManager.confirmationFilter p.userId p.productId) arrivals = some c)
    (_hconfirm : c.customId = "confirm_purchase_" ++ p.productId)
    (hopen : DatabaseManager.getUserActiveTickets w.db p.userId ≠ []) :
    (ProductManager.handleProductPurchase_resume w i p arrivals env).world.db.sales =
        w.db.sales ∧
      (ProductManager.handleProductPurchase_resume w i p arrivals env).world.db.security_logs =
        w.db.security_logs ∧
      (ProductManager.handleProductPurchase_resume w i p arrivals env).world.db = w.db := by
  have hdb : (ProductManager.handleProductPurchase_resume w i p arrivals env).world.db = w.db := by
    unfold ProductManager.handleProductPurchase_resume
    simp only [hc]
    split
    · split
      · rename_i w1 hu
        unfold ProductManager.update at hu
        split at hu
        · simp at hu
        · simp only [Option.some.injEq] at hu
          rw [← hu]
          rfl
      · exact outerCatch_db w i ()
    · cases hd : c.interaction.defer with
      | none =>
        simp only
        exact outerCatch_db w i ()
      | some c1 =>
        simp only
        have hc1 : c1 = { c.interaction with deferred := true } := by
          unfold Interaction.defer at hd
          split at hd
          · simp at hd
          · simpa using hd.symm
        have hack : (c1.deferred || c1.replied) = true := by
          rw [hc1]
          rfl
        have huser : c1.user.id = p.userId := by
          rw [hc1]
          exact filter_user hc
        have hopen1 : DatabaseManager.getUserActiveTickets
            ({ w with nextManager := w.nextManager + 1 } : World).db c1.user.id ≠ [] := by
          rw [huser]
          exact hopen
        rw [createTicket_acked_existing _ _ c1 _ env hopen1 hack]
        simp only
        exact outerCatch_db _ i ()
  exact ⟨by rw [hdb], by rw [hdb], hdb⟩

/-- Witness for C6: the user opened a ticket during the wait and then confirms; the sales
table of `sampleRace` stays as it was. -/
theorem confirm_with_open_ticket_witness :
    ProductManager.awaitMessageComponent
        (ProductManager.confirmationFilter samplePending.userId samplePending.productId)
        [sampleConfirm] = some sampleConfirm ∧
      sampleConfirm.customId = "confirm_purchase_" ++ samplePending.productId ∧
      DatabaseManager.getUserActiveTickets sampleRace.db samplePending.userId ≠ [] ∧
      (ProductManager.handleProductPurchase_resume sampleRace samplePrompted samplePending
          [sampleConfirm] { now := 60, created := some "c2" }).world.db.sales =
        sampleRace.db.sales :=
  ⟨by decide, by decide, by decide,
   (confirm_with_open_ticket sampleRace samplePrompted samplePending [sampleConfirm]
      { now := 60, created := some "c2" } sampleConfirm (by decide) (by decide) (by decide)).1⟩

/-- After the confirmation wait ended with the cancel button or without a response, the
rest of `handleProductPurchase` changes nothing but what is shown on Discord. -/
theorem resume_frame (w : World) (i : Interaction) (p : ProductManager.Pending)
    (arrivals : List ButtonInteraction) (env : TicketManager.CreateEnv)
    (h : ProductManager.awaitMessageComponent
          (ProductManager.confirmationFilter p.userId p.productId) arrivals = none ∨
        ∃ c, ProductManager.awaitMessageComponent
          (ProductManager.confirmationFilter p.userId p.productId) arrivals = some c ∧
          c.customId = "cancel_purchase") :
    { (ProductManager.handleProductPurchase_resume w i p arrivals env).world with
        effects := w.effects } = w := by
  unfold ProductManager.handleProductPurchase_resume
  rcases h with h | ⟨c, h, hcancel⟩
  · simp only [h]
    split
    · rename_i w1 i1 he
      unfold Interaction.editReply at he
      split at he
      · simp only [Option.some.injEq, Prod.mk.injEq] at he
        rw [← he.1]
        rfl
      · simp at he
    · exact outerCatch_frame w i ()
  · simp only [h, hcancel, beq_self_eq_true, if_true]
    split
    · rename_i w1 hu
      unfold ProductManager.update at hu
      split at hu
      · simp at hu
      · simp only [Option.some.injEq] at hu
        rw [← hu]
        rfl
    · exact outerCatch_frame w i ()

/-- C7: a purchase confirmation that ends with the cancel button or with the wait running
out creates no ticket and no channel, inserts no sale and logs no event.  Both parts of
handleProductPurchase, the one up to the prompt (started in `w`) and the one after the
wait (resumed in `w1`), leave the database, the channel cache and the timers as they were;
they change nothing but what is shown on Discord. -/
theorem purchase_cancel_or_expiry (w : World) (i : Interaction) (productId : String)
    (w1 : World) (i1 : Interaction) (p : ProductManager.Pending)
    (arrivals : List ButtonInteraction) (env : TicketManager.CreateEnv)
    (h : ProductManager.awaitMessageComponent
          (ProductManager.confirmationFilter p.userId p.productId) arrivals = none ∨
        ∃ c, ProductManager.awaitMessageComponent
          (ProductManager.confirmationFilter p.userId p.productId) arrivals = some c ∧
          c.customId = "cancel_purchase") :
    ({ (ProductManager.handleProductPurchase_select w i productId).world with
          effects := w.effects } = w ∧
      { (ProductManager.handleProductPurchase_resume w1 i1 p arrivals env).world with
          effects := w1.effects } = w1) ∧
    ((ProductManager.handleProductPurchase_select w i productId).world.db = w.db ∧
      (ProductManager.handleProductPurchase_resume w1 i1 p arrivals env).world.db = w1.db) ∧
    ((ProductManager.handleProductPurchase_select w i productId).world.channels = w.channels ∧
      (ProductManager.handleProductPurchase_resume w1 i1 p arrivals env).world.channels =
        w1.channels) ∧
    ((ProductManager.handleProductPurchase_select w i productId).world.timers = w.timers ∧
      (ProductManager.handleProductPurchase_resume w1 i1 p arrivals env).world.timers =
        w1.timers) := by
  have hs := select_frame w i productId
  have hr := resume_frame w1 i1 p arrivals env h
  have hs1 := congrArg World.db hs
  have hr1 := congrArg World.db hr
  have hs2 := congrArg World.channels hs
  have hr2 := congrArg World.channels hr
  have hs3 := congrArg World.timers hs
  have hr3 := congrArg World.timers hr
  exact ⟨⟨hs, hr⟩, ⟨hs1, hr1⟩, ⟨hs2, hr2⟩, ⟨hs3, hr3⟩⟩

/-- Witness for C7: nobody answers the prompt for `sampleProduct`; the shop's database is
as before. -/
theorem purchase_cancel_or_expiry_witness :
    (ProductManager.awaitMessageComponent
          (ProductManager.confirmationFilter samplePending.userId samplePending.productId) [] =
        none ∨
      ∃ c, ProductManager.awaitMessageComponent
          (ProductManager.confirmationFilter samplePending.userId samplePending.productId) [] =
        some c ∧ c.customId = "cancel_purchase") ∧
    (ProductManager.handleProductPurchase_resume sampleShop samplePrompted samplePending []
        { now := 60, created := some "c2" }).world.db = sampleShop.db :=
  ⟨Or.inl rfl,
   (purchase_cancel_or_expiry sampleShop sampleInteraction "1" sampleShop samplePrompted
      samplePending [] { now := 60, created := some "c2" } (Or.inl rfl)).2.1.2⟩

/-! ### The text encodings -/

theorem byte_val (n : Nat) : (byte n).val = n % 256 := rfl

theorem hexValue_hexDigit (n : Nat) (h : n < 16) : hexValue (hexDigit n) = some n := by
  interval_cases n <;> rfl

theorem hexDigit_ne_colon (n : Nat) (h : n < 16) : hexDigit n ≠ ':' := by
  interval_cases n <;> decide

theorem hexDecode_hexEncode (bs : List Byte) : hexDecode (hexEncode bs) = bs := by
  induction bs with
  | nil => rfl
  | cons b bs ih =>
    have h1 : b.val / 16 < 16 := by omega
    have h2 : b.val % 16 < 16 := by omega
    simp only [hexEncode, hexDecode, hexValue_hexDigit _ h1, hexValue_hexDigit _ h2, ih]
    congr 1
    apply Fin.ext
    rw [byte_val]
    omega

theorem hexEncode_no_colon (bs : List Byte) : ':' ∉ hexEncode bs := by
  induction bs with
  | nil => simp [hexEncode]
  | cons b bs ih =>
    have h1 : b.val / 16 < 16 := by omega
    have h2 : b.val % 16 < 16 := by omega
    simp only [hexEncode, List.mem_cons, not_or]
    exact ⟨(hexDigit_ne_colon _ h1).symm, (hexDigit_ne_colon _ h2).symm, ih⟩

theorem jsSplit_cons (sep c : Char) (cs : List Char) :
    jsSplit sep (c :: cs) =
      if c = sep then [] :: jsSplit sep cs
      else
        match jsSplit sep cs with
        | [] => [[c]]
        | p :: ps => (c :: p) :: ps := rfl

theorem jsSplit_ne_nil (sep : Char) (cs : List Char) : jsSplit sep cs ≠ [] := by
  cases cs with
  | nil => simp [jsSplit]
  | cons c cs =>
    unfold jsSplit
    split
    · simp
    · split <;> simp

/-- A text without the separator is one part. -/
theorem jsSplit_of_not_mem (sep : Char) (cs : List Char) (h : sep ∉ cs) :
    jsSplit sep cs = [cs] := by
  induction cs with
  | nil => rfl
  | cons c cs ih =>
    simp only [List.mem_cons, not_or] at h
    rw [jsSplit_cons, if_neg (fun hc => h.1 hc.symm), ih h.2]

/-- Splitting goes through the first separator. -/
theorem jsSplit_append (sep : Char) (a b : List Char) (h : sep ∉ a) :
    jsSplit sep (a ++ sep :: b) = a :: jsSplit sep b := by
  induction a with
  | nil => simp [jsSplit]
  | cons c cs ih =>
    simp only [List.mem_cons, not_or] at h
    simp only [List.cons_append]
    rw [jsSplit_cons, if_neg (fun hc => h.1 hc.symm), ih h.2]
theorem utf8DecodeAux_nil (fuel : Nat) : utf8DecodeAux fuel [] = [] := by
  cases fuel <;> rfl

theorem utf8DecodeAux_cons (fuel : Nat) (b0 : Byte) (rest : List Byte) :
    utf8DecodeAux (fuel + 1) (b0 :: rest) =
      (utf8DecodeOne b0 rest).1 :: utf8DecodeAux fuel (utf8DecodeOne b0 rest).2 := rfl

theorem char_valid (c : Char) : c.toNat < 55296 ∨ (57343 < c.toNat ∧ c.toNat < 1114112) := by
  have h := c.valid
  unfold UInt32.isValidChar Nat.isValidChar at h
  exact h

theorem char_ofNat_eq (c : Char) (n : Nat) (h : n = c.toNat) : Char.ofNat n = c := by
  subst h
  exact Char.ofNat_toNat c

theorem isContinuation_byte (n : Nat) (h : n < 64) : isContinuation (byte (128 + n)) = true := by
  unfold isContinuation
  rw [byte_val]
  simp only [Bool.and_eq_true, decide_eq_true_eq]
  omega

/-- Decoding takes one encoded code point off the front. -/
theorem utf8DecodeOne_encodeChar (c : Char) (rest : List Byte) :
    ∃ b0 tail, utf8EncodeChar c ++ rest = b0 :: tail ∧ utf8DecodeOne b0 tail = (c, rest) := by
  have hv := char_valid c
  unfold utf8EncodeChar
  simp only
  by_cases h1 : c.toNat < 128
  · simp only [h1, if_true, List.singleton_append]
    refine ⟨_, _, rfl, ?_⟩
    unfold utf8DecodeOne
    have hb : (byte c.toNat).val = c.toNat := by rw [byte_val]; omega
    simp only [hb, h1, if_true]
    rw [Char.ofNat_toNat]
  · by_cases h2 : c.toNat < 2048
    · simp only [h1, h2, if_true, if_false, List.cons_append, List.nil_append]
      refine ⟨_, _, rfl, ?_⟩
      unfold utf8DecodeOne
      have hb0 : (byte (192 + c.toNat / 64)).val = 192 + c.toNat / 64 := by
        rw [byte_val]; omega
      have hb1 : (byte (128 + c.toNat % 64)).val = 128 + c.toNat % 64 := by
        rw [byte_val]; omega
      have hc1 := isContinuation_byte (c.toNat % 64) (by omega)
      have g1 : ¬ (192 + c.toNat / 64 < 128) := by omega
      have g2 : ¬ (192 + c.toNat / 64 < 192) := by omega
      have g3 : 192 + c.toNat / 64 < 224 := by omega
      have hn : (192 + c.toNat / 64 - 192) * 64 + (128 + c.toNat % 64 - 128) = c.toNat := by
        omega
      simp only [hb0, hb1, hc1, g1, g2, g3, hn, if_true, if_false, true_and]
      have g4 : 128 ≤ c.toNat := by omega
      simp only [g4, if_true]
      rw [Char.ofNat_toNat]
    · by_cases h3 : c.toNat < 65536
      · simp only [h1, h2, h3, if_true, if_false, List.cons_append, List.nil_append]
        refine ⟨_, _, rfl, ?_⟩
        unfold utf8DecodeOne
        have hb0 : (byte (224 + c.toNat / 4096)).val = 224 + c.toNat / 4096 := by
          rw [byte_val]; omega
        have hb1 : (byte (128 + c.toNat / 64 % 64)).val = 128 + c.toNat / 64 % 64 := by
          rw [byte_val]; omega
        have hb2 : (byte (128 + c.toNat % 64)).val = 128 + c.toNat % 64 := by
          rw [byte_val]; omega
        have hc1 := isContinuation_byte (c.toNat / 64 % 64) (by omega)
        have hc2 := isContinuation_byte (c.toNat % 64) (by omega)
        have g1 : ¬ (224 + c.toNat / 4096 < 128) := by omega
        have g2 : ¬ (224 + c.toNat / 4096 < 192) := by omega
        have g3 : ¬ (224 + c.toNat / 4096 < 224) := by omega
        have g4 : 224 + c.toNat / 4096 < 240 := by omega
        have hn : (224 + c.toNat / 4096 - 224) * 4096 + (128 + c.toNat / 64 % 64 - 128) * 64 +
            (128 + c.toNat % 64 - 128) = c.toNat := by omega
        simp only [hb0, hb1, hb2, hc1, hc2, g1, g2, g3, g4, hn, if_true, if_false, true_and]
        have g5 : 2048 ≤ c.toNat := by omega
        have g6 : ¬ (55296 ≤ c.toNat ∧ c.toNat < 57344) := by omega
        simp [g5, g6]
      · simp only [h1, h2, h3, if_false, List.cons_append, List.nil_append]
        refine ⟨_, _, rfl, ?_⟩
        unfold utf8DecodeOne
        have hb0 : (byte (240 + c.toNat / 262144)).val = 240 + c.toNat / 262144 := by
          rw [byte_val]; omega
        have hb1 : (byte (128 + c.toNat / 4096 % 64)).val = 128 + c.toNat / 4096 % 64 := by
          rw [byte_val]; omega
        have hb2 : (byte (128 + c.toNat / 64 % 64)).val = 128 + c.toNat / 64 % 64 := by
          rw [byte_val]; omega
        have hb3 : (byte (128 + c.toNat % 64)).val = 128 + c.toNat % 64 := by
          rw [byte_val]; omega
        have hc1 := isContinuation_byte (c.toNat / 4096 % 64) (by omega)
        have hc2 := isContinuation_byte (c.toNat / 64 % 64) (by omega)
        have hc3 := isContinuation_byte (c.toNat % 64) (by omega)
        have g1 : ¬ (240 + c.toNat / 262144 < 128) := by omega
        have g2 : ¬ (240 + c.toNat / 262144 < 192) := by omega
        have g3 : ¬ (240 + c.toNat / 262144 < 224) := by omega
        have g4 : ¬ (240 + c.toNat / 262144 < 240) := by omega
        have hn : (240 + c.toNat / 262144 - 240) * 262144 +
            (128 + c.toNat / 4096 % 64 - 128) * 4096 + (128 + c.toNat / 64 % 64 - 128) * 64 +
            (128 + c.toNat % 64 - 128) = c.toNat := by omega
        simp only [hb0, hb1, hb2, hb3, hc1, hc2, hc3, g1, g2, g3, g4, hn, if_true, if_false,
          true_and]
        have g5 : 65536 ≤ c.toNat := by omega
        have g6 : c.toNat < 1114112 := by omega
        simp [g5, g6]

theorem utf8EncodeChar_length_pos (c : Char) : 0 < (utf8EncodeChar c).length := by
  unfold utf8EncodeChar
  simp only
  split
  · simp
  · split
    · simp
    · split <;> simp

/-- Decoding with enough fuel gives back the code points that were encoded. -/
theorem utf8DecodeAux_encode (cs : List Char) (fuel : Nat)
    (h : (cs.flatMap utf8EncodeChar).length ≤ fuel) :
    utf8DecodeAux fuel (cs.flatMap utf8EncodeChar) = cs := by
  induction cs generalizing fuel with
  | nil => simp [utf8DecodeAux_nil]
  | cons c cs ih =>
    simp only [List.flatMap_cons, List.length_append] at h ⊢
    have hpos := utf8EncodeChar_length_pos c
    obtain ⟨fuel, rfl⟩ : ∃ k, fuel = k + 1 := ⟨fuel - 1, by omega⟩
    obtain ⟨b0, tail, h1, h2⟩ := utf8DecodeOne_encodeChar c (cs.flatMap utf8EncodeChar)
    rw [h1, utf8DecodeAux_cons, h2]
    simp only
    rw [ih fuel (by omega)]

/-- Reading back as `'utf8'` what was written as `'utf8'` gives the string. -/
theorem utf8Decode_utf8Encode (s : String) : utf8Decode (utf8Encode s) = s := by
  unfold utf8Decode utf8Encode
  rw [utf8DecodeAux_encode s.toList _ (le_refl _)]
  rfl

/-! ### `encrypt` and `decrypt` -/

theorem sampleNode_inverts : sampleNode.CipherInverts := by
  intro password input
  unfold sampleNode
  simp only [List.map_map]
  congr 1
  conv_rhs => rw [← List.map_id input]
  apply List.map_congr_left
  intro b _
  simp

/-- What `decrypt` returns for an envelope whose part before the first `:` is any text
without a `:` and whose second part is the hexadecimal ciphertext of `text`. -/
theorem decrypt_envelope (node : NodeRuntime) (sm : SecurityManager) (text : String)
    (h : node.CipherInverts) (first : List Char) (hfirst : ':' ∉ first) :
    SecurityManager.decrypt node sm
        (String.mk (first ++ ':' :: hexEncode (node.cipher sm.encryptionKey (utf8Encode text)))) =
      .ok text := by
  unfold SecurityManager.decrypt
  simp only [String.toList]
  rw [jsSplit_append ':' _ _ hfirst, jsSplit_of_not_mem ':' _ (hexEncode_no_colon _)]
  simp only [List.get?_cons_succ, List.get?_cons_zero, hexDecode_hexEncode]
  rw [h sm.encryptionKey (utf8Encode text)]
  simp only [utf8Decode_utf8Encode]

/-- C8: for every SecurityManager (a fixed encryption key), every initialization value that
randomBytes returns and every string, decrypt(encrypt(s)) returns exactly s, given that
node's decipher inverts node's cipher under the same password.  Strings are sequences of
Unicode code points. -/
theorem decrypt_encrypt (node : NodeRuntime) (sm : SecurityManager) (iv : List Byte)
    (text : String) (h : node.CipherInverts) :
    SecurityManager.decrypt node sm (SecurityManager.encrypt node sm iv text) = .ok text := by
  unfold SecurityManager.encrypt
  exact decrypt_envelope node sm text h (hexEncode iv) (hexEncode_no_colon iv)

/-- Witness for C8: the test string of `/setup test`, with the stand-in cipher. -/
theorem decrypt_encrypt_witness :
    sampleNode.CipherInverts ∧
      SecurityManager.decrypt sampleNode sampleSecurity
          (SecurityManager.encrypt sampleNode sampleSecurity [byte 7, byte 200]
            "teste de criptografia") = .ok "teste de criptografia" :=
  ⟨sampleNode_inverts,
   decrypt_encrypt sampleNode sampleSecurity [byte 7, byte 200] "teste de criptografia"
     sampleNode_inverts⟩

/-- C9, the code at the failing input: an envelope whose initialization-value part was
replaced by any other text without a `:` differs from the envelope encrypt produced, and
decrypt returns the plaintext for it instead of failing. -/
theorem decrypt_ignores_iv (node : NodeRuntime) (sm : SecurityManager) (iv : List Byte)
    (text : String) (fake : List Char) (h : node.CipherInverts) (hfake : ':' ∉ fake)
    (hdiff : fake ≠ hexEncode iv) :
    String.mk (fake ++ ':' :: hexEncode (node.cipher sm.encryptionKey (utf8Encode text))) ≠
        SecurityManager.encrypt node sm iv text ∧
      SecurityManager.decrypt node sm
          (String.mk (fake ++ ':' :: hexEncode (node.cipher sm.encryptionKey (utf8Encode text)))) =
        .ok text := by
  refine ⟨?_, decrypt_envelope node sm text h fake hfake⟩
  unfold SecurityManager.encrypt
  intro heq
  have h1 := congrArg (fun s : String => jsSplit ':' s.toList) heq
  simp only [String.toList] at h1
  rw [jsSplit_append ':' _ _ hfake, jsSplit_append ':' _ _ (hexEncode_no_colon iv)] at h1
  simp only [List.cons.injEq] at h1
  exact hdiff h1.1

/-- Witness for C9: the envelope of `segredo` under an all-zero initialization value, with
that value replaced by `ffff`. -/
theorem decrypt_ignores_iv_witness :
    sampleNode.CipherInverts ∧ ':' ∉ "ffff".toList ∧ "ffff".toList ≠ hexEncode [byte 0, byte 0] ∧
      SecurityManager.decrypt sampleNode sampleSecurity
          (String.mk ("ffff".toList ++ ':' ::
            hexEncode (sampleNode.cipher sampleSecurity.encryptionKey (utf8Encode "segredo")))) =
        .ok "segredo" :=
  ⟨sampleNode_inverts, by decide, by decide,
   (decrypt_ignores_iv sampleNode sampleSecurity [byte 0, byte 0] "segredo" "ffff".toList
      sampleNode_inverts (by decide) (by decide)).2⟩

/-! ### Signed tokens -/

theorem base64Value_base64Char (n : Nat) (h : n < 64) : base64Value (base64Char n) = some n := by
  interval_cases n <;> rfl

theorem base64Char_ne_pad (n : Nat) (h : n < 64) : (!(base64Char n == '=')) = true := by
  interval_cases n <;> decide

/-- The 6-bit values `base64Encode` writes, without the padding. -/
theorem base64_sextets (bs : List Byte) :
    ∃ sextets : List Nat,
      ((base64Encode bs).takeWhile (fun c => !(c == '='))).filterMap base64Value = sextets ∧
      base64Pack sextets = bs := by
  induction bs using base64Encode.induct with
  | case1 a b c rest ih =>
    obtain ⟨sextets, h1, h2⟩ := ih
    have ha : a.val / 4 < 64 := by omega
    have hb : a.val % 4 * 16 + b.val / 16 < 64 := by omega
    have hc : b.val % 16 * 4 + c.val / 64 < 64 := by omega
    have hd : c.val % 64 < 64 := by omega
    refine ⟨a.val / 4 :: (a.val % 4 * 16 + b.val / 16) :: (b.val % 16 * 4 + c.val / 64) ::
      c.val % 64 :: sextets, ?_, ?_⟩
    · simp only [base64Encode, List.takeWhile_cons, base64Char_ne_pad _ ha,
        base64Char_ne_pad _ hb, base64Char_ne_pad _ hc, base64Char_ne_pad _ hd, if_true,
        List.filterMap_cons, base64Value_base64Char _ ha, base64Value_base64Char _ hb,
        base64Value_base64Char _ hc, base64Value_base64Char _ hd, h1]
    · simp only [base64Pack, h2]
      congr 1
      · apply Fin.ext
        rw [byte_val]
        omega
      · congr 1
        · apply Fin.ext
          rw [byte_val]
          omega
        · congr 1
          apply Fin.ext
          rw [byte_val]
          omega
  | case2 a b =>
    have ha : a.val / 4 < 64 := by omega
    have hb : a.val % 4 * 16 + b.val / 16 < 64 := by omega
    have hc : b.val % 16 * 4 < 64 := by omega
    refine ⟨[a.val / 4, a.val % 4 * 16 + b.val / 16, b.val % 16 * 4], ?_, ?_⟩
    · simp only [base64Encode, List.takeWhile_cons, base64Char_ne_pad _ ha,
        base64Char_ne_pad _ hb, base64Char_ne_pad _ hc, if_true,
        List.filterMap_cons, base64Value_base64Char _ ha, base64Value_base64Char _ hb,
        base64Value_base64Char _ hc]
      rfl
    · simp only [base64Pack]
      congr 1
      · apply Fin.ext
        rw [byte_val]
        omega
      · congr 1
        apply Fin.ext
        rw [byte_val]
        omega
  | case3 a =>
    have ha : a.val / 4 < 64 := by omega
    have hb : a.val % 4 * 16 < 64 := by omega
    refine ⟨[a.val / 4, a.val % 4 * 16], ?_, ?_⟩
    · simp only [base64Encode, List.takeWhile_cons, base64Char_ne_pad _ ha,
        base64Char_ne_pad _ hb, if_true,
        List.filterMap_cons, base64Value_base64Char _ ha, base64Value_base64Char _ hb]
      rfl
    · simp only [base64Pack]
      congr 1
      apply Fin.ext
      rw [byte_val]
      omega
  | case4 => exact ⟨[], rfl, rfl⟩

/-- Reading back as `'base64'` what was written as `'base64'` gives the buffer. -/
theorem base64Decode_base64Encode (bs : List Byte) : base64Decode (base64Encode bs) = bs := by
  obtain ⟨sextets, h1, h2⟩ := base64_sextets bs
  unfold base64Decode
  rw [h1, h2]

theorem payload_shape (now : Nat) :
    jsonStringify (.obj [("data", .str "a.b"), ("timestamp", .num now)]) =
      [Char.ofNat 123, quoteChar, 'd', 'a', 't', 'a', quoteChar, ':', quoteChar, 'a'] ++
        '.' :: 'b' :: quoteChar :: (',' :: jsonQuote "timestamp" ++ ':' :: intDigits now ++
          [Char.ofNat 125]) := by
  simp only [jsonStringify, jsonStringifyFields]
  have h1 : jsonQuote "data" = [quoteChar, 'd', 'a', 't', 'a', quoteChar] := by decide
  have h2 : jsonQuote "a.b" = [quoteChar, 'a', '.', 'b', quoteChar] := by decide
  rw [h1, h2]
  simp

theorem hexDigit_ne_quote (n : Nat) (h : n < 16) : hexDigit n ≠ quoteChar := by
  interval_cases n <;> decide

/-- A text whose second character is `"` is not a hexadecimal digest. -/
theorem hexEncode_ne_quoted (bs : List Byte) (c : Char) (tail : List Char) :
    hexEncode bs ≠ c :: quoteChar :: tail := by
  cases bs with
  | nil => simp [hexEncode]
  | cons b bs =>
    have h2 : b.val % 16 < 16 := by omega
    simp only [hexEncode, ne_eq, List.cons.injEq, not_and]
    intro _ h
    exact absurd h (hexDigit_ne_quote _ h2)

/-- A token whose decoded text has, right after its first dot, one character and then a
`"` is rejected for its signature: that piece is what `split('.')` hands over as the
signature, and no hexadecimal digest looks like it. -/
theorem verify_quoted_piece (node : NodeRuntime) (sm : SecurityManager) (maxAge later : Nat)
    (pre : List Char) (c : Char) (rest : List Char) (hpre : '.' ∉ pre) (hc : c ≠ '.') :
    SecurityManager.verifySecureToken node sm
        (String.mk (base64Encode (utf8Encode (String.mk (pre ++ '.' :: c :: quoteChar :: rest)))))
        maxAge later = .invalid "Assinatura inválida" := by
  have hparts : ∃ tail more,
      jsSplit '.' (c :: quoteChar :: rest) = (c :: quoteChar :: tail) :: more := by
    rw [jsSplit_cons, if_neg hc, jsSplit_cons, if_neg (by decide)]
    rcases hx : jsSplit '.' rest with _ | ⟨p, ps⟩
    · exact absurd hx (jsSplit_ne_nil _ _)
    · exact ⟨p, ps, rfl⟩
  obtain ⟨tail, more, hsplit⟩ := hparts
  unfold SecurityManager.verifySecureToken
  simp only [String.toList, base64Decode_base64Encode, utf8Decode_utf8Encode]
  rw [jsSplit_append '.' _ _ hpre, hsplit]
  simp only [List.headD_cons, List.get?_cons_succ, List.get?_cons_zero]
  rw [if_pos]
  intro h
  simp only [Option.some.injEq] at h
  exact hexEncode_ne_quoted _ _ _ h.symm

/-- C10, the code at the failing input: the token generateSecureToken makes for the string
payload `a.b` is rejected by verifySecureToken with 'Assinatura inválida', whatever the
secret key, the HMAC, the clock and maxAge are.  `split('.')` cuts the payload at its own
dot, so the text compared with the expected signature is a piece of the payload. -/
theorem token_with_dot_rejected (node : NodeRuntime) (sm : SecurityManager)
    (now maxAge later : Nat) :
    SecurityManager.verifySecureToken node sm
        (SecurityManager.generateSecureToken node sm (.str "a.b") now) maxAge later =
      .invalid "Assinatura inválida" := by
  unfold SecurityManager.generateSecureToken
  simp only
  generalize hexEncode (node.hmacSha256 sm.botSecretKey (utf8Encode (String.mk
    (jsonStringify (.obj [("data", .str "a.b"), ("timestamp", .num now)]))))) = signature
  rw [payload_shape, List.append_assoc]
  exact verify_quoted_piece node sm maxAge later
    [Char.ofNat 123, quoteChar, 'd', 'a', 't', 'a', quoteChar, ':', quoteChar, 'a'] 'b'
    ((',' :: jsonQuote "timestamp" ++ ':' :: intDigits now ++ [Char.ofNat 125]) ++
      '.' :: signature) (by decide) (by decide)

/-! ### `createTicket` on an interaction that was answered before -/

theorem createTicketCatch_result {α : Type} (w : World) (i : Interaction) (error : String) :
    ∃ e, (TicketManager.createTicketCatch w i error : Outcome α).result = .error e := by
  unfold TicketManager.createTicketCatch
  split
  · exact ⟨_, rfl⟩
  · exact ⟨_, rfl⟩

/-- On an interaction that is already deferred or replied every exit of `createTicket` goes
through a rejected reply, so the method throws. -/
theorem createTicket_acked_throws (mgr : Nat) (w : World) (i : Interaction)
    (productId : Option Int) (env : TicketManager.CreateEnv)
    (h : (i.deferred || i.replied) = true) :
    ∃ e, (TicketManager.createTicket mgr w i productId env).result = .error e := by
  unfold TicketManager.createTicket
  simp only
  split
  · rw [replyInTry_acked _ _ _ _ h]
    exact ⟨_, rfl⟩
  · split
    · rw [replyInTry_acked _ _ _ _ h]
      exact ⟨_, rfl⟩
    · split
      · exact createTicketCatch_result _ _ _
      · split
        · exact createTicketCatch_result _ _ _
        · rw [replyInTry_acked _ _ _ _ h]
          exact ⟨_, rfl⟩

theorem createTicketCatch_sales {α : Type} (w : World) (i : Interaction) (error : String) :
    (TicketManager.createTicketCatch w i error : Outcome α).world.db.sales = w.db.sales := by
  rw [createTicketCatch_db]

theorem replyInTry_sales {α : Type} (w : World) (i : Interaction) (content : String)
    (value : α) : (TicketManager.replyInTry w i content value).world.db.sales = w.db.sales := by
  rw [replyInTry_db]

/-- `createTicket` never writes to the sales table. -/
theorem createTicket_sales (mgr : Nat) (w : World) (i : Interaction) (productId : Option Int)
    (env : TicketManager.CreateEnv) :
    (TicketManager.createTicket mgr w i productId env).world.db.sales = w.db.sales := by
  unfold TicketManager.createTicket
  simp only
  split
  · rw [replyInTry_sales]
  · split
    · rw [replyInTry_sales]
      rfl
    · split
      · rw [createTicketCatch_sales]
        rfl
      · split
        · rw [createTicketCatch_sales]
          rfl
        · rename_i db3 hdb
          rw [replyInTry_sales]
          unfold DatabaseManager.createTicket at hdb
          split at hdb
          · simp at hdb
          · simp only [Option.some.injEq] at hdb
            subst hdb
            rfl

/-- The part of `handleProductPurchase` after the confirmation wait never reaches
`createSale`: the confirm branch has deferred the confirmation before it calls
`createTicket`, which therefore throws. -/
theorem resume_sales (w : World) (i : Interaction) (p : ProductManager.Pending)
    (arrivals : List ButtonInteraction) (env : TicketManager.CreateEnv) :
    (ProductManager.handleProductPurchase_resume w i p arrivals env).world.db.sales =
      w.db.sales := by
  cases hc : ProductManager.awaitMessageComponent
      (ProductManager.confirmationFilter p.userId p.productId) arrivals with
  | none =>
    have h := resume_frame w i p arrivals env (Or.inl hc)
    have h1 := congrArg (fun x : World => x.db.sales) h
    exact h1
  | some c =>
    by_cases hcancel : c.customId = "cancel_purchase"
    · have h := resume_frame w i p arrivals env (Or.inr ⟨c, hc, hcancel⟩)
      have h1 := congrArg (fun x : World => x.db.sales) h
      exact h1
    · unfold ProductManager.handleProductPurchase_resume
      simp only [hc]
      have hne : (c.customId == "cancel_purchase") = false := by simpa using hcancel
      simp only [hne, Bool.false_eq_true, if_false]
      cases hd : c.interaction.defer with
      | none =>
        simp only
        rw [outerCatch_db]
      | some c1 =>
        have hack : (c1.deferred || c1.replied) = true := by
          unfold Interaction.defer at hd
          split at hd
          · simp at hd
          · simp only [Option.some.injEq] at hd
            rw [← hd]
            rfl
        obtain ⟨e, he⟩ := createTicket_acked_throws w.nextManager
          { w with nextManager := w.nextManager + 1 } c1 (some p.productIdNum) env hack
        simp only [he]
        rw [outerCatch_db, createTicket_sales]

/-! ### The confirmation filter -/

/-- C20: the filter of the confirmation wait accepts a button press exactly when it comes
from the selecting actor and its custom id is `confirm_purchase_<productId>` or
`cancel_purchase`; a press of another user is rejected, so the wait resolves only to a
press of the actor with one of the two ids and never to a press of another user. -/
theorem confirmationFilter_accepts (userId productId : String) (b : ButtonInteraction)
    (arrivals : List ButtonInteraction) :
    (ProductManager.confirmationFilter userId productId b = true ↔
      b.interaction.user.id = userId ∧
        (b.customId = "confirm_purchase_" ++ productId ∨ b.customId = "cancel_purchase")) ∧
    (b.interaction.user.id ≠ userId →
      ProductManager.confirmationFilter userId productId b = false) ∧
    (∀ c, ProductManager.awaitMessageComponent
        (ProductManager.confirmationFilter userId productId) arrivals = some c →
      c ∈ arrivals ∧ c.interaction.user.id = userId ∧
        (c.customId = "confirm_purchase_" ++ productId ∨ c.customId = "cancel_purchase")) ∧
    ((∀ a ∈ arrivals, a.interaction.user.id ≠ userId) →
      ProductManager.awaitMessageComponent
        (ProductManager.confirmationFilter userId productId) arrivals = none) := by
  have hiff : ∀ x : ButtonInteraction,
      ProductManager.confirmationFilter userId productId x = true ↔
        x.interaction.user.id = userId ∧
          (x.customId = "confirm_purchase_" ++ productId ∨ x.customId = "cancel_purchase") := by
    intro x
    unfold ProductManager.confirmationFilter
    simp only [Bool.and_eq_true, Bool.or_eq_true, beq_iff_eq]
  refine ⟨hiff b, ?_, ?_, ?_⟩
  · intro hne
    cases hf : ProductManager.confirmationFilter userId productId b with
    | false => rfl
    | true => exact absurd ((hiff b).1 hf).1 hne
  · intro c hc
    unfold ProductManager.awaitMessageComponent at hc
    exact ⟨List.mem_of_find?_eq_some hc, (hiff c).1 (List.find?_some hc)⟩
  · intro hall
    unfold ProductManager.awaitMessageComponent
    rw [List.find?_eq_none]
    intro a ha hf
    exact hall a ha ((hiff a).1 hf).1

/-- Witness for C20: the confirm press of the selecting user passes the filter, and among
presses that come only from another user the wait finds none. -/
theorem confirmationFilter_accepts_witness :
    ProductManager.confirmationFilter "u1" "1" sampleConfirm = true ∧
      ProductManager.awaitMessageComponent (ProductManager.confirmationFilter "u2" "1")
        [sampleConfirm, sampleCancel] = none :=
  ⟨(confirmationFilter_accepts "u1" "1" sampleConfirm []).1.2 ⟨rfl, Or.inl rfl⟩,
   (confirmationFilter_accepts "u2" "1" sampleConfirm [sampleConfirm, sampleCancel]).2.2.2
     (by decide)⟩

/-! ### `closeTicket` of the manager -/

/-- The row of a channel after the `UPDATE` of `DatabaseManager.closeTicket` on that
channel. -/
theorem getTicket_closeTicket (db : Database) (channelId closedBy : String)
    (reason : Option String) (now : Nat) (t : TicketRow)
    (h : DatabaseManager.getTicket db channelId = some t) :
    DatabaseManager.getTicket (DatabaseManager.closeTicket db channelId closedBy reason now)
        channelId =
      some { t with status := "closed", closed_at := some now, closed_by := some closedBy,
                    close_reason := reason } := by
  unfold DatabaseManager.getTicket DatabaseManager.closeTicket at *
  simp only
  generalize db.tickets = rows at h
  induction rows with
  | nil => simp at h
  | cons r rs ih =>
    simp only [List.map_cons, List.find?_cons] at h ⊢
    by_cases hr : (r.channel_id == channelId) = true
    · simp only [hr, if_true] at h ⊢
      simp only [Option.some.injEq] at h
      subst h
      rfl
    · simp only [Bool.not_eq_true] at hr
      simp only [hr] at h ⊢
      simp only [Bool.false_eq_true, if_false, hr]
      exact ih h

/-- The world after one of the two early replies of `closeTicket`. -/
theorem replyOrThrow_frame (w : World) (i : Interaction) (content : String) :
    { (TicketManager.replyOrThrow w i content).world with effects := w.effects } = w := by
  unfold TicketManager.replyOrThrow
  by_cases h : (i.deferred || i.replied) = true
  · rw [reply_of_acked h]
  · rw [reply_of_fresh h]
    rfl

/-- C11: `closeTicket` of the manager.  When the interaction's channel has no ticket row, or
the closer is neither the ticket's owner nor holds ManageChannels, the tickets table, the
active-ticket cache, the timer map and the armed timers are unchanged.  When the row exists
and the closer is the owner or holds ManageChannels (and the interaction was not answered
before and the transcript could be fetched), the row of the channel is marked closed by the
closer, and the tickets table is the one the `UPDATE` for that channel produces. -/
theorem closeTicket_authorized (mgr : Nat) (w : World) (i : Interaction)
    (env : TicketManager.CloseEnv) :
    ((DatabaseManager.getTicket w.db i.channelId = none ∨
        ∃ t, DatabaseManager.getTicket w.db i.channelId = some t ∧
          t.user_id ≠ i.user.id ∧ i.staff = false) →
      (TicketManager.closeTicket mgr w i env).world.db.tickets = w.db.tickets ∧
      (TicketManager.closeTicket mgr w i env).world.activeTickets = w.activeTickets ∧
      (TicketManager.closeTicket mgr w i env).world.ticketTimeouts = w.ticketTimeouts ∧
      (TicketManager.closeTicket mgr w i env).world.timers = w.timers) ∧
    (∀ t, DatabaseManager.getTicket w.db i.channelId = some t →
      (t.user_id = i.user.id ∨ i.staff = true) →
      i.deferred = false → i.replied = false → env.transcriptOk = true →
      (TicketManager.closeTicket mgr w i env).world.db.tickets =
        (DatabaseManager.closeTicket w.db i.channelId i.user.id
          (some "Fechado pelo usuário") env.now).tickets ∧
      DatabaseManager.getTicket (TicketManager.closeTicket mgr w i env).world.db i.channelId =
        some { t with status := "closed", closed_at := some env.now,
                      closed_by := some i.user.id,
                      close_reason := some "Fechado pelo usuário" }) := by
  constructor
  · intro h
    have hframe : { (TicketManager.closeTicket mgr w i env).world with effects := w.effects }
        = w := by
      unfold TicketManager.closeTicket
      rcases h with h | ⟨t, h, hown, hstaff⟩
      · simp only [h]
        exact replyOrThrow_frame w i _
      · have hne : (t.user_id == i.user.id) = false := by simpa using hown
        simp only [h, hne, hstaff, Bool.not_false, Bool.and_self, if_true]
        exact replyOrThrow_frame w i _
    have h1 := congrArg (fun x : World => x.db.tickets) hframe
    have h2 := congrArg World.activeTickets hframe
    have h3 := congrArg World.ticketTimeouts hframe
    have h4 := congrArg World.timers hframe
    exact ⟨h1, h2, h3, h4⟩
  · intro t ht hauth hd hr hok
    have hcond : (!(t.user_id == i.user.id) && !i.staff) = false := by
      rcases hauth with h | h
      · simp [h]
      · simp [h]
    have htickets : (TicketManager.closeTicket mgr w i env).world.db.tickets =
        (DatabaseManager.closeTicket w.db i.channelId i.user.id
          (some "Fechado pelo usuário") env.now).tickets := by
      unfold TicketManager.closeTicket
      simp only [ht, hcond, Interaction.defer, Interaction.editReply, hd, hr, hok,
        Bool.or_self, Bool.false_eq_true, if_false, Bool.not_true, Bool.or_true, if_true,
        Bool.true_or, emit_db]
      split <;> rfl
    refine ⟨htickets, ?_⟩
    have hget := getTicket_closeTicket w.db i.channelId i.user.id
      (some "Fechado pelo usuário") env.now t ht
    unfold DatabaseManager.getTicket at hget ⊢
    rw [htickets]
    exact hget

/-- Witness for C11: in the world where `u1` owns the open ticket of channel `c1`, a close
by another user without ManageChannels changes nothing, and a close by the owner marks the
row closed. -/
theorem closeTicket_authorized_witness :
    ((TicketManager.closeTicket 0 sampleOpened
        { sampleInteraction with user := { sampleUser with id := "u2" }, channelId := "c1" }
        { now := 2000, transcriptOk := true }).world.db.tickets = sampleOpened.db.tickets) ∧
    (DatabaseManager.getTicket
        (TicketManager.closeTicket 0 sampleOpened { sampleInteraction with channelId := "c1" }
          { now := 2000, transcriptOk := true }).world.db "c1" =
      some { sampleTicket with status := "closed", closed_at := some 2000,
                               closed_by := some "u1",
                               close_reason := some "Fechado pelo usuário" }) :=
  ⟨((closeTicket_authorized 0 sampleOpened
        { sampleInteraction with user := { sampleUser with id := "u2" }, channelId := "c1" }
        { now := 2000, transcriptOk := true }).1
      (Or.inr ⟨sampleTicket, by decide, by decide, rfl⟩)).1,
   ((closeTicket_authorized 0 sampleOpened { sampleInteraction with channelId := "c1" }
        { now := 2000, transcriptOk := true }).2 sampleTicket (by decide) (Or.inl rfl)
      rfl rfl rfl).2⟩

/-! ### A closed ticket stays closed -/

theorem staysClosed_refl (ts : List TicketRow) : staysClosed ts ts = true := by
  induction ts with
  | nil => rfl
  | cons t ts ih => simp [staysClosed, ih]

theorem staysClosed_trans {a b c : List TicketRow} (h1 : staysClosed a b = true)
    (h2 : staysClosed b c = true) : staysClosed a c = true := by
  induction a generalizing b c with
  | nil => rfl
  | cons x xs ih =>
    cases b with
    | nil => simp [staysClosed] at h1
    | cons y ys =>
      cases c with
      | nil => simp [staysClosed] at h2
      | cons z zs =>
        simp only [staysClosed, Bool.and_eq_true, Bool.or_eq_true, beq_iff_eq,
          Bool.not_eq_true', beq_eq_false_iff_ne, ne_eq] at h1 h2 ⊢
        obtain ⟨⟨⟨⟨e1, e2⟩, e3⟩, e4⟩, e5⟩ := h1
        obtain ⟨⟨⟨⟨f1, f2⟩, f3⟩, f4⟩, f5⟩ := h2
        refine ⟨⟨⟨⟨f1.trans e1, f2.trans e2⟩, f3.trans e3⟩, ?_⟩, ih e5 f5⟩
        rcases e4 with e4 | e4
        · exact Or.inl e4
        · rcases f4 with f4 | f4
          · exact absurd e4 f4
          · exact Or.inr f4

theorem staysClosed_append (ts extra : List TicketRow) :
    staysClosed ts (ts ++ extra) = true := by
  induction ts with
  | nil => rfl
  | cons t ts ih => simp [staysClosed, ih]

/-- The `UPDATE` of `DatabaseManager.closeTicket` keeps every row in place and closes rows
only. -/
theorem staysClosed_closeTicket (db : Database) (channelId closedBy : String)
    (reason : Option String) (now : Nat) :
    staysClosed db.tickets
      (DatabaseManager.closeTicket db channelId closedBy reason now).tickets = true := by
  unfold DatabaseManager.closeTicket
  simp only
  generalize db.tickets = rows
  induction rows with
  | nil => rfl
  | cons t ts ih =>
    simp only [List.map_cons, staysClosed, ih, Bool.and_true]
    split <;> simp

theorem staysClosed_of_eq {a b : List TicketRow} (h : b = a) : staysClosed a b = true := by
  rw [h]
  exact staysClosed_refl a

/-- What reading `staysClosed` row by row gives. -/
theorem staysClosed_get {a b : List TicketRow} (h : staysClosed a b = true) (n : Nat)
    (t : TicketRow) (ht : a.get? n = some t) :
    ∃ t1, b.get? n = some t1 ∧ t1.id = t.id ∧ t1.channel_id = t.channel_id ∧
      t1.user_id = t.user_id ∧ (t.status = "closed" → t1.status = "closed") := by
  induction a generalizing b n with
  | nil => simp at ht
  | cons x xs ih =>
    cases b with
    | nil => simp [staysClosed] at h
    | cons y ys =>
      simp only [staysClosed, Bool.and_eq_true, Bool.or_eq_true, beq_iff_eq,
        Bool.not_eq_true', beq_eq_false_iff_ne, ne_eq] at h
      obtain ⟨⟨⟨⟨e1, e2⟩, e3⟩, e4⟩, e5⟩ := h
      cases n with
      | zero =>
        simp only [List.get?_cons_zero, Option.some.injEq] at ht
        subst ht
        refine ⟨y, rfl, e1, e2, e3, ?_⟩
        intro hc
        rcases e4 with e4 | e4
        · exact absurd hc e4
        · exact e4
      | succ m =>
        simp only [List.get?_cons_succ] at ht ⊢
        exact ih e5 m ht

theorem claimTicket_db_tickets (w : World) (i : Interaction) (now : Nat) :
    (TicketManager.claimTicket w i now).world.db.tickets = w.db.tickets := by
  unfold TicketManager.claimTicket
  simp only
  split
  · rw [replyOrThrow_db]
  · split
    · rw [replyOrThrow_db]
    · split
      · rfl
      · rename_i w1 i1 h
        rw [(reply_eq_some h).1]
        rfl

theorem editReply_eq_some {i : Interaction} {w : World} {e : Effect} {w1 : World}
    {i1 : Interaction} (h : i.editReply w e = some (w1, i1)) : w1 = w.emit e := by
  unfold Interaction.editReply at h
  split at h
  · simp only [Option.some.injEq, Prod.mk.injEq] at h
    exact h.1.symm
  · simp at h

theorem generateTranscript_db_tickets (w : World) (i : Interaction)
    (env : TicketManager.CloseEnv) :
    (TicketManager.generateTranscript w i env).world.db.tickets = w.db.tickets := by
  unfold TicketManager.generateTranscript
  simp only
  split
  · rfl
  · split
    · split
      · rename_i h
        rw [editReply_eq_some h]
        rfl
      · rfl
    · split
      · rfl
      · rename_i h
        rw [editReply_eq_some h]
        rfl

theorem handleTicketAction_staysClosed (mgr : Nat) (w : World) (i : Interaction)
    (params : List String) (env : TicketManager.CloseEnv) :
    staysClosed w.db.tickets
      (TicketManager.handleTicketAction mgr w i params env).world.db.tickets = true := by
  have hrun : ∀ run : Outcome Unit, staysClosed w.db.tickets run.world.db.tickets = true →
      staysClosed w.db.tickets
        (match run.result with
          | .ok _ => run
          | .error _ =>
            TicketManager.replyOrThrow run.world run.interaction
              "❌ Erro ao processar ação. Tente novamente.").world.db.tickets = true := by
    intro run h
    split
    · exact h
    · rw [replyOrThrow_db]
      exact h
  unfold TicketManager.handleTicketAction
  simp only
  apply hrun
  split
  · rcases closeTicket_tickets mgr w i env with h | h
    · exact staysClosed_of_eq h
    · rw [h]
      exact staysClosed_closeTicket _ _ _ _ _
  · split
    · exact staysClosed_of_eq (claimTicket_db_tickets w i env.now)
    · split
      · exact staysClosed_of_eq (generateTranscript_db_tickets w i env)
      · rw [replyOrThrow_db]
        exact staysClosed_refl _

theorem cleanupFold_staysClosed (now : Nat) (rows : List TicketRow) (w : World) :
    staysClosed w.db.tickets (rows.foldl (TicketManager.cleanupOne now) w).db.tickets
      = true := by
  induction rows generalizing w with
  | nil => exact staysClosed_refl _
  | cons r rs ih =>
    simp only [List.foldl_cons]
    refine staysClosed_trans ?_ (ih _)
    unfold TicketManager.cleanupOne
    split
    · exact staysClosed_closeTicket _ _ _ _ _
    · exact staysClosed_refl _

theorem step_staysClosed {w w1 : World} (hs : Step w w1) :
    staysClosed w.db.tickets w1.db.tickets = true := by
  cases hs with
  | createTicket mgr _ i productId env =>
    rcases createTicket_tickets mgr w i productId env with h | ⟨_, row, _, _, h⟩
    · exact staysClosed_of_eq h
    · rw [h]
      exact staysClosed_append _ _
  | closeTicket mgr _ i env =>
    rcases closeTicket_tickets mgr w i env with h | h
    · exact staysClosed_of_eq h
    · rw [h]
      exact staysClosed_closeTicket _ _ _ _ _
  | idleTimeout _ t now dbOpen _ =>
    unfold TicketManager.idleTimeoutFire
    simp only
    split
    · exact staysClosed_refl _
    · split
      · exact staysClosed_refl _
      · exact staysClosed_closeTicket w.db t.channelId w.botId _ now
  | cleanup _ now => exact cleanupFold_staysClosed now _ w
  | channels _ cs => exact staysClosed_refl _

theorem dbOp_staysClosed {db db1 : Database} (h : DbOp db db1) :
    staysClosed db.tickets db1.tickets = true := by
  cases h with
  | createTicket _ _ _ _ _ hc =>
    unfold DatabaseManager.createTicket at hc
    split at hc
    · simp at hc
    · simp only [Option.some.injEq] at hc
      subst hc
      exact staysClosed_append _ _
  | closeTicket => exact staysClosed_closeTicket _ _ _ _ _
  | createUser => exact staysClosed_refl _
  | updateUser => exact staysClosed_refl _
  | createProduct => exact staysClosed_refl _
  | updateProduct => exact staysClosed_refl _
  | incrementProductSales => exact staysClosed_refl _
  | createSale => exact staysClosed_refl _
  | updateSale => exact staysClosed_refl _
  | logSecurityEvent => exact staysClosed_refl _
  | cleanupOldData => exact staysClosed_refl _
  | insertDefaultData => exact staysClosed_refl _

theorem operation_staysClosed {w w1 : World} (h : Operation w w1) :
    staysClosed w.db.tickets w1.db.tickets = true := by
  cases h with
  | step hs => exact step_staysClosed hs
  | claimTicket _ i now => exact staysClosed_of_eq (claimTicket_db_tickets w i now)
  | generateTranscript _ i env => exact staysClosed_of_eq (generateTranscript_db_tickets w i env)
  | handleTicketAction mgr _ i params env => exact handleTicketAction_staysClosed mgr w i params env
  | database _ db1 hdb => exact dbOp_staysClosed hdb

theorem operations_staysClosed {w w1 : World} (h : Operations w w1) :
    staysClosed w.db.tickets w1.db.tickets = true := by
  induction h with
  | refl => exact staysClosed_refl _
  | next _ hop ih => exact staysClosed_trans ih (operation_staysClosed hop)

/-- C14: no operation of the `TicketManager` or the `DatabaseManager` reopens a ticket.
After any number of operations (createTicket, closeTicket, idle timeout, cleanup, claim,
transcript, handleTicketAction, and every writing method of the `DatabaseManager`), a row
of the tickets table that was closed is still at its place, with the same key, channel and
owner, and its status is still 'closed'. -/
theorem closed_ticket_stays_closed (w w1 : World) (h : Operations w w1) (n : Nat)
    (t : TicketRow) (ht : w.db.tickets.get? n = some t) (hclosed : t.status = "closed") :
    ∃ t1, w1.db.tickets.get? n = some t1 ∧ t1.id = t.id ∧ t1.channel_id = t.channel_id ∧
      t1.user_id = t.user_id ∧ t1.status = "closed" := by
  obtain ⟨t1, h1, h2, h3, h4, h5⟩ := staysClosed_get (operations_staysClosed h) n t ht
  exact ⟨t1, h1, h2, h3, h4, h5 hclosed⟩

/-- Witness for C14: the ticket of `c1` was closed; after the user opened a new ticket and
a staff member tried to claim the old channel, its row is still closed. -/
theorem closed_ticket_stays_closed_witness :
    ∃ t1, (TicketManager.claimTicket
        (TicketManager.createTicket 2 sampleClosed sampleInteraction none
          { now := 3000, created := some "c2" }).world
        { sampleInteraction with channelId := "c1", staff := true } 4000).world.db.tickets.get? 0
          = some t1 ∧
      t1.id = sampleClosedTicket.id ∧ t1.channel_id = sampleClosedTicket.channel_id ∧
      t1.user_id = sampleClosedTicket.user_id ∧ t1.status = "closed" :=
  closed_ticket_stays_closed sampleClosed _
    (Operations.next
      (Operations.next (Operations.refl _) (Operation.step (Step.createTicket _ _ _ _ _)))
      (Operation.claimTicket _ _ _))
    0 sampleClosedTicket (by decide) rfl

/-! ### `cleanupOrphanedTickets` -/

/-- The loop of `cleanupOrphanedTickets` over any rows: the tickets whose channel is the
channel of one of the rows and is not in the cache are closed in the bot's name, and
nothing else changes. -/
theorem cleanupFold_world (now : Nat) (rows : List TicketRow) (w : World) :
    rows.foldl (TicketManager.cleanupOne now) w =
      { w with
        db := { w.db with
          tickets := w.db.tickets.map (fun t =>
            if rows.any (fun r => r.channel_id == t.channel_id && !w.hasChannel r.channel_id)
            then { t with status := "closed", closed_at := some now,
                          closed_by := some w.botId,
                          close_reason := some "Canal deletado manualmente" }
            else t) } } := by
  induction rows generalizing w with
  | nil => simp
  | cons r rs ih =>
    rw [List.foldl_cons, ih]
    unfold TicketManager.cleanupOne
    by_cases habs : w.hasChannel r.channel_id = true
    · simp only [habs, Bool.not_true, Bool.false_eq_true, if_false, List.any_cons,
        Bool.and_false, Bool.false_or]
    · simp only [Bool.not_eq_true] at habs
      simp only [habs, Bool.not_false, if_true, List.any_cons, Bool.and_true]
      unfold DatabaseManager.closeTicket World.hasChannel
      simp only [List.map_map]
      congr 2
      apply List.map_congr_left
      intro t _
      simp only [Function.comp]
      by_cases ht : (t.channel_id == r.channel_id) = true
      · have ht2 : (r.channel_id == t.channel_id) = true := by
          simp only [beq_iff_eq] at ht ⊢
          exact ht.symm
        simp only [ht, ht2, if_true, Bool.true_or]
        split <;> rfl
      · simp only [Bool.not_eq_true] at ht
        have ht2 : (r.channel_id == t.channel_id) = false := by
          simp only [beq_eq_false_iff_ne, ne_eq] at ht ⊢
          exact fun h => ht h.symm
        simp only [ht, ht2, Bool.false_eq_true, if_false, Bool.false_or]

/-- C15: `cleanupOrphanedTickets`, on a tickets table whose channel ids are pairwise
distinct (the `UNIQUE` constraint of the column), closes exactly the rows that were open
and whose channel is not in the client's channel cache, with the bot's id as `closed_by`;
every row that was already closed and every open row whose channel exists is unchanged,
and so is the rest of the world. -/
theorem cleanupOrphanedTickets_closes (w : World) (now : Nat)
    (hunique : (w.db.tickets.map (fun t => t.channel_id)).Nodup) :
    TicketManager.cleanupOrphanedTickets w now =
      { w with
        db := { w.db with
          tickets := w.db.tickets.map (fun t =>
            if t.status == "open" && !w.hasChannel t.channel_id
            then { t with status := "closed", closed_at := some now,
                          closed_by := some w.botId,
                          close_reason := some "Canal deletado manualmente" }
            else t) } } := by
  have hmap : w.db.tickets.map (fun t =>
        if (w.db.tickets.filter (fun t => t.status == "open")).any
            (fun r => r.channel_id == t.channel_id && !w.hasChannel r.channel_id)
        then { t with status := "closed", closed_at := some now,
                      closed_by := some w.botId,
                      close_reason := some "Canal deletado manualmente" }
        else t) =
      w.db.tickets.map (fun t =>
        if t.status == "open" && !w.hasChannel t.channel_id
        then { t with status := "closed", closed_at := some now,
                      closed_by := some w.botId,
                      close_reason := some "Canal deletado manualmente" }
        else t) := by
    apply List.map_congr_left
    intro t ht
    have hiff : (w.db.tickets.filter (fun t => t.status == "open")).any
        (fun r => r.channel_id == t.channel_id && !w.hasChannel r.channel_id) =
        (t.status == "open" && !w.hasChannel t.channel_id) := by
      rw [Bool.eq_iff_iff]
      simp only [List.any_eq_true, List.mem_filter, Bool.and_eq_true, beq_iff_eq]
      constructor
      · rintro ⟨r, ⟨hr, hopen⟩, hch, habs⟩
        have hrt : r = t := List.inj_on_of_nodup_map hunique hr ht hch
        subst hrt
        exact ⟨hopen, habs⟩
      · rintro ⟨hopen, habs⟩
        exact ⟨t, ⟨ht, hopen⟩, rfl, habs⟩
    simp only [hiff]
  unfold TicketManager.cleanupOrphanedTickets
  rw [cleanupFold_world, hmap]

/-- Witness for C15: channel `c1` of the open ticket was removed by hand; the cleanup closes
the row in the bot's name. -/
theorem cleanupOrphanedTickets_closes_witness :
    (sampleOrphaned.db.tickets.map (fun t => t.channel_id)).Nodup ∧
    (TicketManager.cleanupOrphanedTickets sampleOrphaned 5000).db.tickets =
      [{ sampleTicket with status := "closed", closed_at := some 5000,
                           closed_by := some "bot",
                           close_reason := some "Canal deletado manualmente" }] :=
  ⟨by decide, by
    rw [cleanupOrphanedTickets_closes sampleOrphaned 5000 (by decide)]
    decide⟩

/-! ### Closing a ticket that is closed already -/

/-- A `closeTicket` of the manager that goes through: the `UPDATE` runs and a deletion of
the channel is scheduled. -/
theorem closeTicket_goes_through (mgr : Nat) (w : World) (i : Interaction)
    (env : TicketManager.CloseEnv) (t : TicketRow)
    (ht : DatabaseManager.getTicket w.db i.channelId = some t)
    (hauth : t.user_id = i.user.id ∨ i.staff = true)
    (hd : i.deferred = false) (hr : i.replied = false) (hok : env.transcriptOk = true) :
    (TicketManager.closeTicket mgr w i env).world.db.tickets =
        (DatabaseManager.closeTicket w.db i.channelId i.user.id
          (some "Fechado pelo usuário") env.now).tickets ∧
      (TicketManager.closeTicket mgr w i env).world.scheduledDeletes =
        w.scheduledDeletes ++ [i.channelId] := by
  have hcond : (!(t.user_id == i.user.id) && !i.staff) = false := by
    rcases hauth with h | h
    · simp [h]
    · simp [h]
  unfold TicketManager.closeTicket
  simp only [ht, hcond, Interaction.defer, Interaction.editReply, hd, hr, hok,
    Bool.or_self, Bool.false_eq_true, if_false, Bool.not_true, Bool.or_true, if_true,
    Bool.true_or, emit_db]
  constructor
  · split <;> rfl
  · split <;> rfl

theorem hasChannel_timers (w : World) (timers : List IdleTimer) (id : String) :
    World.hasChannel { w with timers := timers } id = w.hasChannel id := rfl

/-- C13, amended: for a ticket that is closed already, an idle-timeout firing leaves the
database and the scheduled deletions as they are when the channel has left the channel
cache or the database handle of the arming instance is closed.  A later `closeTicket` by
the owner or a staff member that goes through, and an idle-timeout firing while the channel
is still in the cache, run the `UPDATE` again: the row stays as it was (status 'closed')
except that `closed_at`, `closed_by` and `close_reason` take the values of the later
closure, and one more deletion of the channel is scheduled. -/
theorem closing_a_closed_ticket (mgr : Nat) (w : World) (i : Interaction)
    (env : TicketManager.CloseEnv) (t : TicketRow)
    (ht : DatabaseManager.getTicket w.db i.channelId = some t)
    (hclosed : t.status = "closed") :
    (∀ (timer : IdleTimer) (now : Nat) (dbOpen : Bool),
      w.hasChannel timer.channelId = false ∨ dbOpen = false →
      (TicketManager.idleTimeoutFire w timer now dbOpen).db = w.db ∧
      (TicketManager.idleTimeoutFire w timer now dbOpen).scheduledDeletes =
        w.scheduledDeletes) ∧
    ((t.user_id = i.user.id ∨ i.staff = true) →
      i.deferred = false → i.replied = false → env.transcriptOk = true →
      DatabaseManager.getTicket (TicketManager.closeTicket mgr w i env).world.db i.channelId =
        some { t with closed_at := some env.now, closed_by := some i.user.id,
                      close_reason := some "Fechado pelo usuário" } ∧
      (TicketManager.closeTicket mgr w i env).world.scheduledDeletes =
        w.scheduledDeletes ++ [i.channelId]) ∧
    (∀ (timer : IdleTimer) (now : Nat),
      timer.channelId = i.channelId → w.hasChannel i.channelId = true →
      DatabaseManager.getTicket (TicketManager.idleTimeoutFire w timer now true).db
          i.channelId =
        some { t with closed_at := some now, closed_by := some w.botId,
                      close_reason := some "Fechado por inatividade" } ∧
      (TicketManager.idleTimeoutFire w timer now true).scheduledDeletes =
        w.scheduledDeletes ++ [i.channelId]) := by
  have hrow : ∀ (at_ : Nat) (by_ : String) (reason : String),
      ({ t with status := "closed", closed_at := some at_, closed_by := some by_,
                close_reason := some reason } : TicketRow) =
        { t with closed_at := some at_, closed_by := some by_,
                 close_reason := some reason } := by
    intro at_ by_ reason
    cases t
    simp only at hclosed
    subst hclosed
    rfl
  refine ⟨?_, ?_, ?_⟩
  · intro timer now dbOpen h
    unfold TicketManager.idleTimeoutFire
    simp only [hasChannel_timers]
    rcases h with h | h
    · simp only [h, Bool.not_false, if_true, and_self]
    · subst h
      simp only [Bool.not_false, if_true]
      split
      · exact ⟨rfl, rfl⟩
      · exact ⟨rfl, rfl⟩
  · intro hauth hd hr hok
    obtain ⟨h1, h2⟩ := closeTicket_goes_through mgr w i env t ht hauth hd hr hok
    refine ⟨?_, h2⟩
    have hget := getTicket_closeTicket w.db i.channelId i.user.id
      (some "Fechado pelo usuário") env.now t ht
    unfold DatabaseManager.getTicket at hget ⊢
    rw [h1, ← hrow]
    exact hget
  · intro timer now hch hhas
    unfold TicketManager.idleTimeoutFire
    simp only [hasChannel_timers]
    rw [hch]
    simp only [hhas, Bool.not_true, Bool.false_eq_true, if_false]
    rw [← hrow]
    exact ⟨getTicket_closeTicket w.db i.channelId w.botId
      (some "Fechado por inatividade") now t ht, rfl⟩

/-- Witness for C13: the closed ticket of `c1` is closed once more, by a staff member. -/
theorem closing_a_closed_ticket_witness :
    DatabaseManager.getTicket
        (TicketManager.closeTicket 0 sampleClosed
          { sampleInteraction with user := { sampleUser with id := "u2" }, channelId := "c1",
                                   staff := true }
          { now := 9000, transcriptOk := true }).world.db "c1" =
      some { sampleClosedTicket with closed_at := some 9000, closed_by := some "u2",
                                     close_reason := some "Fechado pelo usuário" } :=
  ((closing_a_closed_ticket 0 sampleClosed
      { sampleInteraction with user := { sampleUser with id := "u2" }, channelId := "c1",
                               staff := true }
      { now := 9000, transcriptOk := true } sampleClosedTicket (by decide) rfl).2.1
    (Or.inr rfl) rfl rfl rfl).1

/-- Counterexample to C13: the ticket of `c1` was closed by its owner at time 2000.  A staff
member presses close again at time 9000, before the channel is deleted: the row now says it
was closed at 9000 by the staff member, and the channel is scheduled for deletion twice. -/
theorem reclose_is_not_a_noop :
    DatabaseManager.getTicket sampleClosed.db "c1" = some sampleClosedTicket ∧
    sampleClosedTicket.closed_at = some 2000 ∧ sampleClosedTicket.closed_by = some "u1" ∧
    sampleClosed.scheduledDeletes = ["c1"] ∧
    (DatabaseManager.getTicket
        (TicketManager.closeTicket 0 sampleClosed
          { sampleInteraction with user := { sampleUser with id := "u2" }, channelId := "c1",
                                   staff := true }
          { now := 9000, transcriptOk := true }).world.db "c1").map
        (fun r => (r.status, r.closed_at, r.closed_by)) =
      some ("closed", some 9000, some "u2") ∧
    (TicketManager.closeTicket 0 sampleClosed
        { sampleInteraction with user := { sampleUser with id := "u2" }, channelId := "c1",
                                 staff := true }
        { now := 9000, transcriptOk := true }).world.scheduledDeletes = ["c1", "c1"] := by
  decide

/-! ### The idle timer after an explicit close -/

theorem category_db (w : World) (db : Database) :
    World.category { w with db := db } = w.category := rfl

/-- A `createTicket` that gets as far as the insert: the new row, the timer it arms and the
entry of the timer map, whether or not the final reply is accepted. -/
theorem createTicket_inserts (mgr : Nat) (w : World) (i : Interaction) (productId : Option Int)
    (env : TicketManager.CreateEnv) (channelId : String)
    (hnone : DatabaseManager.getUserActiveTickets w.db i.user.id = [])
    (hcat : w.category ≠ none) (hcreated : env.created = some channelId)
    (hnew : w.db.tickets.any (fun t => t.channel_id == channelId) = false) :
    (TicketManager.createTicket mgr w i productId env).world.db.tickets =
        w.db.tickets ++
          [{ id := w.db.seqTickets + 1, channel_id := channelId, user_id := i.user.id,
             product_id := if productId = some 0 then none else productId,
             status := "open", created_at := env.now,
             closed_at := none, closed_by := none, close_reason := none }] ∧
      (TicketManager.createTicket mgr w i productId env).world.timers =
        w.timers ++ [{ handle := w.nextHandle, manager := mgr, channelId := channelId }] ∧
      (TicketManager.createTicket mgr w i productId env).world.ticketTimeouts =
        w.ticketTimeouts.filter (fun e => !(e.manager == mgr && e.channelId == channelId)) ++
          [{ manager := mgr, channelId := channelId, handle := w.nextHandle }] := by
  have hcat1 : ∃ c, w.category = some c := Option.ne_none_iff_exists'.mp hcat
  obtain ⟨c, hc⟩ := hcat1
  unfold TicketManager.createTicket
  simp only [hnone, category_db, hc, hcreated]
  split
  · rename_i hdb
    unfold DatabaseManager.createTicket TicketManager.cacheChannel DatabaseManager.createUser
      at hdb
    simp only [emit_db] at hdb
    rw [if_neg (by simp only [hnew, Bool.false_eq_true, not_false_eq_true])] at hdb
    simp at hdb
  · rename_i db3 hdb
    unfold DatabaseManager.createTicket TicketManager.cacheChannel DatabaseManager.createUser
      at hdb
    simp only [emit_db] at hdb
    rw [if_neg (by simp only [hnew, Bool.false_eq_true, not_false_eq_true])] at hdb
    simp only [Option.some.injEq] at hdb
    subst hdb
    rw [replyInTry_world]
    split
    · exact ⟨rfl, rfl, rfl⟩
    · exact ⟨rfl, rfl, rfl⟩

/-- `closeTicket` of instance `mgr` clears no timer whose handle is not in the timer map of
that instance. -/
theorem closeTicket_keeps_timer (mgr : Nat) (w : World) (i : Interaction)
    (env : TicketManager.CloseEnv) (t : IdleTimer) (ht : t ∈ w.timers)
    (h : ∀ e ∈ w.ticketTimeouts, e.manager = mgr → e.handle ≠ t.handle) :
    t ∈ (TicketManager.closeTicket mgr w i env).world.timers := by
  have hreply : ∀ content, t ∈ (TicketManager.replyOrThrow w i content).world.timers := by
    intro content
    have h1 := congrArg World.timers (replyOrThrow_frame w i content)
    have h2 : (TicketManager.replyOrThrow w i content).world.timers = w.timers := h1
    rw [h2]
    exact ht
  unfold TicketManager.closeTicket
  simp only
  split
  · exact hreply _
  · split
    · exact hreply _
    · split
      · exact ht
      · split
        · split
          · rename_i h1
            rw [editReply_eq_some h1]
            exact ht
          · exact ht
        · split
          · exact ht
          · rename_i w1 i2 h1
            rw [editReply_eq_some h1]
            simp only [emit_timers, emit_ticketTimeouts]
            split
            · rename_i e he
              have hmem := List.mem_of_find?_eq_some he
              have hp := List.find?_some he
              simp only [Bool.and_eq_true, beq_iff_eq] at hp
              have hne := h e hmem hp.1
              simp only [List.mem_filter, Bool.not_eq_true', beq_eq_false_iff_ne, ne_eq]
              exact ⟨ht, fun heq => hne heq.symm⟩
            · exact ht

/-- The `ticket_close` button runs `closeTicket` of the bot's own instance; when that
throws, only a reply is added. -/
theorem ticket_close_button (w : World) (b : ButtonInteraction)
    (env : SecureTicketBot.ButtonEnv) (hb : b.customId = "ticket_close") :
    { (SecureTicketBot.handleButtonInteraction w b env).world with effects := w.effects } =
      { (TicketManager.closeTicket 0 w b.interaction env.close).world with
          effects := w.effects } := by
  have hpieces : (jsSplit '_' "ticket_close".toList).map String.mk = ["ticket", "close"] := by
    decide
  unfold SecureTicketBot.handleButtonInteraction TicketManager.handleTicketAction
  simp only [hb, hpieces, List.headD_cons, List.tail_cons, List.head?_cons]
  simp only [show ¬ ("ticket" = "product") by decide, if_false, if_true]
  split
  · rfl
  · have h1 := replyOrThrow_frame
      (TicketManager.closeTicket 0 w b.interaction env.close).world
      (TicketManager.closeTicket 0 w b.interaction env.close).interaction
      "❌ Erro ao processar ação. Tente novamente."
    exact congrArg (fun x : World => { x with effects := w.effects }) h1

theorem userCreateTicket_world (w : World) (i : Interaction) (env : TicketManager.CreateEnv) :
    (UserCommand.createTicket w i env).world =
      (TicketManager.createTicket w.nextManager
        { w with db := DatabaseManager.insertDefaultData w.db env.now,
                 nextManager := w.nextManager + 1 } i none env).world := by
  unfold UserCommand.createTicket
  simp only
  split <;> rfl

/-- The row of a channel that the table did not have, after it was appended. -/
theorem getTicket_appended (rows : List TicketRow) (row : TicketRow)
    (hnew : rows.any (fun t => t.channel_id == row.channel_id) = false) :
    (rows ++ [row]).find? (fun t => t.channel_id == row.channel_id) = some row := by
  induction rows with
  | nil => simp
  | cons r rs ih =>
    simp only [List.any_cons, Bool.or_eq_false_iff] at hnew
    simp only [List.cons_append, List.find?_cons, hnew.1]
    exact ih hnew.2

/-- C12 as the code has it: a ticket is created through `/user ticket`, which arms the idle
timer in a `TicketManager` instance of its own; the owner then presses `ticket_close`, the
close goes through and the row is closed in the owner's name; but the handler runs in the
bot's own instance, whose timer map has no entry for the channel, so the timer armed at
creation is not cancelled and is still armed after the close. -/
theorem close_button_leaves_idle_timer (w : World) (i : Interaction)
    (env : TicketManager.CreateEnv) (channelId : String) (b : ButtonInteraction)
    (benv : SecureTicketBot.ButtonEnv)
    (hmgr : w.nextManager ≠ 0)
    (hhandles : ∀ e ∈ w.ticketTimeouts, e.handle ≠ w.nextHandle)
    (hnone : DatabaseManager.getUserActiveTickets w.db i.user.id = [])
    (hcat : w.category ≠ none) (hcreated : env.created = some channelId)
    (hnew : w.db.tickets.any (fun t => t.channel_id == channelId) = false)
    (hb : b.customId = "ticket_close") (hch : b.interaction.channelId = channelId)
    (huser : b.interaction.user.id = i.user.id)
    (hd : b.interaction.deferred = false) (hr : b.interaction.replied = false)
    (hok : benv.close.transcriptOk = true) :
    ({ handle := w.nextHandle, manager := w.nextManager, channelId := channelId } : IdleTimer) ∈
        (UserCommand.createTicket w i env).world.timers ∧
      (∃ t, DatabaseManager.getTicket
          (SecureTicketBot.handleButtonInteraction (UserCommand.createTicket w i env).world
            b benv).world.db channelId = some t ∧
        t.status = "closed" ∧ t.closed_by = some i.user.id) ∧
      ({ handle := w.nextHandle, manager := w.nextManager, channelId := channelId } : IdleTimer) ∈
        (SecureTicketBot.handleButtonInteraction (UserCommand.createTicket w i env).world
          b benv).world.timers := by
  subst hch
  obtain ⟨h1, h2, h3⟩ := createTicket_inserts w.nextManager
    { w with db := DatabaseManager.insertDefaultData w.db env.now,
             nextManager := w.nextManager + 1 } i none env b.interaction.channelId hnone hcat
    hcreated hnew
  rw [← userCreateTicket_world] at h1 h2 h3
  simp only at h2 h3
  have h1 : (UserCommand.createTicket w i env).world.db.tickets =
      w.db.tickets ++
        [{ id := w.db.seqTickets + 1, channel_id := b.interaction.channelId,
           user_id := i.user.id, product_id := none, status := "open",
           created_at := env.now, closed_at := none, closed_by := none,
           close_reason := none }] := by
    rw [h1]
    rfl
  have hbutton := ticket_close_button (UserCommand.createTicket w i env).world b benv hb
  have htimers : (SecureTicketBot.handleButtonInteraction
      (UserCommand.createTicket w i env).world b benv).world.timers =
      (TicketManager.closeTicket 0 (UserCommand.createTicket w i env).world b.interaction
        benv.close).world.timers := by
    have h := congrArg World.timers hbutton
    exact h
  have hdb : (SecureTicketBot.handleButtonInteraction
      (UserCommand.createTicket w i env).world b benv).world.db =
      (TicketManager.closeTicket 0 (UserCommand.createTicket w i env).world b.interaction
        benv.close).world.db := by
    have h := congrArg World.db hbutton
    exact h
  have harmed : ({ handle := w.nextHandle, manager := w.nextManager, channelId := b.interaction.channelId }
      : IdleTimer) ∈ (UserCommand.createTicket w i env).world.timers := by
    rw [h2]
    simp
  refine ⟨harmed, ?_, ?_⟩
  · have hrow : DatabaseManager.getTicket (UserCommand.createTicket w i env).world.db
        b.interaction.channelId =
        some { id := w.db.seqTickets + 1, channel_id := b.interaction.channelId, user_id := i.user.id,
               product_id := none, status := "open", created_at := env.now,
               closed_at := none, closed_by := none, close_reason := none } := by
      unfold DatabaseManager.getTicket
      rw [h1]
      exact getTicket_appended w.db.tickets
        { id := w.db.seqTickets + 1, channel_id := b.interaction.channelId, user_id := i.user.id,
          product_id := none, status := "open", created_at := env.now,
          closed_at := none, closed_by := none, close_reason := none } hnew
    obtain ⟨g1, _⟩ := closeTicket_goes_through 0 (UserCommand.createTicket w i env).world
      b.interaction benv.close _ hrow (Or.inl huser.symm) hd hr hok
    have hget := getTicket_closeTicket (UserCommand.createTicket w i env).world.db
      b.interaction.channelId b.interaction.user.id (some "Fechado pelo usuário")
      benv.close.now _ hrow
    refine ⟨{ id := w.db.seqTickets + 1, channel_id := b.interaction.channelId, user_id := i.user.id,
              product_id := none, status := "closed", created_at := env.now,
              closed_at := some benv.close.now, closed_by := some b.interaction.user.id,
              close_reason := some "Fechado pelo usuário" }, ?_, rfl, ?_⟩
    · unfold DatabaseManager.getTicket at hget ⊢
      rw [hdb, g1]
      exact hget
    · simp only [huser]
  · rw [htimers]
    apply closeTicket_keeps_timer 0 _ _ _ _ harmed
    intro e he hzero
    rw [h3] at he
    simp only [List.mem_append, List.mem_filter, List.mem_singleton] at he
    rcases he with ⟨he, _⟩ | he
    · exact hhandles e he
    · rw [he] at hzero
      exact absurd hzero hmgr

/-- Witness for C12: on a fresh process `u1` opens a ticket with `/user ticket` and closes
it with the `ticket_close` button; the timer armed at creation is still armed. -/
theorem close_button_leaves_idle_timer_witness :
    (∃ t, DatabaseManager.getTicket
        (SecureTicketBot.handleButtonInteraction
          (UserCommand.createTicket sampleStart sampleInteraction
            { now := 1000, created := some "c1" }).world
          sampleCloseButton sampleButtonEnv).world.db "c1" = some t ∧
      t.status = "closed" ∧ t.closed_by = some "u1") ∧
    ({ handle := 0, manager := 1, channelId := "c1" } : IdleTimer) ∈
      (SecureTicketBot.handleButtonInteraction
        (UserCommand.createTicket sampleStart sampleInteraction
          { now := 1000, created := some "c1" }).world
        sampleCloseButton sampleButtonEnv).world.timers :=
  (close_button_leaves_idle_timer sampleStart sampleInteraction
    { now := 1000, created := some "c1" } "c1" sampleCloseButton sampleButtonEnv
    (by decide) (by decide) (by decide) (by decide) rfl (by decide) rfl rfl rfl rfl rfl rfl).2

/-! ### The admission checks -/

/-- C16: `validateInteraction` rejects an interaction of a blacklisted user with reason
'BLACKLISTED', whatever the bot flag and the state of the limiters, and rejects an
interaction of a non-blacklisted automated account with reason 'BOT_USER'; in both cases
no limiter is touched, so no point of the interactions limiter is consumed. -/
theorem validateInteraction_rejects (sm : SecurityManager) (i : Interaction) (now : Nat) :
    (i.user.id ∈ sm.blacklistedUsers →
      (SecurityManager.validateInteraction sm i now).2 =
          { valid := false, reason := some "BLACKLISTED" } ∧
        (SecurityManager.validateInteraction sm i now).1.rateLimiters = sm.rateLimiters) ∧
    (i.user.id ∉ sm.blacklistedUsers → i.user.bot = true →
      (SecurityManager.validateInteraction sm i now).2 =
          { valid := false, reason := some "BOT_USER" } ∧
        (SecurityManager.validateInteraction sm i now).1.rateLimiters = sm.rateLimiters) := by
  constructor
  · intro h
    unfold SecurityManager.validateInteraction
    simp only [h, if_true]
    exact ⟨trivial, rfl⟩
  · intro h hbot
    unfold SecurityManager.validateInteraction
    simp only [h, hbot, if_false, if_true]
    exact ⟨trivial, rfl⟩

/-- Witness for C16: `u1` is on the blacklist and is rejected; the automated account `b1`
is not on it and is rejected as a bot. -/
theorem validateInteraction_rejects_witness :
    (SecurityManager.validateInteraction { sampleSecurity with blacklistedUsers := ["u1"] }
        sampleInteraction 5000).2 = { valid := false, reason := some "BLACKLISTED" } ∧
    (SecurityManager.validateInteraction { sampleSecurity with blacklistedUsers := ["u1"] }
        { sampleInteraction with user := { sampleUser with id := "b1", bot := true } }
        5000).2 = { valid := false, reason := some "BOT_USER" } :=
  ⟨((validateInteraction_rejects { sampleSecurity with blacklistedUsers := ["u1"] }
        sampleInteraction 5000).1 (by decide)).1,
   ((validateInteraction_rejects { sampleSecurity with blacklistedUsers := ["u1"] }
        { sampleInteraction with user := { sampleUser with id := "b1", bot := true } }
        5000).2 (by decide) rfl).1⟩

/-! ### The commands limiter -/

/-- The record just stored under a key is the one found under it. -/
theorem find?_store (storage : List (String × LimiterRecord)) (key : String)
    (r : LimiterRecord) :
    (RateLimiterMemory.store storage key r).find? (fun e => e.1 == key) = some (key, r) := by
  unfold RateLimiterMemory.store
  simp

/-- The first `checkRateLimit` of a subject the default commands limiter has no record of:
it is allowed, and a window of 60000 seconds starts. -/
theorem checkRateLimit_first (sm : SecurityManager) (userId : String) (now : Nat)
    (hpoints : sm.rateLimiters.commands.points = 5)
    (hduration : sm.rateLimiters.commands.duration = 60000)
    (hfresh : RateLimiterMemory.record sm.rateLimiters.commands.storage userId now = none) :
    (SecurityManager.checkRateLimit sm userId "commands" now).2 =
        { allowed := true, resetTime := none, remainingPoints := none } ∧
      (SecurityManager.checkRateLimit sm userId "commands" now).1.rateLimiters.commands.points
        = 5 ∧
      (SecurityManager.checkRateLimit sm userId "commands" now).1.rateLimiters.commands.duration
        = 60000 ∧
      (SecurityManager.checkRateLimit sm userId "commands"
          now).1.rateLimiters.commands.storage.find? (fun e => e.1 == userId) =
        some (userId, { value := 1, expiresAt := some ((now : Int) + 60000000),
                        deletedAt := some ((now : Int) + 60000000) }) := by
  unfold SecurityManager.checkRateLimit RateLimiters.get? RateLimiters.put
    RateLimiterMemory.consume RateLimiterMemory.incrby
  simp only [if_true, hfresh, RateLimiterMemory.set, hpoints, hduration,
    RateLimiterMemory.timerDelay]
  norm_num
  exact find?_store _ _ _

/-- A `checkRateLimit` of a subject whose window of the default commands limiter is still
running: the point is counted, and the call is allowed while at most five are. -/
theorem checkRateLimit_running (sm : SecurityManager) (userId : String) (now : Nat)
    (v : Nat) (e : Int)
    (hpoints : sm.rateLimiters.commands.points = 5)
    (hduration : sm.rateLimiters.commands.duration = 60000)
    (hrec : sm.rateLimiters.commands.storage.find? (fun x => x.1 == userId) =
      some (userId, { value := v, expiresAt := some e, deletedAt := some e }))
    (hnow : (now : Int) < e) :
    (SecurityManager.checkRateLimit sm userId "commands" now).2 =
        (if v + 1 ≤ 5 then { allowed := true, resetTime := none, remainingPoints := none }
         else { allowed := false, resetTime := some (ceilSeconds (e - now)),
                remainingPoints := some 0 }) ∧
      (SecurityManager.checkRateLimit sm userId "commands" now).1.rateLimiters.commands.points
        = 5 ∧
      (SecurityManager.checkRateLimit sm userId "commands" now).1.rateLimiters.commands.duration
        = 60000 ∧
      (SecurityManager.checkRateLimit sm userId "commands"
          now).1.rateLimiters.commands.storage.find? (fun x => x.1 == userId) =
        some (userId, { value := v + 1, expiresAt := some e, deletedAt := some e }) := by
  have hlive : RateLimiterMemory.record sm.rateLimiters.commands.storage userId now =
      some { value := v, expiresAt := some e, deletedAt := some e } := by
    unfold RateLimiterMemory.record
    rw [hrec]
    simp [hnow]
  have hpos : e - (now : Int) > 0 := by omega
  unfold SecurityManager.checkRateLimit RateLimiters.get? RateLimiters.put
    RateLimiterMemory.consume RateLimiterMemory.incrby
  simp only [if_true, hlive, hpoints, hduration, hpos, or_true]
  by_cases hv : v + 1 ≤ 5
  · have hle : ¬ ((v + 1 : Nat) : Int) > 5 := by omega
    simp only [hle, hv, if_true, if_false]
    exact ⟨trivial, trivial, trivial, find?_store _ _ _⟩
  · have hgt : ((v + 1 : Nat) : Int) > 5 := by omega
    have hmax : max ((5 : Int) - ((v + 1 : Nat) : Int)) 0 = 0 := by omega
    simp only [hgt, hv, if_true, if_false, hmax]
    exact ⟨trivial, rfl, rfl, find?_store _ _ _⟩

/-- C17 as the code has it: on the default commands limiter (5 points, `duration: 60000`)
the first five `checkRateLimit` calls of a fresh subject are allowed and the sixth is
rejected with a positive `resetTime` in seconds; but the limiter reads its duration as
seconds, so the window lasts 60000 seconds: every further call before 60 000 000 ms have
passed since the first one is rejected as well, among them a call 61 seconds after it. -/
theorem commands_window_outlasts_a_minute (sm : SecurityManager) (userId : String)
    (t1 t2 t3 t4 t5 t6 t7 : Nat)
    (hpoints : sm.rateLimiters.commands.points = 5)
    (hduration : sm.rateLimiters.commands.duration = 60000)
    (hfresh : RateLimiterMemory.record sm.rateLimiters.commands.storage userId t1 = none)
    (h2 : t2 < t1 + 60000000) (h3 : t3 < t1 + 60000000) (h4 : t4 < t1 + 60000000)
    (h5 : t5 < t1 + 60000000) (h6 : t6 < t1 + 60000000) (h7 : t7 < t1 + 60000000) :
    SecurityManager.checkRateLimits sm userId "commands" [t1, t2, t3, t4, t5, t6, t7] =
      [{ allowed := true, resetTime := none, remainingPoints := none },
       { allowed := true, resetTime := none, remainingPoints := none },
       { allowed := true, resetTime := none, remainingPoints := none },
       { allowed := true, resetTime := none, remainingPoints := none },
       { allowed := true, resetTime := none, remainingPoints := none },
       { allowed := false, resetTime := some (ceilSeconds ((t1 : Int) + 60000000 - t6)),
         remainingPoints := some 0 },
       { allowed := false, resetTime := some (ceilSeconds ((t1 : Int) + 60000000 - t7)),
         remainingPoints := some 0 }] ∧
      0 < ceilSeconds ((t1 : Int) + 60000000 - t6) := by
  obtain ⟨r1, p1, d1, f1⟩ := checkRateLimit_first sm userId t1 hpoints hduration hfresh
  obtain ⟨r2, p2, d2, f2⟩ := checkRateLimit_running _ userId t2 1 _ p1 d1 f1 (by omega)
  obtain ⟨r3, p3, d3, f3⟩ := checkRateLimit_running _ userId t3 2 _ p2 d2 f2 (by omega)
  obtain ⟨r4, p4, d4, f4⟩ := checkRateLimit_running _ userId t4 3 _ p3 d3 f3 (by omega)
  obtain ⟨r5, p5, d5, f5⟩ := checkRateLimit_running _ userId t5 4 _ p4 d4 f4 (by omega)
  obtain ⟨r6, p6, d6, f6⟩ := checkRateLimit_running _ userId t6 5 _ p5 d5 f5 (by omega)
  obtain ⟨r7, _, _, _⟩ := checkRateLimit_running _ userId t7 6 _ p6 d6 f6 (by omega)
  constructor
  · simp only [SecurityManager.checkRateLimits, r1, r2, r3, r4, r5, r6, r7]
    simp
  · unfold ceilSeconds
    omega

/-- Witness for C17: six calls in the first five seconds and a seventh 61 seconds after the
first; the seventh is rejected, with more than sixteen hours left to wait. -/
theorem commands_window_outlasts_a_minute_witness :
    SecurityManager.checkRateLimits sampleSecurity "u1" "commands"
        [0, 1000, 2000, 3000, 4000, 5000, 61000] =
      [{ allowed := true, resetTime := none, remainingPoints := none },
       { allowed := true, resetTime := none, remainingPoints := none },
       { allowed := true, resetTime := none, remainingPoints := none },
       { allowed := true, resetTime := none, remainingPoints := none },
       { allowed := true, resetTime := none, remainingPoints := none },
       { allowed := false, resetTime := some 59995, remainingPoints := some 0 },
       { allowed := false, resetTime := some 59939, remainingPoints := some 0 }] :=
  (commands_window_outlasts_a_minute sampleSecurity "u1" 0 1000 2000 3000 4000 5000 61000
    rfl rfl rfl (by decide) (by decide) (by decide) (by decide) (by decide) (by decide)).1

/-! ### The checks before the confirmation prompt -/

/-- A rejection of `handleProductPurchase` before the prompt: the method ends, and what it
shows is one reply (or edited reply) to the actor. -/
theorem replyAndStop_rejects (w : World) (i : Interaction) (content : String) :
    (ProductManager.replyAndStop w i content).result = .ok none ∧
      ∃ text, (ProductManager.replyAndStop w i content).world.effects =
          w.effects ++ [.reply i.user.id text] ∨
        (ProductManager.replyAndStop w i content).world.effects =
          w.effects ++ [.editReply i.user.id text] := by
  unfold ProductManager.replyAndStop
  by_cases h : (i.deferred || i.replied) = true
  · rw [reply_of_acked h]
    unfold ProductManager.outerCatch
    simp only [h, if_true]
    exact ⟨trivial, _, Or.inr rfl⟩
  · rw [reply_of_fresh h]
    exact ⟨rfl, _, Or.inl rfl⟩

theorem cacheGet_mem {cache : List ProductRow} {id : Int} {p : ProductRow}
    (h : ProductManager.cacheGet cache id = some p) : p ∈ cache ∧ p.id = id := by
  unfold ProductManager.cacheGet at h
  have hmem := List.mem_of_getLast?_eq_some h
  rw [List.mem_filter] at hmem
  exact ⟨hmem.1, by simpa using hmem.2⟩

/-- C18: with a cache whose entries are active rows of the products table (what
`loadProductsFromDatabase` leaves), `handleProductPurchase` shows the confirmation prompt
only for a product id that names an active row of the table whose stock is not 0, and the
prompt is for that row.  When no active row with the selected id has stock other than 0
(the id is unknown, is not a number, names a deactivated product, or the stock is 0) the
method ends with one reply to the actor, shows no prompt, and leaves the rest of the world,
the database included, as it was. -/
theorem purchase_prompt_needs_stock (w : World) (i : Interaction) (productId : String)
    (hcache : ∀ p ∈ w.productsCache, p ∈ w.db.products ∧ p.is_active = 1) :
    (∀ pending,
      (ProductManager.handleProductPurchase_select w i productId).result = .ok (some pending) →
      pending.product ∈ w.db.products ∧
        ProductManager.parseInt productId = some pending.product.id ∧
        pending.product.is_active = 1 ∧ pending.product.stock_quantity ≠ 0 ∧
        (ProductManager.handleProductPurchase_select w i productId).world.effects =
          w.effects ++ [.confirmPrompt i.user.id productId pending.product]) ∧
    ((∀ row ∈ w.db.products, ProductManager.parseInt productId = some row.id →
        row.is_active = 1 → row.stock_quantity = 0) →
      (ProductManager.handleProductPurchase_select w i productId).result = .ok none ∧
      (∃ text, (ProductManager.handleProductPurchase_select w i productId).world.effects =
          w.effects ++ [.reply i.user.id text] ∨
        (ProductManager.handleProductPurchase_select w i productId).world.effects =
          w.effects ++ [.editReply i.user.id text]) ∧
      { (ProductManager.handleProductPurchase_select w i productId).world with
          effects := w.effects } = w) := by
  constructor
  · intro pending hres
    unfold ProductManager.handleProductPurchase_select at hres ⊢
    simp only at hres ⊢
    cases hp : ProductManager.parseInt productId with
    | none =>
      simp only [hp] at hres
      rw [(replyAndStop_rejects w i _).1] at hres
      simp at hres
    | some n =>
      simp only [hp] at hres ⊢
      cases hg : ProductManager.cacheGet w.productsCache n with
      | none =>
        simp only [hg] at hres
        rw [(replyAndStop_rejects w i _).1] at hres
        simp at hres
      | some product =>
        simp only [hg] at hres ⊢
        obtain ⟨hmem, hid⟩ := cacheGet_mem hg
        obtain ⟨hdb, hactive⟩ := hcache product hmem
        by_cases hstock : (product.stock_quantity == 0) = true
        · simp only [hstock, if_true] at hres
          rw [(replyAndStop_rejects w i _).1] at hres
          simp at hres
        · simp only [hstock, Bool.false_eq_true, if_false] at hres ⊢
          cases ht : DatabaseManager.getUserActiveTickets w.db i.user.id with
          | cons t ts =>
            simp only [ht] at hres
            rw [(replyAndStop_rejects w i _).1] at hres
            simp at hres
          | nil =>
            simp only [ht] at hres ⊢
            by_cases hack : (i.deferred || i.replied) = true
            · rw [reply_of_acked hack] at hres
              simp only at hres
              unfold ProductManager.outerCatch at hres
              split at hres <;> simp at hres
            · rw [reply_of_fresh hack] at hres ⊢
              simp only [Except.ok.injEq, Option.some.injEq] at hres
              subst hres
              simp only [emit_effects]
              refine ⟨hdb, by rw [hid], hactive, ?_, trivial⟩
              simpa using hstock
  · intro hnone
    refine ⟨?_, ?_, select_frame w i productId⟩
    · unfold ProductManager.handleProductPurchase_select
      simp only
      cases hp : ProductManager.parseInt productId with
      | none => exact (replyAndStop_rejects w i _).1
      | some n =>
        simp only
        cases hg : ProductManager.cacheGet w.productsCache n with
        | none => exact (replyAndStop_rejects w i _).1
        | some product =>
          obtain ⟨hmem, hid⟩ := cacheGet_mem hg
          obtain ⟨hdb, hactive⟩ := hcache product hmem
          have hzero := hnone product hdb (by rw [hp, hid]) hactive
          simp only [hzero, beq_self_eq_true, if_true]
          exact (replyAndStop_rejects w i _).1
    · unfold ProductManager.handleProductPurchase_select
      simp only
      cases hp : ProductManager.parseInt productId with
      | none => exact (replyAndStop_rejects w i _).2
      | some n =>
        simp only
        cases hg : ProductManager.cacheGet w.productsCache n with
        | none => exact (replyAndStop_rejects w i _).2
        | some product =>
          obtain ⟨hmem, hid⟩ := cacheGet_mem hg
          obtain ⟨hdb, hactive⟩ := hcache product hmem
          have hzero := hnone product hdb (by rw [hp, hid]) hactive
          simp only [hzero, beq_self_eq_true, if_true]
          exact (replyAndStop_rejects w i _).2

/-- Witness for C18: in the shop whose only product is sold out, selecting that product is
rejected with a reply and without a prompt; selecting the unknown id 7 in the stocked shop
is rejected as well. -/
theorem purchase_prompt_needs_stock_witness :
    (∀ p ∈ sampleSoldOut.productsCache, p ∈ sampleSoldOut.db.products ∧ p.is_active = 1) ∧
    (ProductManager.handleProductPurchase_select sampleSoldOut sampleInteraction "1").result =
      .ok none ∧
    (ProductManager.handleProductPurchase_select sampleShop sampleInteraction "7").result =
      .ok none :=
  ⟨by decide,
   ((purchase_prompt_needs_stock sampleSoldOut sampleInteraction "1" (by decide)).2
      (by decide)).1,
   ((purchase_prompt_needs_stock sampleShop sampleInteraction "7" (by decide)).2
      (by decide)).1⟩

/-! ### The sale of a confirmed purchase -/

/-- C19 as the code has it: the actor confirms a purchase and nothing stands in the way of
the ticket (no open ticket, the category exists, Discord creates the channel).
`handleProductPurchase` has deferred the confirmation before it hands it to `createTicket`,
so `createTicket` inserts the ticket row and then fails in its final reply; the error skips
`createSale`, and the method ends in its outer `catch`: the ticket row is there, and the
sales table is as it was, with no row for the purchase. -/
theorem confirmed_purchase_inserts_no_sale (w : World) (i : Interaction)
    (p : ProductManager.Pending) (arrivals : List ButtonInteraction)
    (env : TicketManager.CreateEnv) (c : ButtonInteraction) (channelId : String)
    (hc : ProductManager.awaitMessageComponent
      (ProductManager.confirmationFilter p.userId p.productId) arrivals = some c)
    (hconfirm : c.customId ≠ "cancel_purchase")
    (hd : c.interaction.deferred = false) (hr : c.interaction.replied = false)
    (hnone : DatabaseManager.getUserActiveTickets w.db c.interaction.user.id = [])
    (hcat : w.category ≠ none) (hcreated : env.created = some channelId)
    (hnew : w.db.tickets.any (fun t => t.channel_id == channelId) = false) :
    (ProductManager.handleProductPurchase_resume w i p arrivals env).world.db.tickets =
        w.db.tickets ++
          [{ id := w.db.seqTickets + 1, channel_id := channelId,
             user_id := c.interaction.user.id,
             product_id := if some p.productIdNum = some 0 then none else some p.productIdNum,
             status := "open", created_at := env.now,
             closed_at := none, closed_by := none, close_reason := none }] ∧
      (ProductManager.handleProductPurchase_resume w i p arrivals env).world.db.sales =
        w.db.sales := by
  refine ⟨?_, resume_sales w i p arrivals env⟩
  have hcancel : (c.customId == "cancel_purchase") = false := by simpa using hconfirm
  unfold ProductManager.handleProductPurchase_resume
  simp only [hc, hcancel, Bool.false_eq_true, if_false]
  cases hdefer : c.interaction.defer with
  | none =>
    unfold Interaction.defer at hdefer
    simp [hd, hr] at hdefer
  | some c1 =>
    have hc1 : c1 = { c.interaction with deferred := true } := by
      unfold Interaction.defer at hdefer
      split at hdefer
      · simp at hdefer
      · simp only [Option.some.injEq] at hdefer
        exact hdefer.symm
    have hack : (c1.deferred || c1.replied) = true := by
      rw [hc1]
      rfl
    have huser : c1.user.id = c.interaction.user.id := by
      rw [hc1]
    obtain ⟨e, he⟩ := createTicket_acked_throws w.nextManager
      { w with nextManager := w.nextManager + 1 } c1 (some p.productIdNum) env hack
    obtain ⟨h1, _, _⟩ := createTicket_inserts w.nextManager
      { w with nextManager := w.nextManager + 1 } c1 (some p.productIdNum) env channelId
      (by rw [huser]; exact hnone) hcat hcreated hnew
    simp only [he]
    rw [outerCatch_db, h1, huser]

/-- Witness for C19: in the sample shop `u1` selects product 1 and presses confirm, and
Discord creates channel `c1`.  The ticket row is inserted; the sales table still holds
only the sale it held before. -/
theorem confirmed_purchase_inserts_no_sale_witness :
    (ProductManager.handleProductPurchase_resume sampleShop samplePrompted samplePending
        [sampleConfirm] { now := 30, created := some "c1" }).world.db.tickets =
      [{ id := 1, channel_id := "c1", user_id := "u1", product_id := some 1, status := "open",
         created_at := 30, closed_at := none, closed_by := none, close_reason := none }] ∧
    (ProductManager.handleProductPurchase_resume sampleShop samplePrompted samplePending
        [sampleConfirm] { now := 30, created := some "c1" }).world.db.sales = [sampleSale] ∧
    (ProductManager.handleProductPurchase sampleShop sampleInteraction "1" (fun w => w)
        [sampleConfirm] { now := 30, created := some "c1" }).world.db.sales = [sampleSale] :=
  ⟨(confirmed_purchase_inserts_no_sale sampleShop samplePrompted samplePending [sampleConfirm]
      { now := 30, created := some "c1" } sampleConfirm "c1" (by decide) (by decide) rfl rfl
      (by decide) (by decide) rfl (by decide)).1,
   (confirmed_purchase_inserts_no_sale sampleShop samplePrompted samplePending [sampleConfirm]
      { now := 30, created := some "c1" } sampleConfirm "c1" (by decide) (by decide) rfl rfl
      (by decide) (by decide) rfl (by decide)).2,
   by decide⟩

/-! ### Supporting facts for the hypotheses above -/

/-- What `loadProductsFromDatabase` leaves: every cache entry is an active row of the
products table. -/
theorem loadProducts_cache_active (w : World) :
    ∀ p ∈ (ProductManager.loadProductsFromDatabase w).productsCache,
      p ∈ (ProductManager.loadProductsFromDatabase w).db.products ∧ p.is_active = 1 := by
  intro p hp
  unfold ProductManager.loadProductsFromDatabase DatabaseManager.getProducts at hp
  simp only [if_true, List.mem_filter, beq_iff_eq] at hp
  exact hp

/-- Inserting a product keeps every cache entry an active row of the table. -/
theorem createProduct_keeps_cache (w : World) (name : String) (description : Option String)
    (price : Nat) (imageUrl digitalContent : Option String) (stockQuantity : Option Int)
    (now : Nat) (h : ∀ p ∈ w.productsCache, p ∈ w.db.products ∧ p.is_active = 1) :
    ∀ p ∈ w.productsCache,
      p ∈ (DatabaseManager.createProduct w.db name description price imageUrl digitalContent
        stockQuantity now).products ∧ p.is_active = 1 := by
  intro p hp
  obtain ⟨h1, h2⟩ := h p hp
  unfold DatabaseManager.createProduct
  exact ⟨List.mem_append_left _ h1, h2⟩

/-- The window of the default commands limiter does end: the first call 60 000 000 ms after
the first one is allowed again. -/
theorem commands_window_ends :
    (SecurityManager.checkRateLimits sampleSecurity "u1" "commands"
        [0, 0, 0, 0, 0, 0, 59999999, 60000000]).map (fun r => r.allowed) =
      [true, true, true, true, true, false, false, true] := by
  decide

/-- The `UPDATE` of `DatabaseManager.closeTicket` keeps the channel of every row. -/
theorem closeTicket_channelIds (db : Database) (channelId closedBy : String)
    (reason : Option String) (now : Nat) :
    (DatabaseManager.closeTicket db channelId closedBy reason now).tickets.map
        (fun t => t.channel_id) = db.tickets.map (fun t => t.channel_id) := by
  unfold DatabaseManager.closeTicket
  simp only [List.map_map]
  apply List.map_congr_left
  intro t _
  simp only [Function.comp]
  split <;> rfl

/-- The insert of `DatabaseManager.createTicket` adds a channel the table did not have. -/
theorem createTicket_channelIds (db db1 : Database) (channelId userId : String)
    (productId : Option Int) (now : Nat)
    (h : DatabaseManager.createTicket db channelId userId productId now = some db1) :
    channelId ∉ db.tickets.map (fun t => t.channel_id) ∧
      db1.tickets.map (fun t => t.channel_id) =
        db.tickets.map (fun t => t.channel_id) ++ [channelId] := by
  unfold DatabaseManager.createTicket at h
  split at h
  · simp at h
  · rename_i hany
    simp only [Option.some.injEq] at h
    subst h
    constructor
    · intro hmem
      apply hany
      rw [List.mem_map] at hmem
      obtain ⟨t, ht, hch⟩ := hmem
      rw [List.any_eq_true]
      exact ⟨t, ht, by simpa using hch⟩
    · simp

/-- The channels of the tickets table after `createTicket` of the manager: the same, or one
more that the table did not have. -/
theorem createTicket_world_channelIds (mgr : Nat) (w : World) (i : Interaction)
    (productId : Option Int) (env : TicketManager.CreateEnv) :
    (TicketManager.createTicket mgr w i productId env).world.db.tickets.map
        (fun t => t.channel_id) = w.db.tickets.map (fun t => t.channel_id) ∨
      ∃ channelId, channelId ∉ w.db.tickets.map (fun t => t.channel_id) ∧
        (TicketManager.createTicket mgr w i productId env).world.db.tickets.map
          (fun t => t.channel_id) = w.db.tickets.map (fun t => t.channel_id) ++ [channelId] := by
  unfold TicketManager.createTicket
  simp only
  split
  · left
    rw [replyInTry_db]
  · split
    · left
      rw [replyInTry_db]
      rfl
    · split
      · left
        rw [createTicketCatch_db]
        rfl
      · split
        · left
          rw [createTicketCatch_db]
          rfl
        · rename_i db3 hdb
          right
          rw [replyInTry_db]
          obtain ⟨h1, h2⟩ := createTicket_channelIds _ _ _ _ _ _ hdb
          exact ⟨_, h1, h2⟩

theorem handleTicketAction_tickets (mgr : Nat) (w : World) (i : Interaction)
    (params : List String) (env : TicketManager.CloseEnv) :
    (TicketManager.handleTicketAction mgr w i params env).world.db.tickets = w.db.tickets ∨
      (TicketManager.handleTicketAction mgr w i params env).world.db.tickets =
        (DatabaseManager.closeTicket w.db i.channelId i.user.id
          (some "Fechado pelo usuário") env.now).tickets := by
  have hrun : ∀ run : Outcome Unit,
      (match run.result with
        | .ok _ => run
        | .error _ =>
          TicketManager.replyOrThrow run.world run.interaction
            "❌ Erro ao processar ação. Tente novamente.").world.db.tickets =
        run.world.db.tickets := by
    intro run
    split
    · rfl
    · rw [replyOrThrow_db]
  unfold TicketManager.handleTicketAction
  simp only
  rw [hrun]
  split
  · exact closeTicket_tickets mgr w i env
  · split
    · exact Or.inl (claimTicket_db_tickets w i env.now)
    · split
      · exact Or.inl (generateTranscript_db_tickets w i env)
      · left
        rw [replyOrThrow_db]

theorem nodup_of_ids_eq {a b : List TicketRow}
    (h : b.map (fun t => t.channel_id) = a.map (fun t => t.channel_id))
    (ha : (a.map (fun t => t.channel_id)).Nodup) : (b.map (fun t => t.channel_id)).Nodup := by
  rw [h]
  exact ha

theorem nodup_append_fresh {ids : List String} {channelId : String} (h : ids.Nodup)
    (hnew : channelId ∉ ids) : (ids ++ [channelId]).Nodup := by
  rw [List.nodup_append]
  refine ⟨h, List.nodup_singleton _, ?_⟩
  intro a ha hb
  rw [List.mem_singleton] at hb
  subst hb
  exact hnew ha

/-- Every operation keeps the channel ids of the tickets table pairwise distinct. -/
theorem operation_keeps_unique {w w1 : World} (h : Operation w w1)
    (hw : (w.db.tickets.map (fun t => t.channel_id)).Nodup) :
    (w1.db.tickets.map (fun t => t.channel_id)).Nodup := by
  have hclose : ∀ (db : Database) (tickets : List TicketRow) (c u : String)
      (r : Option String) (n : Nat),
      tickets = db.tickets ∨ tickets = (DatabaseManager.closeTicket db c u r n).tickets →
      tickets.map (fun t => t.channel_id) = db.tickets.map (fun t => t.channel_id) := by
    intro db tickets c u r n h
    rcases h with h | h
    · rw [h]
    · rw [h]
      exact closeTicket_channelIds db c u r n
  cases h with
  | step hs =>
    cases hs with
    | createTicket mgr _ i productId env =>
      rcases createTicket_world_channelIds mgr w i productId env with h | ⟨ch, hnew, h⟩
      · rw [h]
        exact hw
      · rw [h]
        exact nodup_append_fresh hw hnew
    | closeTicket mgr _ i env =>
      exact nodup_of_ids_eq (hclose _ _ _ _ _ _ (closeTicket_tickets mgr w i env)) hw
    | idleTimeout _ t now dbOpen _ =>
      unfold TicketManager.idleTimeoutFire
      simp only
      split
      · exact hw
      · split
        · exact hw
        · exact nodup_of_ids_eq (closeTicket_channelIds w.db t.channelId w.botId _ now) hw
    | cleanup _ now =>
      unfold TicketManager.cleanupOrphanedTickets
      rw [cleanupFold_world]
      simp only [List.map_map]
      have hids : w.db.tickets.map ((fun t : TicketRow => t.channel_id) ∘ fun t =>
          if (w.db.tickets.filter (fun t => t.status == "open")).any
            (fun r => r.channel_id == t.channel_id && !w.hasChannel r.channel_id)
          then { t with status := "closed", closed_at := some now,
                        closed_by := some w.botId,
                        close_reason := some "Canal deletado manualmente" }
          else t) = w.db.tickets.map (fun t => t.channel_id) := by
        apply List.map_congr_left
        intro t _
        simp only [Function.comp]
        split <;> rfl
      rw [hids]
      exact hw
    | channels _ cs => exact hw
  | claimTicket _ i now =>
    rw [claimTicket_db_tickets]
    exact hw
  | generateTranscript _ i env =>
    rw [generateTranscript_db_tickets]
    exact hw
  | handleTicketAction mgr _ i params env =>
    exact nodup_of_ids_eq (hclose _ _ _ _ _ _ (handleTicketAction_tickets mgr w i params env)) hw
  | database _ db1 hdb =>
    cases hdb with
    | createTicket _ _ _ _ _ hc =>
      obtain ⟨h1, h2⟩ := createTicket_channelIds _ _ _ _ _ _ hc
      simp only
      rw [h2]
      exact nodup_append_fresh hw h1
    | closeTicket => exact nodup_of_ids_eq (closeTicket_channelIds _ _ _ _ _) hw
    | createUser => exact hw
    | updateUser => exact hw
    | createProduct => exact hw
    | updateProduct => exact hw
    | incrementProductSales => exact hw
    | createSale => exact hw
    | updateSale => exact hw
    | logSecurityEvent => exact hw
    | cleanupOldData => exact hw
    | insertDefaultData => exact hw

/-- Any number of operations keep the channel ids of the tickets table pairwise distinct;
on a new database file the table is empty, so they are distinct in every world the bot
reaches. -/
theorem operations_keep_unique {w w1 : World} (h : Operations w w1)
    (hw : (w.db.tickets.map (fun t => t.channel_id)).Nodup) :
    (w1.db.tickets.map (fun t => t.channel_id)).Nodup := by
  induction h with
  | refl => exact hw
  | next _ hop ih => exact operation_keeps_unique hop ih

/-! ### `createTicket` when the channel cannot be created -/

/-- The users table after `createUser`, for a user who had no row: one more row. -/
theorem createUser_new_row (db : Database) (id username discriminator : String)
    (avatar : Option String) (now : Nat) (h : DatabaseManager.getUser db id = none) :
    (DatabaseManager.createUser db id username discriminator avatar now).users =
      db.users ++
        [{ id := id, username := username,
           discriminator := if discriminator == "" then "0000" else discriminator,
           avatar := avatar, created_at := now, updated_at := now,
           is_blacklisted := 0, total_tickets := 0, total_purchases := 0 }] := by
  unfold DatabaseManager.createUser
  simp only [List.append_cancel_right_eq]
  unfold DatabaseManager.getUser at h
  rw [List.find?_eq_none] at h
  rw [List.filter_eq_self]
  intro u hu
  have := h u hu
  simpa using this

/-- C21, amended: when `guild.channels.create` rejects inside `createTicket` (the caller has
no open ticket and the category exists), the error is propagated to the caller, no ticket
row is inserted and no channel enters the cache; but the repository is not as it was before
the call: `createUser` has already run, so the database is the one `createUser` leaves, and
a user who had no row in the users table has one after the failed call. -/
theorem createTicket_channel_failure (mgr : Nat) (w : World) (i : Interaction)
    (productId : Option Int) (env : TicketManager.CreateEnv)
    (hnone : DatabaseManager.getUserActiveTickets w.db i.user.id = [])
    (hcat : w.category ≠ none) (hfail : env.created = none) :
    (∃ e, (TicketManager.createTicket mgr w i productId env).result = .error e) ∧
      (TicketManager.createTicket mgr w i productId env).world.db =
        DatabaseManager.createUser w.db i.user.id i.user.username i.user.discriminator
          i.user.avatar env.now ∧
      (TicketManager.createTicket mgr w i productId env).world.db.tickets = w.db.tickets ∧
      (TicketManager.createTicket mgr w i productId env).world.channels = w.channels ∧
      (DatabaseManager.getUser w.db i.user.id = none →
        (TicketManager.createTicket mgr w i productId env).world.db.users =
          w.db.users ++
            [{ id := i.user.id, username := i.user.username,
               discriminator :=
                 if i.user.discriminator == "" then "0000" else i.user.discriminator,
               avatar := i.user.avatar, created_at := env.now, updated_at := env.now,
               is_blacklisted := 0, total_tickets := 0, total_purchases := 0 }]) := by
  obtain ⟨c, hc⟩ := Option.ne_none_iff_exists'.mp hcat
  have hrun : TicketManager.createTicket mgr w i productId env =
      TicketManager.createTicketCatch
        { w with db := DatabaseManager.createUser w.db i.user.id i.user.username
                         i.user.discriminator i.user.avatar env.now }
        i "guild.channels.create rejected" := by
    unfold TicketManager.createTicket
    simp only [hnone, category_db, hc, hfail]
  rw [hrun]
  refine ⟨createTicketCatch_result _ _ _, ?_, ?_, ?_, ?_⟩
  · rw [createTicketCatch_db]
  · rw [createTicketCatch_db]
    rfl
  · rw [createTicketCatch_world]
    split <;> rfl
  · intro hrow
    rw [createTicketCatch_db]
    exact createUser_new_row w.db _ _ _ _ _ hrow

/-- Witness for C21: on a fresh process Discord refuses the channel for `u1`; the call
throws, the tickets table stays empty, and the users table has a row for `u1`. -/
theorem createTicket_channel_failure_witness :
    (TicketManager.createTicket 1 sampleStart sampleInteraction none
        { now := 1000, created := none }).world.db.tickets = [] ∧
    (TicketManager.createTicket 1 sampleStart sampleInteraction none
        { now := 1000, created := none }).world.db.users =
      [{ id := "u1", username := "ana", discriminator := "0001", avatar := none,
         created_at := 1000, updated_at := 1000, is_blacklisted := 0, total_tickets := 0,
         total_purchases := 0 }] :=
  ⟨(createTicket_channel_failure 1 sampleStart sampleInteraction none
      { now := 1000, created := none } (by decide) (by decide) rfl).2.2.1,
   (createTicket_channel_failure 1 sampleStart sampleInteraction none
      { now := 1000, created := none } (by decide) (by decide) rfl).2.2.2.2 (by decide)⟩

/-- Counterexample to C21: the users table is empty before the call and holds a row after
the call in which the channel could not be created, so the repository is not left as it
was. -/
theorem channel_failure_leaves_user_row :
    sampleStart.db.users = [] ∧
    (TicketManager.createTicket 1 sampleStart sampleInteraction none
        { now := 1000, created := none }).world.db.users.length = 1 ∧
    (TicketManager.createTicket 1 sampleStart sampleInteraction none
        { now := 1000, created := none }).world.db ≠ sampleStart.db := by
  decide

/-! ### The user row -/

/-- The row `createUser` leaves for a user id, whatever row the id had before. -/
theorem getUser_createUser (db : Database) (id username discriminator : String)
    (avatar : Option String) (now : Nat) :
    DatabaseManager.getUser
        (DatabaseManager.createUser db id username discriminator avatar now) id =
      some { id := id, username := username,
             discriminator := if discriminator == "" then "0000" else discriminator,
             avatar := avatar, created_at := now, updated_at := now,
             is_blacklisted := 0, total_tickets := 0, total_purchases := 0 } := by
  unfold DatabaseManager.getUser DatabaseManager.createUser
  simp only
  rw [List.find?_append]
  have hnone : (db.users.filter (fun u => !(u.id == id))).find? (fun u => u.id == id) =
      none := by
    rw [List.find?_eq_none]
    intro u hu
    rw [List.mem_filter] at hu
    simpa using hu.2
  rw [hnone]
  simp

/-- Once `createTicket` has found no open ticket of the caller, the users table it leaves
is the one `createUser` leaves. -/
theorem createTicket_users (mgr : Nat) (w : World) (i : Interaction) (productId : Option Int)
    (env : TicketManager.CreateEnv)
    (hnone : DatabaseManager.getUserActiveTickets w.db i.user.id = []) :
    (TicketManager.createTicket mgr w i productId env).world.db.users =
      (DatabaseManager.createUser w.db i.user.id i.user.username i.user.discriminator
        i.user.avatar env.now).users := by
  unfold TicketManager.createTicket
  simp only [hnone]
  split
  · rw [replyInTry_db]
  · split
    · rw [createTicketCatch_db]
    · split
      · rw [createTicketCatch_db]
        rfl
      · rename_i db3 hdb
        rw [replyInTry_db]
        unfold DatabaseManager.createTicket at hdb
        split at hdb
        · simp at hdb
        · simp only [Option.some.injEq] at hdb
          subst hdb
          rfl

/-- C28 as the code has it: `createTicket` for a user who has a row in the users table
and no open ticket replaces the row (`INSERT OR REPLACE`): the new row carries the time of
the call as `created_at` and `updated_at`, and `is_blacklisted`, `total_tickets` and
`total_purchases` are back at 0, whatever the old row held. -/
theorem createTicket_replaces_user_row (mgr : Nat) (w : World) (i : Interaction)
    (productId : Option Int) (env : TicketManager.CreateEnv) (old : UserRow)
    (hold : DatabaseManager.getUser w.db i.user.id = some old)
    (hnone : DatabaseManager.getUserActiveTickets w.db i.user.id = []) :
    DatabaseManager.getUser (TicketManager.createTicket mgr w i productId env).world.db
        i.user.id =
      some { old with
        username := i.user.username,
        discriminator := if i.user.discriminator == "" then "0000" else i.user.discriminator,
        avatar := i.user.avatar, created_at := env.now, updated_at := env.now,
        is_blacklisted := 0, total_tickets := 0, total_purchases := 0 } := by
  have hid : old.id = i.user.id := by
    unfold DatabaseManager.getUser at hold
    have := List.find?_some hold
    simpa using this
  have hget := getUser_createUser w.db i.user.id i.user.username i.user.discriminator
    i.user.avatar env.now
  unfold DatabaseManager.getUser at hget ⊢
  rw [createTicket_users mgr w i productId env hnone, hget, hid]

/-- Witness for C28: `u1` got a user row at time 1000 with the first ticket, which was
closed; the second `createTicket`, at time 3000, leaves a row with `created_at` 3000. -/
theorem createTicket_replaces_user_row_witness :
    (DatabaseManager.getUser sampleClosed.db "u1").map (fun u => u.created_at) = some 1000 ∧
    (DatabaseManager.getUser
        (TicketManager.createTicket 2 sampleClosed sampleInteraction none
          { now := 3000, created := some "c2" }).world.db "u1").map (fun u => u.created_at) =
      some 3000 :=
  ⟨by decide,
   congrArg (Option.map (fun u : UserRow => u.created_at))
     (createTicket_replaces_user_row 2 sampleClosed sampleInteraction none
       { now := 3000, created := some "c2" }
       { id := "u1", username := "ana", discriminator := "0001", avatar := none,
         created_at := 1000, updated_at := 1000, is_blacklisted := 0, total_tickets := 0,
         total_purchases := 0 } (by decide) (by decide))⟩

/-! ### A confirmed purchase without a ticket category -/

theorem category_nextManager (w : World) (n : Nat) :
    World.category { w with nextManager := n } = w.category := rfl

/-- Without a ticket category `createTicket` writes at most the user row: tickets, sales,
security log and channel cache are as before. -/
theorem createTicket_without_category (mgr : Nat) (w : World) (i : Interaction)
    (productId : Option Int) (env : TicketManager.CreateEnv) (hcat : w.category = none) :
    (TicketManager.createTicket mgr w i productId env).world.db.tickets = w.db.tickets ∧
      (TicketManager.createTicket mgr w i productId env).world.db.sales = w.db.sales ∧
      (TicketManager.createTicket mgr w i productId env).world.db.security_logs =
        w.db.security_logs ∧
      (TicketManager.createTicket mgr w i productId env).world.channels = w.channels := by
  unfold TicketManager.createTicket
  simp only [category_db, hcat]
  split
  · rw [replyInTry_world]
    split <;> exact ⟨rfl, rfl, rfl, rfl⟩
  · rw [replyInTry_world]
    split <;> exact ⟨rfl, rfl, rfl, rfl⟩

theorem outerCatch_channels {α : Type} (w : World) (i : Interaction) (value : α) :
    (ProductManager.outerCatch w i value).world.channels = w.channels := by
  unfold ProductManager.outerCatch
  split <;> rfl

/-- C27: when no ticket category is configured, a confirmed purchase in
`handleProductPurchase` inserts no sale row and writes no security event, so no
PURCHASE_INITIATED event either; no ticket row is inserted and no channel is created.
(`createTicket` is handed the deferred confirmation, so its reply about the missing
category is rejected and it throws; `createSale` is not reached.) -/
theorem purchase_without_category (w : World) (i : Interaction) (p : ProductManager.Pending)
    (arrivals : List ButtonInteraction) (env : TicketManager.CreateEnv)
    (hcat : w.category = none) :
    (ProductManager.handleProductPurchase_resume w i p arrivals env).world.db.sales =
        w.db.sales ∧
      (ProductManager.handleProductPurchase_resume w i p arrivals env).world.db.security_logs =
        w.db.security_logs ∧
      (ProductManager.handleProductPurchase_resume w i p arrivals env).world.db.tickets =
        w.db.tickets ∧
      (ProductManager.handleProductPurchase_resume w i p arrivals env).world.channels =
        w.channels := by
  have hframe : ∀ (h : { (ProductManager.handleProductPurchase_resume w i p arrivals env).world
      with effects := w.effects } = w),
      (ProductManager.handleProductPurchase_resume w i p arrivals env).world.db.sales =
        w.db.sales ∧
      (ProductManager.handleProductPurchase_resume w i p arrivals env).world.db.security_logs =
        w.db.security_logs ∧
      (ProductManager.handleProductPurchase_resume w i p arrivals env).world.db.tickets =
        w.db.tickets ∧
      (ProductManager.handleProductPurchase_resume w i p arrivals env).world.channels =
        w.channels := by
    intro h
    have h1 := congrArg (fun x : World => x.db.sales) h
    have h2 := congrArg (fun x : World => x.db.security_logs) h
    have h3 := congrArg (fun x : World => x.db.tickets) h
    have h4 := congrArg World.channels h
    exact ⟨h1, h2, h3, h4⟩
  cases hc : ProductManager.awaitMessageComponent
      (ProductManager.confirmationFilter p.userId p.productId) arrivals with
  | none => exact hframe (resume_frame w i p arrivals env (Or.inl hc))
  | some c =>
    by_cases hcancel : c.customId = "cancel_purchase"
    · exact hframe (resume_frame w i p arrivals env (Or.inr ⟨c, hc, hcancel⟩))
    · unfold ProductManager.handleProductPurchase_resume
      simp only [hc]
      have hne : (c.customId == "cancel_purchase") = false := by simpa using hcancel
      simp only [hne, Bool.false_eq_true, if_false]
      cases hd : c.interaction.defer with
      | none =>
        simp only
        rw [outerCatch_db, outerCatch_channels]
        exact ⟨rfl, rfl, rfl, rfl⟩
      | some c1 =>
        have hack : (c1.deferred || c1.replied) = true := by
          unfold Interaction.defer at hd
          split at hd
          · simp at hd
          · simp only [Option.some.injEq] at hd
            rw [← hd]
            rfl
        obtain ⟨e, he⟩ := createTicket_acked_throws w.nextManager
          { w with nextManager := w.nextManager + 1 } c1 (some p.productIdNum) env hack
        obtain ⟨g1, g2, g3, g4⟩ := createTicket_without_category w.nextManager
          { w with nextManager := w.nextManager + 1 } c1 (some p.productIdNum) env
          (by rw [category_nextManager]; exact hcat)
        simp only [he]
        rw [outerCatch_db, outerCatch_channels]
        exact ⟨g2, g3, g1, g4⟩

/-- Witness for C27: in the shop without a ticket category `u1` confirms the purchase of
product 1; the sales table still holds only the sale it held, and the security log is
empty. -/
theorem purchase_without_category_witness :
    (ProductManager.handleProductPurchase_resume sampleNoCategory samplePrompted samplePending
        [sampleConfirm] { now := 30, created := some "c1" }).world.db.sales = [sampleSale] ∧
    (ProductManager.handleProductPurchase_resume sampleNoCategory samplePrompted samplePending
        [sampleConfirm] { now := 30, created := some "c1" }).world.db.security_logs = [] :=
  ⟨(purchase_without_category sampleNoCategory samplePrompted samplePending [sampleConfirm]
      { now := 30, created := some "c1" } (by decide)).1,
   (purchase_without_category sampleNoCategory samplePrompted samplePending [sampleConfirm]
      { now := 30, created := some "c1" } (by decide)).2.1⟩

/-! ### Two `createTicket` calls for one user -/

/-- `createTicket` is its body run on the answer of the query for the open tickets. -/
theorem createTicket_eq_from (mgr : Nat) (w : World) (i : Interaction)
    (productId : Option Int) (env : TicketManager.CreateEnv) :
    TicketManager.createTicket mgr w i productId env =
      TicketManager.createTicketFrom mgr w i productId env
        (DatabaseManager.getUserActiveTickets w.db i.user.id) := by
  unfold TicketManager.createTicket TicketManager.createTicketFrom
  rfl

/-- The body of `createTicket` after a query that found no open ticket, when nothing stands
in the way of the insert: the new row and the result. -/
theorem createTicketFrom_inserts (mgr : Nat) (w : World) (i : Interaction)
    (productId : Option Int) (env : TicketManager.CreateEnv) (channelId : String)
    (hcat : w.category ≠ none) (hcreated : env.created = some channelId)
    (hnew : w.db.tickets.any (fun t => t.channel_id == channelId) = false)
    (hd : i.deferred = false) (hr : i.replied = false) :
    (TicketManager.createTicketFrom mgr w i productId env []).world.db.tickets =
        w.db.tickets ++
          [{ id := w.db.seqTickets + 1, channel_id := channelId, user_id := i.user.id,
             product_id := if productId = some 0 then none else productId,
             status := "open", created_at := env.now,
             closed_at := none, closed_by := none, close_reason := none }] ∧
      (TicketManager.createTicketFrom mgr w i productId env []).result =
        .ok (.channel channelId) ∧
      (TicketManager.createTicketFrom mgr w i productId env []).world.ticketCategoryId =
        w.ticketCategoryId ∧
      (∃ more, (TicketManager.createTicketFrom mgr w i productId env []).world.channels =
        w.channels ++ more) := by
  obtain ⟨c, hc⟩ := Option.ne_none_iff_exists'.mp hcat
  unfold TicketManager.createTicketFrom
  simp only [category_db, hc, hcreated]
  split
  · rename_i hdb
    unfold DatabaseManager.createTicket TicketManager.cacheChannel DatabaseManager.createUser
      at hdb
    simp only [emit_db] at hdb
    rw [if_neg (by simp only [hnew, Bool.false_eq_true, not_false_eq_true])] at hdb
    simp at hdb
  · rename_i db3 hdb
    unfold DatabaseManager.createTicket TicketManager.cacheChannel DatabaseManager.createUser
      at hdb
    simp only [emit_db] at hdb
    rw [if_neg (by simp only [hnew, Bool.false_eq_true, not_false_eq_true])] at hdb
    simp only [Option.some.injEq] at hdb
    subst hdb
    rw [replyInTry_world, replyInTry_result _ _ _ _ hd hr]
    simp only [hd, hr, Bool.or_self, Bool.false_eq_true, if_false]
    refine ⟨rfl, trivial, rfl, ?_⟩
    unfold TicketManager.afterInsert TicketManager.setTicketTimeout TicketManager.cacheChannel
    simp only [emit_channels]
    split
    · exact ⟨[], by simp⟩
    · exact ⟨_, rfl⟩

/-- A category that is found stays found when channels are added at the end of the cache. -/
theorem category_append (w w1 : World) (more : List Channel)
    (hid : w1.ticketCategoryId = w.ticketCategoryId) (hch : w1.channels = w.channels ++ more)
    (hcat : w.category ≠ none) : w1.category ≠ none := by
  unfold World.category at hcat ⊢
  rw [hid, hch]
  cases hk : w.ticketCategoryId with
  | none => simp [hk] at hcat
  | some id =>
    simp only [hk] at hcat ⊢
    cases hf : w.channels.find? (fun c => c.id == id) with
    | none => simp [hf] at hcat
    | some c =>
      rw [List.find?_append, hf]
      simpa [hf] using hcat

/-- C23, amended: take a user without an open ticket and two `createTicket` calls for that
user, each of which Discord gives a channel of its own.  When the second call starts
after the first has ended, the first inserts an open ticket row and the second is
rejected with the reply for the existing ticket and inserts nothing.  When the calls
overlap, so that both queries for the user's open tickets are answered before either
call has inserted its row, both calls succeed and the user has two open ticket rows:
nothing but that query guards the insert. -/
theorem createTicket_twice (mgrA mgrB : Nat) (w : World) (iA iB : Interaction)
    (productIdA productIdB : Option Int) (envA envB : TicketManager.CreateEnv)
    (channelA channelB : String)
    (hsame : iB.user.id = iA.user.id)
    (hnone : DatabaseManager.getUserActiveTickets w.db iA.user.id = [])
    (hcat : w.category ≠ none)
    (hA : envA.created = some channelA) (hB : envB.created = some channelB)
    (hnewA : w.db.tickets.any (fun t => t.channel_id == channelA) = false)
    (hnewB : w.db.tickets.any (fun t => t.channel_id == channelB) = false)
    (hdiff : channelA ≠ channelB)
    (hdA : iA.deferred = false) (hrA : iA.replied = false)
    (hdB : iB.deferred = false) (hrB : iB.replied = false) :
    ((TicketManager.createTicket mgrA w iA productIdA envA).result = .ok (.channel channelA) ∧
      (TicketManager.createTicket mgrB (TicketManager.createTicket mgrA w iA productIdA
        envA).world iB productIdB envB).result = .ok .response ∧
      (DatabaseManager.getUserActiveTickets
        (TicketManager.createTicket mgrB (TicketManager.createTicket mgrA w iA productIdA
          envA).world iB productIdB envB).world.db iA.user.id).length = 1) ∧
    ((TicketManager.createTicketOverlapped mgrA mgrB w iA iB productIdA productIdB envA
        envB).1.result = .ok (.channel channelA) ∧
      (TicketManager.createTicketOverlapped mgrA mgrB w iA iB productIdA productIdB envA
        envB).2.result = .ok (.channel channelB) ∧
      (∃ rowA rowB : TicketRow,
        (TicketManager.createTicketOverlapped mgrA mgrB w iA iB productIdA productIdB envA
          envB).2.world.db.tickets = w.db.tickets ++ [rowA, rowB] ∧
        rowA.channel_id = channelA ∧ rowB.channel_id = channelB ∧
        rowA.user_id = iA.user.id ∧ rowB.user_id = iA.user.id ∧
        rowA.status = "open" ∧ rowB.status = "open") ∧
      (DatabaseManager.getUserActiveTickets
        (TicketManager.createTicketOverlapped mgrA mgrB w iA iB productIdA productIdB envA
          envB).2.world.db iA.user.id).length = 2) := by
  obtain ⟨a1, a2, a3, more, a4⟩ := createTicketFrom_inserts mgrA w iA productIdA envA
    channelA hcat hA hnewA hdA hrA
  have hcatA : (TicketManager.createTicketFrom mgrA w iA productIdA envA []).world.category
      ≠ none := category_append w _ more a3 a4 hcat
  have hnewB1 : (TicketManager.createTicketFrom mgrA w iA productIdA envA
      []).world.db.tickets.any (fun t => t.channel_id == channelB) = false := by
    rw [a1, List.any_append, hnewB]
    simpa using hdiff
  obtain ⟨b1, b2, _, _⟩ := createTicketFrom_inserts mgrB
    (TicketManager.createTicketFrom mgrA w iA productIdA envA []).world iB productIdB envB
    channelB hcatA hB hnewB1 hdB hrB
  have hactiveA : DatabaseManager.getUserActiveTickets
      (TicketManager.createTicketFrom mgrA w iA productIdA envA []).world.db iA.user.id =
      [{ id := w.db.seqTickets + 1, channel_id := channelA, user_id := iA.user.id,
         product_id := if productIdA = some 0 then none else productIdA,
         status := "open", created_at := envA.now,
         closed_at := none, closed_by := none, close_reason := none }] := by
    unfold DatabaseManager.getUserActiveTickets at hnone ⊢
    rw [a1, List.filter_append, hnone]
    simp
  constructor
  · rw [createTicket_eq_from mgrA w iA productIdA envA, hnone]
    refine ⟨a2, ?_, ?_⟩
    · unfold TicketManager.createTicket
      simp only [hsame, hactiveA]
      exact replyInTry_result _ _ _ _ hdB hrB
    · unfold TicketManager.createTicket
      simp only [hsame, hactiveA]
      rw [active_congr (congrArg Database.tickets (replyInTry_db _ _ _ _)), hactiveA]
      rfl
  · unfold TicketManager.createTicketOverlapped
    simp only [hsame, hnone]
    refine ⟨a2, b2, ⟨_, _, by rw [b1, a1, List.append_assoc]; rfl, rfl, rfl, rfl, hsame, rfl,
      rfl⟩, ?_⟩
    unfold DatabaseManager.getUserActiveTickets at hnone ⊢
    rw [b1, a1, List.filter_append, List.filter_append, hnone]
    simp [hsame]

/-- Witness for C23: on a fresh process two requests of `u1` overlap, Discord creates the
channels `c1` and `c2`, and `u1` has two open tickets; run one after the other, the second
request is rejected. -/
theorem createTicket_twice_witness :
    (TicketManager.createTicket 2 (TicketManager.createTicket 1 sampleStart sampleInteraction
        none { now := 1000, created := some "c1" }).world sampleInteraction none
        { now := 1001, created := some "c2" }).result = .ok .response ∧
    (DatabaseManager.getUserActiveTickets
        (TicketManager.createTicketOverlapped 1 2 sampleStart sampleInteraction
          sampleInteraction none none { now := 1000, created := some "c1" }
          { now := 1001, created := some "c2" }).2.world.db "u1").length = 2 :=
  ⟨(createTicket_twice 1 2 sampleStart sampleInteraction sampleInteraction none none
      { now := 1000, created := some "c1" } { now := 1001, created := some "c2" } "c1" "c2"
      rfl (by decide) (by decide) rfl rfl (by decide) (by decide) (by decide)
      rfl rfl rfl rfl).1.2.1,
   (createTicket_twice 1 2 sampleStart sampleInteraction sampleInteraction none none
      { now := 1000, created := some "c1" } { now := 1001, created := some "c2" } "c1" "c2"
      rfl (by decide) (by decide) rfl rfl (by decide) (by decide) (by decide)
      rfl rfl rfl rfl).2.2.2.2⟩

/-- Counterexample to C23: two overlapping `createTicket` calls of `u1`, who had no open
ticket, both create a ticket: both results are channels, and the tickets table holds two
open rows of `u1`. -/
theorem overlapping_createTicket_both_succeed :
    DatabaseManager.getUserActiveTickets sampleStart.db "u1" = [] ∧
    ((TicketManager.createTicketOverlapped 1 2 sampleStart sampleInteraction
        sampleInteraction none none { now := 1000, created := some "c1" }
        { now := 1001, created := some "c2" }).2.world.db.tickets.map
      (fun t => (t.channel_id, t.user_id, t.status))) =
      [("c1", "u1", "open"), ("c2", "u1", "open")] := by
  decide

/-! ### Creating products -/

theorem jsLength_eq_zero (s : String) : jsLength s = 0 ↔ s = "" := by
  unfold jsLength
  constructor
  · intro h
    cases hs : s.toList with
    | nil =>
      cases s with
      | mk data =>
        have hdata : data = [] := hs
        subst hdata
        rfl
    | cons c cs =>
      rw [hs] at h
      simp only [List.map_cons, List.sum_cons] at h
      split at h <;> omega
  · intro h
    rw [h]
    rfl

/-- What `validateProductData` accepts. -/
theorem validateProductData_ok (d : ProductManager.ProductData) :
    ProductManager.validateProductData d = .ok () ↔
      (∃ name, d.name = some name ∧ jsTrim name ≠ "" ∧ jsLength name ≤ 100) ∧
      (∃ price, d.price = some price ∧ 0 < price) ∧
      (∀ description, d.description = some description → jsLength description ≤ 500) := by
  have htrim : jsTrim "" = "" := by decide
  unfold ProductManager.validateProductData
  cases hn : d.name with
  | none => simp [htrim, jsLength_eq_zero]
  | some name =>
    cases hp : d.price with
    | none =>
      simp only [Option.getD_some, jsLength_eq_zero, Option.getD_none, true_or, if_true]
      constructor
      · intro h
        split at h <;> simp at h
      · rintro ⟨_, ⟨price, hprice, _⟩, _⟩
        simp at hprice
    | some price =>
      simp only [Option.getD_some, jsLength_eq_zero]
      by_cases h1 : name = "" ∨ jsTrim name = ""
      · simp only [h1, if_true]
        constructor
        · intro h
          simp at h
        · rintro ⟨⟨n, hname, htr, _⟩, _, _⟩
          simp only [Option.some.injEq] at hname
          subst hname
          rcases h1 with h1 | h1
          · rw [h1] at htr
            exact absurd htrim htr
          · exact absurd h1 htr
      · simp only [h1, if_false]
        have htr : jsTrim name ≠ "" := fun h => h1 (Or.inr h)
        by_cases h2 : price ≤ 0
        · simp only [h2, or_true, if_true]
          constructor
          · intro h
            simp at h
          · rintro ⟨_, ⟨q, hq, hpos⟩, _⟩
            simp only [Option.some.injEq] at hq
            omega
        · simp only [h2, or_false, if_false]
          simp only [show ¬ ((some price : Option Int) = none) by simp, if_false]
          by_cases h3 : jsLength name > 100
          · simp only [h3, if_true]
            constructor
            · intro h
              simp at h
            · rintro ⟨⟨n, hname, _, hlen⟩, _, _⟩
              simp only [Option.some.injEq] at hname
              subst hname
              omega
          · simp only [h3, if_false]
            cases hdesc : d.description with
            | none =>
              simp only [Option.getD_none, ne_eq, not_true_eq_false, false_and, if_false,
                true_iff]
              exact ⟨⟨name, rfl, htr, by omega⟩, ⟨price, rfl, by omega⟩, by simp⟩
            | some description =>
              simp only [Option.getD_some]
              by_cases h4 : description ≠ "" ∧ jsLength description > 500
              · rw [if_pos h4]
                constructor
                · intro h
                  simp at h
                · rintro ⟨_, _, hlen⟩
                  have := hlen description rfl
                  omega
              · rw [if_neg h4]
                simp only [true_iff]
                refine ⟨⟨name, rfl, htr, by omega⟩, ⟨price, rfl, by omega⟩, ?_⟩
                intro x hx
                simp only [Option.some.injEq] at hx
                subst hx
                by_cases hempty : description = ""
                · rw [hempty]
                  decide
                · have : ¬ jsLength description > 500 := fun h => h4 ⟨hempty, h⟩
                  omega

/-- A `createProduct` that passes the limit check and the validation: the insert. -/
theorem createProduct_run (node : NodeRuntime) (sm : SecurityManager) (iv : List Byte)
    (cache : List ProductRow) (db : Database) (d : ProductManager.ProductData) (now : Nat)
    (hsize : ProductManager.cacheSize cache < ProductManager.maxProducts)
    (hvalid : ProductManager.validateProductData d = .ok ()) :
    (ProductManager.createProduct node sm iv cache db d now).result = .id (db.seqProducts + 1) ∧
    (ProductManager.createProduct node sm iv cache db d now).db.products =
      db.products ++
        [{ id := db.seqProducts + 1, name := d.name.getD "", description := d.description,
           price := (d.price.getD 0).toNat, image_url := d.imageUrl,
           digital_content :=
             if d.digitalContent.getD "" = "" then d.digitalContent
             else some (SecurityManager.encrypt node sm iv (d.digitalContent.getD "")),
           is_active := 1,
           stock_quantity := if d.stockQuantity.getD 0 = 0 then -1 else d.stockQuantity.getD 0,
           created_at := now, updated_at := now, sales_count := 0 }] := by
  unfold ProductManager.createProduct
  rw [if_neg (by omega), hvalid]
  simp only
  refine ⟨trivial, ?_⟩
  unfold DatabaseManager.createProduct
  simp only [Option.getD_some, List.append_cancel_left_eq, List.cons.injEq, and_true]
  by_cases hq : d.stockQuantity.getD 0 = 0
  · simp [hq]
  · simp [hq]

/-- C30: `validateProductData` accepts product data exactly when the name is non-empty
after trimming and at most 100 long, the price is a number greater than zero, and the
description, when given, is at most 500 long (lengths as JavaScript counts them, in UTF-16
code units).  For data it rejects, `createProduct` resolves to a failure object and leaves
the database and the cache of the manager as they were. -/
theorem validateProductData_accepts (node : NodeRuntime) (sm : SecurityManager)
    (iv : List Byte) (cache : List ProductRow) (db : Database)
    (d : ProductManager.ProductData) (now : Nat) :
    (ProductManager.validateProductData d = .ok () ↔
      (∃ name, d.name = some name ∧ jsTrim name ≠ "" ∧ jsLength name ≤ 100) ∧
      (∃ price, d.price = some price ∧ 0 < price) ∧
      (∀ description, d.description = some description → jsLength description ≤ 500)) ∧
    (∀ message, ProductManager.validateProductData d = .error message →
      (∃ error, (ProductManager.createProduct node sm iv cache db d now).result =
        .failure error) ∧
      (ProductManager.createProduct node sm iv cache db d now).db = db ∧
      (ProductManager.createProduct node sm iv cache db d now).cache = cache) := by
  refine ⟨validateProductData_ok d, ?_⟩
  intro message hmessage
  unfold ProductManager.createProduct
  split
  · exact ⟨⟨_, rfl⟩, rfl, rfl⟩
  · rw [hmessage]
    exact ⟨⟨_, rfl⟩, rfl, rfl⟩

/-- Witness for C30: a name of blanks is rejected, and `createProduct` then fails without
writing. -/
theorem validateProductData_accepts_witness :
    (ProductManager.createProduct sampleNode sampleSecurity [] [] sampleShop.db
        { sampleProductData with name := some "   " } 50).db = sampleShop.db ∧
    ProductManager.validateProductData sampleProductData = .ok () :=
  ⟨((validateProductData_accepts sampleNode sampleSecurity [] [] sampleShop.db
        { sampleProductData with name := some "   " } 50).2
      "Nome do produto é obrigatório." rfl).2.1,
   (validateProductData_accepts sampleNode sampleSecurity [] [] sampleShop.db
        sampleProductData 50).1.2
      ⟨⟨"Extra", rfl, by decide, by decide⟩, ⟨1000, rfl, by decide⟩,
       fun _ h => by simp [sampleProductData] at h⟩⟩

/-- C24 as the code has it: for product data that passes the limit check and the
validation, `createProduct` stores the given stock quantity when it is not 0; a quantity of
0 is stored as -1, the mark for unlimited stock, just as an omitted quantity is
(`productData.stockQuantity || -1`). -/
theorem createProduct_stock (node : NodeRuntime) (sm : SecurityManager) (iv : List Byte)
    (cache : List ProductRow) (db : Database) (d : ProductManager.ProductData) (now : Nat)
    (hsize : ProductManager.cacheSize cache < ProductManager.maxProducts)
    (hvalid : ProductManager.validateProductData d = .ok ()) :
    ∃ row : ProductRow,
      (ProductManager.createProduct node sm iv cache db d now).db.products =
        db.products ++ [row] ∧
      row.id = db.seqProducts + 1 ∧
      (∀ q : Int, d.stockQuantity = some q → q ≠ 0 → row.stock_quantity = q) ∧
      (d.stockQuantity = some 0 → row.stock_quantity = -1) ∧
      (d.stockQuantity = none → row.stock_quantity = -1) := by
  obtain ⟨_, h⟩ := createProduct_run node sm iv cache db d now hsize hvalid
  refine ⟨_, h, rfl, ?_, ?_, ?_⟩
  · intro q hq hne
    simp only [hq, Option.getD_some, hne, if_false]
  · intro hq
    simp only [hq, Option.getD_some, if_true]
  · intro hq
    simp only [hq, Option.getD_none, if_true]

/-- Witness for C24: product data with a stock quantity of 0 passes the validation and is
stored with stock -1. -/
theorem createProduct_stock_witness :
    ProductManager.validateProductData sampleProductData = .ok () ∧
    sampleProductData.stockQuantity = some 0 ∧
    ∃ row : ProductRow,
      (ProductManager.createProduct sampleNode sampleSecurity [] [] sampleShop.db
        sampleProductData 50).db.products = sampleShop.db.products ++ [row] ∧
      row.stock_quantity = -1 :=
  ⟨rfl, rfl,
   match createProduct_stock sampleNode sampleSecurity [] [] sampleShop.db sampleProductData 50
       (by decide) rfl with
   | ⟨row, h1, _, _, h4, _⟩ => ⟨row, h1, h4 rfl⟩⟩

/-! ### The routing of button presses -/

/-- The first piece of a custom id that starts with a word without `_`, followed by `_`. -/
theorem jsSplit_head (word rest : String) (h : '_' ∉ word.toList) :
    ((jsSplit '_' (word ++ "_" ++ rest).toList).map String.mk).headD "" = word := by
  have hlist : (word ++ "_" ++ rest).toList = word.toList ++ '_' :: rest.toList := by
    simp [String.toList, String.data_append]
  rw [hlist, jsSplit_append '_' word.toList rest.toList h]
  rfl

/-- What `handleButtonInteraction` does in the default case of its `switch`. -/
theorem handleButtonInteraction_default (w : World) (b : ButtonInteraction)
    (env : SecureTicketBot.ButtonEnv)
    (hcase : SecureTicketBot.buttonCase b.customId = .default)
    (hd : b.interaction.deferred = false) (hr : b.interaction.replied = false) :
    (SecureTicketBot.handleButtonInteraction w b env).world =
      w.emit (.reply b.interaction.user.id "❌ Ação não reconhecida.") := by
  unfold SecureTicketBot.buttonCase at hcase
  unfold SecureTicketBot.handleButtonInteraction
  simp only at hcase ⊢
  by_cases h1 : ((jsSplit '_' b.customId.toList).map String.mk).headD "" = "product"
  · rw [if_pos h1] at hcase
    cases hcase
  · by_cases h2 : ((jsSplit '_' b.customId.toList).map String.mk).headD "" = "ticket"
    · rw [if_neg h1, if_pos h2] at hcase
      cases hcase
    · by_cases h3 : ((jsSplit '_' b.customId.toList).map String.mk).headD "" = "close"
      · rw [if_neg h1, if_neg h2, if_pos h3] at hcase
        cases hcase
      · simp only [h1, h2, h3, if_false, Interaction.reply, hd, hr, Bool.or_self,
          Bool.false_eq_true]

/-- C26 as the code has it: of the custom ids the bot puts on its buttons, `product_<id>`
takes the product case of `handleButtonInteraction` and `ticket_close`, `ticket_claim`
and `ticket_transcript` take the ticket case; `confirm_purchase_<id>` and
`cancel_purchase` have no case of their own (their first piece is `confirm` or `cancel`)
and take the default case, in which the press is answered with 'Ação não reconhecida'. -/
theorem own_buttons_reach_default (id : String) (w : World) (b : ButtonInteraction)
    (env : SecureTicketBot.ButtonEnv)
    (hid : b.customId = "confirm_purchase_" ++ id ∨ b.customId = "cancel_purchase")
    (hd : b.interaction.deferred = false) (hr : b.interaction.replied = false) :
    SecureTicketBot.buttonCase ("product_" ++ id) = .product ∧
    SecureTicketBot.buttonCase "ticket_close" = .ticket ∧
    SecureTicketBot.buttonCase "ticket_claim" = .ticket ∧
    SecureTicketBot.buttonCase "ticket_transcript" = .ticket ∧
    SecureTicketBot.buttonCase ("confirm_purchase_" ++ id) = .default ∧
    SecureTicketBot.buttonCase "cancel_purchase" = .default ∧
    (SecureTicketBot.handleButtonInteraction w b env).world =
      w.emit (.reply b.interaction.user.id "❌ Ação não reconhecida.") := by
  have hproduct : SecureTicketBot.buttonCase ("product_" ++ id) = .product := by
    unfold SecureTicketBot.buttonCase
    have h := jsSplit_head "product" id (by decide)
    rw [show ("product" ++ "_" : String) = "product_" from rfl] at h
    simp only [h, if_true]
  have hconfirm : SecureTicketBot.buttonCase ("confirm_purchase_" ++ id) = .default := by
    unfold SecureTicketBot.buttonCase
    have h := jsSplit_head "confirm" ("purchase_" ++ id) (by decide)
    have hs : "confirm" ++ "_" ++ ("purchase_" ++ id) = "confirm_purchase_" ++ id := by
      rw [String.append_assoc, ← String.append_assoc "_"]
      rfl
    rw [hs] at h
    simp only [h]
    decide
  have hcancel : SecureTicketBot.buttonCase "cancel_purchase" = .default := by decide
  refine ⟨hproduct, by decide, by decide, by decide, hconfirm, hcancel, ?_⟩
  apply handleButtonInteraction_default w b env _ hd hr
  rcases hid with h | h
  · rw [h]
    exact hconfirm
  · rw [h]
    exact hcancel

/-- Witness for C26: the cancel button of the confirmation prompt, pressed by `u1`, is
answered by `handleButtonInteraction` with 'Ação não reconhecida'. -/
theorem own_buttons_reach_default_witness :
    SecureTicketBot.buttonCase "confirm_purchase_1" = .default ∧
    (SecureTicketBot.handleButtonInteraction sampleShop sampleCancel
        sampleButtonEnv).world.effects = [.reply "u1" "❌ Ação não reconhecida."] :=
  ⟨(own_buttons_reach_default "1" sampleShop sampleCancel sampleButtonEnv (Or.inr rfl)
      rfl rfl).2.2.2.2.1,
   congrArg World.effects
     (own_buttons_reach_default "1" sampleShop sampleCancel sampleButtonEnv (Or.inr rfl)
       rfl rfl).2.2.2.2.2.2⟩

/-! ### The administrator list -/

theorem digit_not_whitespace (c : Char) (h : 48 ≤ c.toNat ∧ c.toNat ≤ 57) :
    ProductManager.isJsWhitespace c = false := by
  unfold ProductManager.isJsWhitespace
  simp only [Bool.or_eq_false_iff, Bool.and_eq_false_iff, decide_eq_false_iff_not]
  omega

/-- Trimming leaves a non-empty run of digits as it is. -/
theorem trim_digits (l : List Char) (h : ∀ c ∈ l, 48 ≤ c.toNat ∧ c.toNat ≤ 57) :
    ((l.dropWhile ProductManager.isJsWhitespace).reverse.dropWhile
      ProductManager.isJsWhitespace).reverse = l := by
  have hdrop : ∀ m : List Char, (∀ c ∈ m, 48 ≤ c.toNat ∧ c.toNat ≤ 57) →
      m.dropWhile ProductManager.isJsWhitespace = m := by
    intro m hm
    cases m with
    | nil => rfl
    | cons c cs =>
      rw [List.dropWhile_cons, digit_not_whitespace c (hm c (List.mem_cons_self _ _))]
      simp
  rw [hdrop l h, hdrop l.reverse (fun c hc => h c (List.mem_reverse.mp hc)), List.reverse_reverse]

theorem snowflake_digits (id : String) (h : EnvironmentValidator.validateSnowflake id = true) :
    (∀ c ∈ id.toList, 48 ≤ c.toNat ∧ c.toNat ≤ 57) ∧ 17 ≤ id.toList.length := by
  unfold EnvironmentValidator.validateSnowflake at h
  simp only [Bool.and_eq_true, List.all_eq_true, decide_eq_true_eq] at h
  exact ⟨h.1.1, h.1.2⟩

theorem digits_no_comma (l : List Char) (h : ∀ c ∈ l, 48 ≤ c.toNat ∧ c.toNat ≤ 57) :
    ',' ∉ l := by
  intro hmem
  have := h ',' hmem
  simp at this

/-- C29 as the code has it: take an `ADMIN_USER_IDS` value that lists two different ids
with a blank after the comma.  `validateAdminIds` trims the pieces and accepts the value;
the constructor of `SecurityManager` splits the same value without trimming, so `isAdmin`
recognises the first id and not the second, whose piece still carries the blank. -/
theorem admin_id_after_blank (env : ProcessEnv) (generated : String × String) (a b : String)
    (ha : EnvironmentValidator.validateSnowflake a = true)
    (hb : EnvironmentValidator.validateSnowflake b = true) (hab : a ≠ b)
    (henv : env.ADMIN_USER_IDS = some (a ++ ", " ++ b)) :
    EnvironmentValidator.validateAdminIds (a ++ ", " ++ b) = true ∧
    (jsSplit ',' (a ++ ", " ++ b).toList).map (fun piece => jsTrim (String.mk piece)) =
      [a, b] ∧
    SecurityManager.isAdmin (SecurityManager.new env generated) a = true ∧
    SecurityManager.isAdmin (SecurityManager.new env generated) b = false := by
  obtain ⟨hda, hla⟩ := snowflake_digits a ha
  obtain ⟨hdb, hlb⟩ := snowflake_digits b hb
  have hlist : (a ++ ", " ++ b).toList = a.toList ++ ',' :: (' ' :: b.toList) := by
    simp [String.toList, String.data_append]
  have hsplit : jsSplit ',' (a ++ ", " ++ b).toList = [a.toList, ' ' :: b.toList] := by
    rw [hlist, jsSplit_append ',' _ _ (digits_no_comma _ hda), jsSplit_of_not_mem]
    intro hmem
    rcases List.mem_cons.mp hmem with h | h
    · simp at h
    · exact digits_no_comma _ hdb h
  have htrimA : jsTrim (String.mk a.toList) = a := by
    unfold jsTrim
    simp only [String.toList]
    exact congrArg String.mk (trim_digits a.data hda)
  have htrimB : jsTrim (String.mk (' ' :: b.toList)) = b := by
    unfold jsTrim
    simp only [String.toList]
    rw [List.dropWhile_cons]
    rw [show ProductManager.isJsWhitespace ' ' = true by decide]
    simp only [if_true]
    exact congrArg String.mk (trim_digits b.data hdb)
  have hpieces : (jsSplit ',' (a ++ ", " ++ b).toList).map
      (fun piece => jsTrim (String.mk piece)) = [a, b] := by
    rw [hsplit]
    simp only [List.map_cons, List.map_nil, htrimA, htrimB]
  have hvalue : (a ++ ", " ++ b) ≠ "" := by
    intro h
    have hlen := congrArg (fun s : String => s.toList.length) h
    simp only [hlist, List.length_append, List.length_cons] at hlen
    simp at hlen
  have hadmins : (SecurityManager.new env generated).adminUserIds =
      [a, String.mk (' ' :: b.toList)] := by
    unfold SecurityManager.new
    simp only [henv, Option.getD_some, hvalue, if_false, hsplit, List.map_cons, List.map_nil]
    rfl
  have hbne : b ≠ String.mk (' ' :: b.toList) := by
    intro h
    have hlen := congrArg (fun s : String => s.toList.length) h
    simp [String.toList] at hlen
  refine ⟨?_, hpieces, ?_, ?_⟩
  · unfold EnvironmentValidator.validateAdminIds
    rw [hpieces]
    simp [ha, hb]
  · unfold SecurityManager.isAdmin
    rw [hadmins]
    simp
  · unfold SecurityManager.isAdmin
    rw [hadmins]
    simp only [List.contains_cons, List.contains_nil, Bool.or_false, Bool.or_eq_false_iff,
      beq_eq_false_iff_ne, ne_eq]
    exact ⟨fun h => hab h.symm, hbne⟩

/-- Witness for C29: the value `123456789012345678, 223456789012345678` passes
`validateAdminIds`, and `isAdmin` answers `false` for its second id. -/
theorem admin_id_after_blank_witness :
    EnvironmentValidator.validateAdminIds "123456789012345678, 223456789012345678" = true ∧
    SecurityManager.isAdmin (SecurityManager.new sampleSpacedEnv ("", ""))
      "223456789012345678" = false :=
  ⟨(admin_id_after_blank sampleSpacedEnv ("", "") "123456789012345678" "223456789012345678"
      (by decide) (by decide) (by decide) rfl).1,
   (admin_id_after_blank sampleSpacedEnv ("", "") "123456789012345678" "223456789012345678"
      (by decide) (by decide) (by decide) rfl).2.2.2⟩

/-! ### The `/admin` command -/

theorem logSecurityEvent_blacklist (sm : SecurityManager) (eventType userId : String) :
    (SecurityManager.logSecurityEvent sm eventType userId).blacklistedUsers =
      sm.blacklistedUsers := rfl

theorem validateInteraction_blacklist (sm : SecurityManager) (i : Interaction) (now : Nat) :
    (SecurityManager.validateInteraction sm i now).1.blacklistedUsers = sm.blacklistedUsers := by
  unfold SecurityManager.validateInteraction
  simp only
  split
  · rfl
  · split
    · rfl
    · split
      · rfl
      · unfold SecurityManager.checkSuspiciousActivity
        simp only [Bool.not_true, Bool.false_eq_true, if_false]
        split <;> split <;> rfl

theorem checkRateLimit_blacklist (sm : SecurityManager) (userId limiterType : String)
    (now : Nat) :
    (SecurityManager.checkRateLimit sm userId limiterType now).1.blacklistedUsers =
      sm.blacklistedUsers := by
  unfold SecurityManager.checkRateLimit
  split
  · simp only
    split <;> rfl
  · split <;> rfl

theorem validateInteraction_not_blacklisted (sm : SecurityManager) (i : Interaction)
    (now : Nat) (h : i.user.id ∉ sm.blacklistedUsers) :
    (SecurityManager.validateInteraction sm i now).2.reason ≠ some "BLACKLISTED" := by
  unfold SecurityManager.validateInteraction
  simp only [h, if_false]
  split
  · simp
  · split
    · simp
    · unfold SecurityManager.checkSuspiciousActivity
      simp

theorem reply_db (i i1 : Interaction) (w w1 : World) (e : Effect)
    (h : i.reply w e = some (w1, i1)) : w1.db = w.db := by
  unfold Interaction.reply at h
  split at h
  · cases h
  · cases h
    rfl

theorem editReply_db (i i1 : Interaction) (w w1 : World) (e : Effect)
    (h : i.editReply w e = some (w1, i1)) : w1.db = w.db := by
  unfold Interaction.editReply at h
  split at h
  · cases h
    rfl
  · cases h

theorem handler_db (handler : World → Interaction → Outcome Unit)
    (h : handler = AdminCommand.handleStats ∨ handler = AdminCommand.handleProduct ∨
      handler = AdminCommand.handleBlacklist ∨ handler = AdminCommand.handleCleanup ∨
      handler = AdminCommand.handleSecurity) (w : World) (i : Interaction) :
    (handler w i).world.db = w.db := by
  rcases h with h | h | h | h | h <;> subst h
  · unfold AdminCommand.handleStats
    split <;> rfl
  · unfold AdminCommand.handleProduct
    split <;> rfl
  · unfold AdminCommand.handleBlacklist
    split <;> rfl
  · unfold AdminCommand.handleCleanup
    split
    · rfl
    · split
      · rename_i h
        exact editReply_db _ _ _ _ _ h
      · rfl
  · unfold AdminCommand.handleSecurity
    split
    · rfl
    · split
      · rename_i h
        exact editReply_db _ _ _ _ _ h
      · rfl

/-- No subcommand of `/admin` writes to the database. -/
theorem execute_db (env : ProcessEnv) (generated : String × String) (w : World)
    (i : Interaction) (subcommand : String) :
    (AdminCommand.execute env generated w i subcommand).world.db = w.db := by
  have hrun : ∀ run : Outcome Unit, run.world.db = w.db →
      (match run.result with
        | .ok _ => run
        | .error _ =>
          match run.interaction.reply run.world
              (.reply i.user.id "❌ Erro interno. Verifique os logs.") with
          | some (w1, i1) => (⟨w1, i1, .ok ()⟩ : Outcome Unit)
          | none => ⟨run.world, run.interaction, .error "InteractionAlreadyReplied"⟩).world.db =
        w.db := by
    intro run hdb
    split
    · exact hdb
    · split
      · rename_i h
        exact (reply_db _ _ _ _ _ h).trans hdb
      · exact hdb
  unfold AdminCommand.execute
  simp only
  split
  · split
    · rename_i h
      exact reply_db _ _ _ _ _ h
    · rfl
  · apply hrun
    split
    · exact handler_db _ (Or.inl rfl) w i
    · split
      · exact handler_db _ (Or.inr (Or.inl rfl)) w i
      · split
        · exact handler_db _ (Or.inr (Or.inr (Or.inl rfl))) w i
        · split
          · exact handler_db _ (Or.inr (Or.inr (Or.inr (Or.inl rfl)))) w i
          · split
            · exact handler_db _ (Or.inr (Or.inr (Or.inr (Or.inr rfl)))) w i
            · rfl

theorem handleInteractionError_frame (bot : Bot) (i : Interaction) :
    (SecureTicketBot.handleInteractionError bot i).1.world.db = bot.world.db ∧
    (SecureTicketBot.handleInteractionError bot i).1.security.blacklistedUsers =
      bot.security.blacklistedUsers := by
  unfold SecureTicketBot.handleInteractionError
  simp only
  split
  · rename_i h
    refine ⟨?_, rfl⟩
    split at h
    · exact editReply_db _ _ _ _ _ h
    · exact reply_db _ _ _ _ _ h
  · exact ⟨rfl, rfl⟩

theorem handleSlashCommand_frame (env : ProcessEnv) (generated : String × String) (bot : Bot)
    (i : Interaction) (subcommand : String) (now : Nat) :
    (SecureTicketBot.handleSlashCommand env generated bot i subcommand now).bot.world.db =
      bot.world.db ∧
    (SecureTicketBot.handleSlashCommand env generated bot i subcommand
      now).bot.security.blacklistedUsers = bot.security.blacklistedUsers := by
  unfold SecureTicketBot.handleSlashCommand
  simp only
  split
  · split
    · rename_i h
      exact ⟨reply_db _ _ _ _ _ h, checkRateLimit_blacklist _ _ _ _⟩
    · exact ⟨rfl, checkRateLimit_blacklist _ _ _ _⟩
  · exact ⟨execute_db _ _ _ _ _, checkRateLimit_blacklist _ _ _ _⟩

/-- The handling of an `/admin` command leaves the database and the blacklist of the bot as
they were. -/
theorem interactionCreate_frame (env : ProcessEnv) (generated : String × String) (bot : Bot)
    (i : Interaction) (subcommand : String) (now : Nat) :
    (SecureTicketBot.interactionCreate env generated bot i subcommand now).1.world.db =
      bot.world.db ∧
    (SecureTicketBot.interactionCreate env generated bot i subcommand
      now).1.security.blacklistedUsers = bot.security.blacklistedUsers := by
  have hcheck : (SecureTicketBot.securityCheck bot i now).1.world.db = bot.world.db ∧
      (SecureTicketBot.securityCheck bot i now).1.security.blacklistedUsers =
        bot.security.blacklistedUsers :=
    ⟨rfl, validateInteraction_blacklist _ _ _⟩
  unfold SecureTicketBot.interactionCreate
  simp only
  split
  · split
    · rename_i h
      exact ⟨(reply_db _ _ _ _ _ h).trans hcheck.1, hcheck.2⟩
    · exact ⟨(handleInteractionError_frame _ _).1.trans hcheck.1,
        (handleInteractionError_frame _ _).2.trans hcheck.2⟩
  · have hslash := handleSlashCommand_frame env generated
      (SecureTicketBot.securityCheck bot i now).1 i subcommand now
    split
    · exact ⟨hslash.1.trans hcheck.1, hslash.2.trans hcheck.2⟩
    · exact ⟨(handleInteractionError_frame _ _).1.trans (hslash.1.trans hcheck.1),
        (handleInteractionError_frame _ _).2.trans (hslash.2.trans hcheck.2)⟩

/-- An administrator's `/admin stats`, `/admin product` or `/admin blacklist` that passes
the security check and the rate limit: the handler throws its `ReferenceError` after the
reply was deferred, the `interaction.reply` of the `catch` block of `execute` is rejected
on the deferred interaction, and the user sees the text of `handleInteractionError`. -/
theorem interactionCreate_throws (env : ProcessEnv) (generated : String × String) (bot : Bot)
    (i : Interaction) (subcommand : String) (now : Nat)
    (hsub : subcommand = "stats" ∨ subcommand = "product" ∨ subcommand = "blacklist")
    (hd : i.deferred = false) (hr : i.replied = false)
    (hadmin : SecurityManager.isAdmin (SecurityManager.new env generated) i.user.id = true)
    (hvalid : (SecureTicketBot.securityCheck bot i now).2.valid = true)
    (hallowed : (SecurityManager.checkRateLimit
      (SecureTicketBot.securityCheck bot i now).1.security i.user.id "commands"
        now).2.allowed = true) :
    (SecureTicketBot.interactionCreate env generated bot i subcommand now).1.world =
        bot.world.emit
          (.editReply i.user.id "❌ Ocorreu um erro interno. Nossa equipe foi notificada.") ∧
    (SecureTicketBot.interactionCreate env generated bot i subcommand now).2 =
        { i with deferred := true, replied := true } := by
  have hexec : AdminCommand.execute env generated bot.world i subcommand =
      ⟨bot.world, { i with deferred := true }, .error "InteractionAlreadyReplied"⟩ := by
    unfold AdminCommand.execute
    simp only [hadmin, Bool.not_true, Bool.false_eq_true, if_false]
    rcases hsub with h | h | h <;> subst h
    · simp only [if_true, AdminCommand.handleStats, Interaction.defer, hd, hr, Bool.or_self,
        Bool.false_eq_true, if_false, Interaction.reply, Bool.true_or]
    · simp only [if_true, AdminCommand.handleProduct, Interaction.defer, hd, hr, Bool.or_self,
        Bool.false_eq_true, if_false, Interaction.reply, Bool.true_or]
      rfl
    · simp only [if_true, AdminCommand.handleBlacklist, Interaction.defer, hd, hr,
        Bool.or_self, Bool.false_eq_true, if_false, Interaction.reply, Bool.true_or]
      rfl
  have hworld : (SecureTicketBot.securityCheck bot i now).1.world = bot.world := rfl
  unfold SecureTicketBot.interactionCreate SecureTicketBot.handleSlashCommand
  simp only [hvalid, hallowed, Bool.not_true, Bool.false_eq_true, if_false, hworld, hexec,
    SecureTicketBot.handleInteractionError, Bool.true_or, if_true, Interaction.editReply]
  exact ⟨trivial, trivial⟩

theorem cacheSize_of_nodup (cache : List ProductRow)
    (h : (cache.map (fun p => p.id)).Nodup) :
    ProductManager.cacheSize cache = cache.length := by
  unfold ProductManager.cacheSize
  rw [List.dedup_eq_self.mpr h, List.length_map]

theorem getProducts_ids_nodup (db : Database) (activeOnly : Bool)
    (h : (db.products.map (fun p => p.id)).Nodup) :
    ((DatabaseManager.getProducts db activeOnly).map (fun p => p.id)).Nodup := by
  unfold DatabaseManager.getProducts
  split
  · exact h.sublist ((List.filter_sublist _).map _)
  · exact h

theorem createProduct_full (node : NodeRuntime) (sm : SecurityManager) (iv : List Byte)
    (cache : List ProductRow) (db : Database) (d : ProductManager.ProductData) (now : Nat)
    (h : ProductManager.maxProducts ≤ ProductManager.cacheSize cache) :
    ProductManager.createProduct node sm iv cache db d now =
      ⟨db, cache, .failure "Limite máximo de 30 produtos atingido."⟩ := by
  unfold ProductManager.createProduct
  rw [if_pos h]

/-! ### The limit of thirty products -/

/-- C22: `/admin product create` never takes the number of active products beyond 30,
because it creates no product at all.  `handleProduct` ends with a `ReferenceError` right
after the reply was deferred, for every world and interaction, and leaves the world as it
was; the handling of the command by the bot leaves the database, and so the list of
active products, unchanged.  `createProduct` of `ProductManager`, which the command does
not reach, rejects with the limit message and writes nothing when the cache of its manager
holds 30 products or more; that is the case for a cache holding the active rows of a
products table with 30 or more active rows. -/
theorem product_limit_through_admin (env : ProcessEnv) (generated : String × String)
    (bot : Bot) (i : Interaction) (now : Nat) (node : NodeRuntime) (sm : SecurityManager)
    (iv : List Byte) (db : Database) (d : ProductManager.ProductData) (clock : Nat) :
    (∀ (w : World) (j : Interaction),
      (AdminCommand.handleProduct w j).world = w ∧
      ∃ e, (AdminCommand.handleProduct w j).result = .error e) ∧
    (SecureTicketBot.interactionCreate env generated bot i "product" now).1.world.db =
      bot.world.db ∧
    (DatabaseManager.getProducts
        (SecureTicketBot.interactionCreate env generated bot i "product" now).1.world.db
        true).length = (DatabaseManager.getProducts bot.world.db true).length ∧
    (∀ cache : List ProductRow,
      ProductManager.maxProducts ≤ ProductManager.cacheSize cache →
      ProductManager.createProduct node sm iv cache db d clock =
        ⟨db, cache, .failure "Limite máximo de 30 produtos atingido."⟩) ∧
    ((db.products.map (fun p => p.id)).Nodup →
      30 ≤ (DatabaseManager.getProducts db true).length →
      ProductManager.createProduct node sm iv (DatabaseManager.getProducts db true) db d
          clock =
        ⟨db, DatabaseManager.getProducts db true,
          .failure "Limite máximo de 30 produtos atingido."⟩) := by
  have hdb := (interactionCreate_frame env generated bot i "product" now).1
  refine ⟨?_, hdb, by rw [hdb], fun cache h => createProduct_full node sm iv cache db d clock h,
    ?_⟩
  · intro w j
    unfold AdminCommand.handleProduct
    split
    · exact ⟨rfl, _, rfl⟩
    · exact ⟨rfl, _, rfl⟩
  · intro hids hlen
    apply createProduct_full
    rw [cacheSize_of_nodup _ (getProducts_ids_nodup db true hids)]
    exact hlen

/-- Witness for C22: the products table holds thirty active products; an administrator
runs `/admin product create`, and the table still holds thirty; `createProduct` of a
manager whose cache holds these thirty rows answers with the limit message. -/
theorem product_limit_through_admin_witness :
    (DatabaseManager.getProducts sampleFullBot.world.db true).length = 30 ∧
    (DatabaseManager.getProducts
        (SecureTicketBot.interactionCreate sampleEnv ("", "") sampleFullBot
          sampleAdminInteraction "product" 1000).1.world.db true).length = 30 ∧
    (ProductManager.createProduct sampleNode sampleSecurity []
        (DatabaseManager.getProducts sampleFullShop.db true) sampleFullShop.db
        sampleProductData 50).result = .failure "Limite máximo de 30 produtos atingido." :=
  ⟨by decide,
   (product_limit_through_admin sampleEnv ("", "") sampleFullBot sampleAdminInteraction 1000
      sampleNode sampleSecurity [] sampleFullShop.db sampleProductData 50).2.2.1.trans
      (by decide),
   congrArg ProductManager.CreateProductRun.result
     ((product_limit_through_admin sampleEnv ("", "") sampleFullBot sampleAdminInteraction 1000
        sampleNode sampleSecurity [] sampleFullShop.db sampleProductData 50).2.2.2.2
        (by decide) (by decide))⟩

/-! ### The blacklist command and the gate -/

/-- C25 as the code has it: `/admin blacklist` blacklists nobody.  `handleBlacklist` ends
with a `ReferenceError` at `new SecurityManager()`, right after the reply was deferred, for
every world and interaction, whatever the action and the user named; `blacklistUser` is not
reached.  The handling of the command by the bot leaves the blacklist of the bot's own
`SecurityManager`, the one the `InteractionCreate` handler asks, as it was.  So for a user
who was not on that list before, no later interaction is rejected with reason
'BLACKLISTED'.  An administrator whose command passes the security check and the rate
limit is shown the internal-error text and nothing else. -/
theorem blacklist_command_blacklists_nobody (env : ProcessEnv) (generated : String × String)
    (bot : Bot) (i : Interaction) (now : Nat) (user : String)
    (hnot : user ∉ bot.security.blacklistedUsers) :
    (∀ (w : World) (j : Interaction),
      (AdminCommand.handleBlacklist w j).world = w ∧
      ∃ e, (AdminCommand.handleBlacklist w j).result = .error e) ∧
    (SecureTicketBot.interactionCreate env generated bot i "blacklist"
      now).1.security.blacklistedUsers = bot.security.blacklistedUsers ∧
    (∀ (later : Interaction) (clock : Nat), later.user.id = user →
      (SecureTicketBot.securityCheck
        (SecureTicketBot.interactionCreate env generated bot i "blacklist" now).1 later
        clock).2.reason ≠ some "BLACKLISTED") ∧
    (i.deferred = false → i.replied = false →
      SecurityManager.isAdmin (SecurityManager.new env generated) i.user.id = true →
      (SecureTicketBot.securityCheck bot i now).2.valid = true →
      (SecurityManager.checkRateLimit (SecureTicketBot.securityCheck bot i now).1.security
        i.user.id "commands" now).2.allowed = true →
      (SecureTicketBot.interactionCreate env generated bot i "blacklist" now).1.world =
        bot.world.emit
          (.editReply i.user.id
            "❌ Ocorreu um erro interno. Nossa equipe foi notificada.")) := by
  have hlist := (interactionCreate_frame env generated bot i "blacklist" now).2
  refine ⟨?_, hlist, ?_, ?_⟩
  · intro w j
    unfold AdminCommand.handleBlacklist
    split
    · exact ⟨rfl, _, rfl⟩
    · exact ⟨rfl, _, rfl⟩
  · intro later clock hlater
    apply validateInteraction_not_blacklisted
    rw [hlist, hlater]
    exact hnot
  · intro hd hr hadmin hvalid hallowed
    exact (interactionCreate_throws env generated bot i "blacklist" now
      (Or.inr (Or.inr rfl)) hd hr hadmin hvalid hallowed).1

/-- Witness for C25: the administrator of `sampleEnv` runs `/admin blacklist add` for
`u1`, who is not on the blacklist; the command shows the internal-error text, and the next
interaction of `u1` is not rejected as blacklisted. -/
theorem blacklist_command_blacklists_nobody_witness :
    "u1" ∉ sampleBot.security.blacklistedUsers ∧
    (SecureTicketBot.interactionCreate sampleEnv ("", "") sampleBot sampleAdminInteraction
        "blacklist" 1000).1.world.effects =
      [.editReply "123456789012345678"
        "❌ Ocorreu um erro interno. Nossa equipe foi notificada."] ∧
    (SecureTicketBot.securityCheck
        (SecureTicketBot.interactionCreate sampleEnv ("", "") sampleBot sampleAdminInteraction
          "blacklist" 1000).1 sampleInteraction 5000).2.reason ≠ some "BLACKLISTED" :=
  ⟨by decide,
   (congrArg World.effects
      ((blacklist_command_blacklists_nobody sampleEnv ("", "") sampleBot sampleAdminInteraction
        1000 "u1" (by decide)).2.2.2 rfl rfl (by decide) (by decide) (by decide))).trans
      (by decide),
   (blacklist_command_blacklists_nobody sampleEnv ("", "") sampleBot sampleAdminInteraction
      1000 "u1" (by decide)).2.2.1 sampleInteraction 5000 rfl⟩

/-- After `/admin blacklist add` for `u1` the security check lets the next interaction of
`u1` through. -/
theorem blacklist_command_lets_through :
    (SecureTicketBot.securityCheck
        (SecureTicketBot.interactionCreate sampleEnv ("", "") sampleBot sampleAdminInteraction
          "blacklist" 1000).1 sampleInteraction 5000).2 =
      { valid := true, reason := none } := by
  decide

end TicketBot
